import Mathlib

/-!
# Pointing-device settings mappers of `plugins/mouse/csd-mouse-manager.c`

A shallow embedding of the payload computations of the mouse manager
(button-map handedness swap, acceleration encodings, synaptics property
tables) together with the properties they satisfy.

Conventions of the embedding:
* a button map (`guchar *buttons`) is a `List Nat`, physical button `i + 1`
  being entry `i`;
* the value of a `gfloat` or `double` is a rational (`ℚ`), the C `floor` and
  `ceil` are `Int.floor` and `Int.ceil`; a product of `float` operands is
  rounded to binary32 (`binary32_round`), arithmetic on `double` operands that
  is exact on the values involved is exact;
* a device property is its type atom, its format and its list of items.
-/

namespace CsdMouse

/-! ## Handedness: `configure_button_layout` -/

/-- The `for (i = 0; i < n_buttons; i++)` loop of `configure_button_layout`:
scan the first `n` entries and overwrite the first one that equals `target`
with `repl`, then `break`. -/
def swap_first (target repl : Nat) : Nat → List Nat → List Nat
  | 0, bs => bs
  | _ + 1, [] => []
  | k + 1, b :: bs =>
    if b = target then repl :: bs else b :: swap_first target repl k bs

/-- The function `configure_button_layout (buttons, n_buttons, left_handed)`.
`left_button` is the constant 1 and `right_button` is `MIN (n_buttons, 3)`.
The returned list is the content of `buttons` after the call. -/
def configure_button_layout (buttons : List Nat) (n_buttons : Nat)
    (left_handed : Bool) : List Nat :=
  let left_button := 1
  let right_button := min n_buttons 3
  match buttons with
  | [] => []
  | b0 :: _ =>
    if b0 ≠ left_button ∧ b0 ≠ right_button then
      buttons
    else if left_handed = true ∧ b0 = left_button then
      (swap_first right_button left_button n_buttons buttons).set 0 right_button
    else if left_handed = false ∧ b0 = right_button then
      (swap_first left_button right_button n_buttons buttons).set 0 left_button
    else
      buttons

/-- Number of positions at which two button maps hold different entries. -/
def differing_positions (a b : List Nat) : Nat :=
  ((a.zip b).filter (fun p => p.1 ≠ p.2)).length

/-! ## Acceleration: `set_motion_legacy_driver`, `set_motion_libinput` -/

/-- The three fields of `XPtrFeedbackControl` that `set_motion_legacy_driver`
fills in from the settings. -/
structure XPtrFeedbackControl where
  threshold : Int
  accelNum : Int
  accelDenom : Int
deriving DecidableEq, Repr

/-- Rounding of a rational to an integer, to nearest, ties to even. -/
def round_half_even (q : ℚ) : Int :=
  if q - ⌊q⌋ < 1 / 2 then ⌊q⌋
  else if q - ⌊q⌋ > 1 / 2 then ⌊q⌋ + 1
  else if ⌊q⌋ % 2 = 0 then ⌊q⌋ else ⌊q⌋ + 1

/-- The exponent of the binary32 binade of a value: `floor (log2 |q|)`, and
-126 for the subnormal values. -/
def binary32_exponent (q : ℚ) : Int := max (Int.log 2 |q|) (-126)

/-- Rounding of a value to binary32 (`float`), to nearest, ties to even: the
value is rounded to a multiple of the unit in the last place of its binade,
24 significant bits. Values beyond the largest finite binary32 value are
outside the model; the function is applied to products below 16. -/
def binary32_round (q : ℚ) : ℚ :=
  (round_half_even (q / 2 ^ (binary32_exponent q - 23)) : ℚ) * 2 ^ (binary32_exponent q - 23)

/-- Whether a rational is a binary32 value, as the content of a `gfloat` is. -/
def is_binary32 (q : ℚ) : Bool := decide (binary32_round q = q)

/-- The conversion `int = floor (...)` of a `double` that holds an integer.
Outside the range of `int` C leaves the conversion undefined; the model takes
`INT_MIN`, the value the x86 conversion instruction stores. -/
def double_to_int (v : Int) : Int :=
  if -2147483648 ≤ v ∧ v ≤ 2147483647 then v else -2147483648

/-- The payload computed by `set_motion_legacy_driver` (the `numerator`,
`denominator` and `motion_threshold` locals, copied into `feedback`), as a
function of the four settings it reads: `motion-acceleration`,
`custom-acceleration`, `motion-threshold` and `custom-threshold`.
`motion_acceleration` is the value of the `gfloat` local. For
`motion_acceleration >= 1.0` the operands are promoted to `double` and every
operation involved (`floor`, the subtraction of the floor, the doubling, the
comparisons with 0.25, 0.5 and 0.75) is exact on a `gfloat`. The product
`motion_acceleration * 10` has `float` operands and is rounded to binary32
before `floor` sees it, as on every platform that evaluates `float`
expressions in `float` precision (x86-64 among them). The numerators are
stored in an `int` (`double_to_int`). -/
def set_motion_legacy_driver (motion_acceleration : ℚ) (custom_acceleration : Bool)
    (motion_threshold_setting : Int) (custom_threshold : Bool) : XPtrFeedbackControl :=
  let nd : Int × Int :=
    if custom_acceleration = true then
      if motion_acceleration ≥ 1 then
        if motion_acceleration - ⌊motion_acceleration⌋ < 1 / 4 then
          (double_to_int ⌊motion_acceleration⌋, 1)
        else if motion_acceleration - ⌊motion_acceleration⌋ < 1 / 2 then
          (double_to_int ⌈2 * motion_acceleration⌉, 2)
        else if motion_acceleration - ⌊motion_acceleration⌋ < 3 / 4 then
          (double_to_int ⌊2 * motion_acceleration⌋, 2)
        else
          (double_to_int ⌈motion_acceleration⌉, 1)
      else if motion_acceleration < 1 ∧ motion_acceleration > 0 then
        (double_to_int (⌊binary32_round (motion_acceleration * 10)⌋ + 1), 10)
      else
        (-1, -1)
    else
      (-1, -1)
  let motion_threshold : Int :=
    if custom_threshold = true then motion_threshold_setting else -1
  { threshold := motion_threshold, accelNum := nd.1, accelDenom := nd.2 }

/-- The value `numerator / denominator` a legacy feedback record encodes. -/
def decoded_acceleration (f : XPtrFeedbackControl) : ℚ :=
  (f.accelNum : ℚ) / (f.accelDenom : ℚ)

/-- The `accel` value computed by `set_motion_libinput` and stored in the
`libinput Accel Speed` property, over exact arithmetic. -/
def set_motion_libinput (motion_acceleration : ℚ) (custom_acceleration : Bool) : ℚ :=
  if motion_acceleration = -1 ∨ custom_acceleration = false then
    0
  else
    (motion_acceleration - 1) * 2 / 9 - 1

/-! ## Device properties -/

/-- Atom of the predefined property type `INTEGER` (`XA_INTEGER`). -/
def XA_INTEGER : Nat := 19

/-- A device property as the server stores it: type atom, format (8, 16 or
32 bits per item) and the items. -/
structure XProperty where
  type : Nat
  format : Nat
  data : List Int
deriving DecidableEq, Repr

/-- What the manager sees of one input device: whether `open_gdk_device`
succeeds, whether `device_is_touchpad` holds, whether requests on it succeed
(`rc == Success`), its properties by name, and the `XChangeDeviceProperty`
requests issued on it so far (oldest first). -/
structure XDeviceState where
  opens : Bool
  is_touchpad : Bool
  alive : Bool
  props : String → Option XProperty
  changes : List (String × XProperty)

/-- The reply of `XGetDeviceProperty`. -/
structure XGetReply where
  rc_success : Bool
  act_type : Nat
  act_format : Nat
  data : List Int
deriving DecidableEq, Repr

/-- Number of items of a reply (`nitems`). -/
def XGetReply.nitems (r : XGetReply) : Nat := r.data.length

/-- The call `property_from_name (name)`: `XInternAtom` with `only_if_exists`
set, so the result is non-zero only for a name some driver has interned. -/
def property_from_name (atoms : List String) (name : String) : Bool :=
  decide (name ∈ atoms)

/-- The call `XGetDeviceProperty (dpy, xdevice, prop, 0, length, False, req_type, ...)`.
`length` counts 32-bit units, so at most `4 * length` bytes of the value are
returned; a property of another type is reported with no items; an absent
property is reported with type `None`. -/
def XGetDeviceProperty (atoms : List String) (dev : XDeviceState) (name : String)
    (length : Nat) (req_type : Nat) : XGetReply :=
  if dev.alive = false ∨ property_from_name atoms name = false then
    { rc_success := false, act_type := 0, act_format := 0, data := [] }
  else
    match dev.props name with
    | none => { rc_success := true, act_type := 0, act_format := 0, data := [] }
    | some p =>
      if p.type ≠ req_type then
        { rc_success := true, act_type := p.type, act_format := p.format, data := [] }
      else
        { rc_success := true, act_type := p.type, act_format := p.format,
          data := p.data.take (4 * length / (p.format / 8)) }

/-- The call `XChangeDeviceProperty (dpy, xdevice, prop, type, format, PropModeReplace, data, nitems)`. -/
def XChangeDeviceProperty (dev : XDeviceState) (name : String) (type format : Nat)
    (data : List Int) (nitems : Nat) : XDeviceState :=
  let p : XProperty := { type := type, format := format, data := data.take nitems }
  { dev with
    props := fun n => if n = name then some p else dev.props n
    changes := dev.changes ++ [(name, p)] }

/-! ## Natural scrolling: `set_natural_scroll_synaptics` -/

/-- Conversion of an integer to the 32-bit `int` (two's complement). -/
def to_int (x : Int) : Int := (x + 2147483648) % 4294967296 - 2147483648

/-- The C library `abs` on `int`. -/
def c_abs (x : Int) : Int := to_int (to_int x).natAbs

/-- The function `set_natural_scroll_synaptics (manager, device, natural_scroll)`. -/
def set_natural_scroll_synaptics (atoms : List String) (dev : XDeviceState)
    (natural_scroll : Bool) : XDeviceState :=
  if dev.opens = false then dev
  else if dev.is_touchpad = false then dev
  else
    let r := XGetDeviceProperty atoms dev "Synaptics Scrolling Distance" 2 XA_INTEGER
    if r.rc_success = true ∧ r.act_type = XA_INTEGER ∧ r.act_format = 32 ∧ r.nitems ≥ 2 then
      match r.data with
      | p0 :: p1 :: rest =>
        let ptr :=
          if natural_scroll = true then
            to_int (-(c_abs p0)) :: to_int (-(c_abs p1)) :: rest
          else
            c_abs p0 :: c_abs p1 :: rest
        XChangeDeviceProperty dev "Synaptics Scrolling Distance" XA_INTEGER r.act_format
          ptr r.nitems
      | _ => dev
    else dev

/-! ## Tap to click: `set_tap_to_click_synaptics` -/

/-- The function `set_tap_to_click_synaptics (device, state, left_handed)`. -/
def set_tap_to_click_synaptics (atoms : List String) (dev : XDeviceState)
    (state left_handed : Bool) : XDeviceState :=
  if property_from_name atoms "Synaptics Tap Action" = false then dev
  else if dev.opens = false then dev
  else if dev.is_touchpad = false then dev
  else
    let r := XGetDeviceProperty atoms dev "Synaptics Tap Action" 2 XA_INTEGER
    if r.rc_success = true ∧ r.act_type = XA_INTEGER ∧ r.act_format = 8 ∧ r.nitems ≥ 7 then
      let data := r.data
      let data := data.set 0 (if state = true then 2 else 0)
      let data := data.set 1 (if state = true then 3 else 0)
      let data := data.set 4 (if state = true then (if left_handed = true then 3 else 1) else 0)
      let data := data.set 5 (if state = true then (if left_handed = true then 1 else 3) else 0)
      let data := data.set 6 (if state = true then 2 else 0)
      XChangeDeviceProperty dev "Synaptics Tap Action" XA_INTEGER 8 data r.nitems
    else dev

/-- A touchpad that exposes the single property `name` with value `p`. -/
def touchpad_with (name : String) (p : XProperty) : XDeviceState :=
  { opens := true, is_touchpad := true, alive := true,
    props := fun n => if n = name then some p else none, changes := [] }

/-! ## Boolean properties: `property_set_bool` and friends -/

/-- The function `property_exists_on_device (device, property_name)`: the
name resolves, the device opens and the one-unit read returns `Success`.
The server answers `Success` (with type `None`) for a property the device
does not have, so the result does not depend on `dev.props`. -/
def property_exists_on_device (atoms : List String) (dev : XDeviceState)
    (property_name : String) : Bool :=
  if property_from_name atoms property_name = false then false
  else if dev.opens = false then false
  else (XGetDeviceProperty atoms dev property_name 1 XA_INTEGER).rc_success

/-- The function `property_set_bool (device, xdevice, property_name,
property_index, enable)` on an open device. -/
def property_set_bool (atoms : List String) (dev : XDeviceState) (property_name : String)
    (property_index : Nat) (enable : Bool) : XDeviceState :=
  if property_from_name atoms property_name = false then dev
  else
    let value : Int := if enable = true then 1 else 0
    let r := XGetDeviceProperty atoms dev property_name 1 XA_INTEGER
    if r.rc_success = true ∧ r.act_type = XA_INTEGER ∧ r.act_format = 8
        ∧ r.nitems > property_index then
      XChangeDeviceProperty dev property_name XA_INTEGER 8
        (r.data.set property_index value) r.nitems
    else dev

/-- The function `property_get_bool (device, xdevice, property_name,
property_index)` on an open device; the result is used as a truth value. -/
def property_get_bool (atoms : List String) (dev : XDeviceState) (property_name : String)
    (property_index : Nat) : Bool :=
  if property_from_name atoms property_name = false then false
  else
    let r := XGetDeviceProperty atoms dev property_name 1 XA_INTEGER
    if r.rc_success = true ∧ r.act_type = XA_INTEGER ∧ r.act_format = 8
        ∧ r.nitems > property_index then
      decide (r.data.getD property_index 0 ≠ 0)
    else false

/-- The function `touchpad_set_bool (device, property_name, property_index, enable)`. -/
def touchpad_set_bool (atoms : List String) (dev : XDeviceState) (property_name : String)
    (property_index : Nat) (enable : Bool) : XDeviceState :=
  if dev.opens = false then dev
  else if dev.is_touchpad = true then
    property_set_bool atoms dev property_name property_index enable
  else dev

/-- The function `touchpad_get_bool (device, property_name, property_index)`. -/
def touchpad_get_bool (atoms : List String) (dev : XDeviceState) (property_name : String)
    (property_index : Nat) : Bool :=
  if dev.opens = false then false
  else if dev.is_touchpad = true then
    property_get_bool atoms dev property_name property_index
  else false

/-- The function `touchpad_has_single_button (xdevice)` on an open device. -/
def touchpad_has_single_button (atoms : List String) (dev : XDeviceState) : Bool :=
  if property_from_name atoms "Synaptics Capabilities" = false then false
  else
    let r := XGetDeviceProperty atoms dev "Synaptics Capabilities" 1 XA_INTEGER
    if r.rc_success = true ∧ r.act_type = XA_INTEGER ∧ r.act_format = 8 ∧ r.nitems ≥ 3 then
      decide (r.data.getD 0 0 = 1 ∧ r.data.getD 1 0 = 0 ∧ r.data.getD 2 0 = 0)
    else false

/-! ## Tap to click and click actions -/

/-- The function `set_tap_to_click_libinput (device, state)`. -/
def set_tap_to_click_libinput (atoms : List String) (dev : XDeviceState)
    (state : Bool) : XDeviceState :=
  touchpad_set_bool atoms dev "libinput Tapping Enabled" 0 state

/-- The function `set_tap_to_click (device, state, left_handed)`: both driver
variants, each when its property name resolves. -/
def set_tap_to_click (atoms : List String) (dev : XDeviceState)
    (state left_handed : Bool) : XDeviceState :=
  let dev1 :=
    if property_from_name atoms "Synaptics Tap Action" = true then
      set_tap_to_click_synaptics atoms dev state left_handed
    else dev
  if property_from_name atoms "libinput Tapping Enabled" = true then
    set_tap_to_click_libinput atoms dev1 state
  else dev1

/-- The function `set_click_actions_synaptics (device, clickpad_click, left_handed)`. -/
def set_click_actions_synaptics (atoms : List String) (dev : XDeviceState)
    (clickpad_click : Int) (left_handed : Bool) : XDeviceState :=
  if property_from_name atoms "Synaptics Click Action" = false then dev
  else if dev.opens = false then dev
  else if dev.is_touchpad = false then dev
  else
    let r := XGetDeviceProperty atoms dev "Synaptics Click Action" 2 XA_INTEGER
    let state : Bool := decide (clickpad_click = 2 ∨ clickpad_click = 3)
    if r.rc_success = true ∧ r.act_type = XA_INTEGER ∧ r.act_format = 8 ∧ r.nitems ≥ 3 then
      let data := r.data
      let data := data.set 0 1
      let data := data.set 1 (if state = true then (if left_handed = true then 1 else 3) else 0)
      let data := data.set 2 (if state = true then 2 else 0)
      XChangeDeviceProperty dev "Synaptics Click Action" XA_INTEGER 8 data r.nitems
    else dev

/-- The function `set_click_actions_libinput (device, clickpad_click)`.
For `clickpad_click == 3` the second `XGetDeviceProperty` stores its results
in the same `type`, `format` and `nitems` variables as the first, so the
test before the write and the length written are those of the reply for
`libinput Click Method Enabled Default`. A written byte is the value of a C
logical expression, 0 or 1. -/
def set_click_actions_libinput (atoms : List String) (dev : XDeviceState)
    (clickpad_click : Int) : XDeviceState :=
  if property_from_name atoms "libinput Click Method Enabled" = false then dev
  else if property_from_name atoms "libinput Click Method Enabled Default" = false
      ∧ clickpad_click = 3 then dev
  else if dev.opens = false then dev
  else if dev.is_touchpad = false then dev
  else
    let r := XGetDeviceProperty atoms dev "libinput Click Method Enabled" 2 XA_INTEGER
    let r_default :=
      XGetDeviceProperty atoms dev "libinput Click Method Enabled Default" 2 XA_INTEGER
    let last := if clickpad_click = 3 then r_default else r
    if r.rc_success = true ∧ last.act_type = XA_INTEGER ∧ last.act_format = 8
        ∧ last.nitems ≥ 2 ∧ (r_default.rc_success = true ∨ clickpad_click ≠ 3) then
      let data := r.data
      let data := data.set 0
        (if clickpad_click = 1 ∨ (clickpad_click = 3 ∧ r_default.data.getD 0 0 ≠ 0) then 1 else 0)
      let data := data.set 1
        (if clickpad_click = 2 ∨ (clickpad_click = 3 ∧ r_default.data.getD 1 0 ≠ 0) then 1 else 0)
      XChangeDeviceProperty dev "libinput Click Method Enabled" XA_INTEGER 8 data last.nitems
    else dev

/-- The function `set_click_actions (device, clickpad_click, left_handed)`. -/
def set_click_actions (atoms : List String) (dev : XDeviceState)
    (clickpad_click : Int) (left_handed : Bool) : XDeviceState :=
  let dev1 :=
    if property_from_name atoms "Synaptics Click Action" = true then
      set_click_actions_synaptics atoms dev clickpad_click left_handed
    else dev
  if property_from_name atoms "libinput Click Method Enabled" = true then
    set_click_actions_libinput atoms dev1 clickpad_click
  else dev1

/-! ## Scrolling -/

/-- The local `want_2fg` of `set_scrolling_synaptics`. -/
def want_2fg (scrolling_method : Int) : Bool :=
  decide (scrolling_method = 1 ∨ scrolling_method = 3)

/-- The local `want_edge` of `set_scrolling_synaptics`. -/
def want_edge (scrolling_method : Int) : Bool :=
  decide (scrolling_method = 2 ∨ scrolling_method = 3)

/-- The function `set_scrolling_synaptics (device, scrolling_method, horizontal_scroll)`. -/
def set_scrolling_synaptics (atoms : List String) (dev : XDeviceState)
    (scrolling_method : Int) (horizontal_scroll : Bool) : XDeviceState :=
  let dev := touchpad_set_bool atoms dev "Synaptics Edge Scrolling" 0 (want_edge scrolling_method)
  let dev := touchpad_set_bool atoms dev "Synaptics Edge Scrolling" 1
    (want_edge scrolling_method && horizontal_scroll)
  let dev := touchpad_set_bool atoms dev "Synaptics Two-Finger Scrolling" 0
    (want_2fg scrolling_method)
  touchpad_set_bool atoms dev "Synaptics Two-Finger Scrolling" 1
    (want_2fg scrolling_method && horizontal_scroll)

/-- The part of `set_scrolling_libinput` that rewrites the scroll method mask
(up to the first `xdevice_close`), on an open touchpad. As in
`set_click_actions_libinput`, for `scrolling_method == 3` the test and the
length written are those of the reply for the `Default` property. -/
def set_scrolling_libinput_mask (atoms : List String) (dev : XDeviceState)
    (scrolling_method : Int) : XDeviceState :=
  let r := XGetDeviceProperty atoms dev "libinput Scroll Method Enabled" 2 XA_INTEGER
  let r_default :=
    XGetDeviceProperty atoms dev "libinput Scroll Method Enabled Default" 2 XA_INTEGER
  let last := if scrolling_method = 3 then r_default else r
  if r.rc_success = true ∧ last.act_type = XA_INTEGER ∧ last.act_format = 8
      ∧ last.nitems ≥ 3 ∧ (r_default.rc_success = true ∨ scrolling_method ≠ 3) then
    let data := r.data
    let data := data.set 0
      (if scrolling_method = 1 ∨ (scrolling_method = 3 ∧ r_default.data.getD 0 0 ≠ 0)
        then 1 else 0)
    let data := data.set 1
      (if scrolling_method = 2 ∨ (scrolling_method = 3 ∧ r_default.data.getD 1 0 ≠ 0)
        then 1 else 0)
    let data := data.set 2
      (if scrolling_method = 3 ∧ r_default.data.getD 2 0 ≠ 0 then 1 else 0)
    XChangeDeviceProperty dev "libinput Scroll Method Enabled" XA_INTEGER 8 data last.nitems
  else dev

/-- The function `set_scrolling_libinput (device, scrolling_method, horizontal_scroll)`. -/
def set_scrolling_libinput (atoms : List String) (dev : XDeviceState)
    (scrolling_method : Int) (horizontal_scroll : Bool) : XDeviceState :=
  if property_from_name atoms "libinput Scroll Method Enabled" = false then dev
  else if property_from_name atoms "libinput Scroll Method Enabled Default" = false
      ∧ scrolling_method = 3 then dev
  else if dev.opens = false then dev
  else if dev.is_touchpad = false then dev
  else
    let dev1 := set_scrolling_libinput_mask atoms dev scrolling_method
    if property_from_name atoms "libinput Horizonal Scroll Enabled" = true then
      touchpad_set_bool atoms dev1 "libinput Horizonal Scroll Enabled" 0 horizontal_scroll
    else
      touchpad_set_bool atoms dev1 "libinput Horizontal Scroll Enabled" 0 horizontal_scroll

/-- The function `set_scrolling (device, scrolling_method, horizontal_scroll)`. -/
def set_scrolling (atoms : List String) (dev : XDeviceState)
    (scrolling_method : Int) (horizontal_scroll : Bool) : XDeviceState :=
  let dev1 :=
    if property_from_name atoms "Synaptics Edge Scrolling" = true then
      set_scrolling_synaptics atoms dev scrolling_method horizontal_scroll
    else dev
  if property_from_name atoms "libinput Scroll Method Enabled" = true then
    set_scrolling_libinput atoms dev1 scrolling_method horizontal_scroll
  else dev1

/-! ## Wheel emulation: `set_scroll_wheel_button` -/

/-- The function `set_scroll_wheel_button (manager, device)`; `is_trackball`
is the result of `device_is_trackball (device)` and `button` the setting
`scroll-wheel-emulation-button`. Storing `button` in a byte keeps its value
modulo 256. -/
def set_scroll_wheel_button (atoms : List String) (dev : XDeviceState)
    (is_trackball : Bool) (button : Int) : XDeviceState :=
  if is_trackball = false then dev
  else if dev.opens = false then dev
  else if property_from_name atoms "Evdev Wheel Emulation" = false
      ∨ property_from_name atoms "Evdev Wheel Emulation Button" = false then dev
  else
    let r := XGetDeviceProperty atoms dev "Evdev Wheel Emulation" 1 XA_INTEGER
    let dev1 :=
      if r.rc_success = true ∧ r.act_format = 8 ∧ r.act_type = XA_INTEGER ∧ r.nitems = 1 then
        XChangeDeviceProperty dev "Evdev Wheel Emulation" r.act_type r.act_format
          (r.data.set 0 (if button > 0 then 1 else 0)) r.nitems
      else dev
    if button > 0 then
      let r2 := XGetDeviceProperty atoms dev1 "Evdev Wheel Emulation Button" 1 XA_INTEGER
      if r2.rc_success = true ∧ r2.act_format = 8 ∧ r2.act_type = XA_INTEGER ∧ r2.nitems = 1 then
        XChangeDeviceProperty dev1 "Evdev Wheel Emulation Button" r2.act_type r2.act_format
          (r2.data.set 0 (button % 256)) r2.nitems
      else dev1
    else dev1

/-- An open, live device with the given properties and no request issued. -/
def device_with (is_touchpad : Bool) (props : List (String × XProperty)) : XDeviceState :=
  { opens := true, is_touchpad := is_touchpad, alive := true,
    props := fun n => props.lookup n, changes := [] }

/-! ## Devices and settings -/

/-- The input sources of GDK 3 (`GdkInputSource`). -/
inductive GdkInputSource
  | GDK_SOURCE_MOUSE
  | GDK_SOURCE_PEN
  | GDK_SOURCE_ERASER
  | GDK_SOURCE_CURSOR
  | GDK_SOURCE_KEYBOARD
  | GDK_SOURCE_TOUCHSCREEN
  | GDK_SOURCE_TOUCHPAD
deriving DecidableEq, Repr

/-- A button-map request sent for a device. -/
inductive ButtonRequest
  | get_mapping (capacity : Nat)
  | set_mapping (map : List Nat)
deriving DecidableEq, Repr

/-- A slave device as `gdk_device_manager_list_devices` returns it, with the
part of the server state the mappers work on: `xdevice` holds the
properties, `has_buttons` is the result of `xinput_device_has_buttons`,
`is_trackball` that of `device_is_trackball`, `buttons` the button map and
`button_requests` the button-map requests issued so far, `ptr_feedback`
tells whether `XGetFeedbackControl` lists a pointer feedback, `feedback` is
the last record sent with `XChangeFeedbackControl`, `accel_speed` the last
value stored in `libinput Accel Speed` and `enable_requests` the
`set_device_enabled` calls made for the device. -/
structure GdkDevice where
  id : Int
  name : Option String
  source : GdkInputSource
  xdevice : XDeviceState
  has_buttons : Bool
  is_trackball : Bool
  buttons : List Nat
  button_requests : List ButtonRequest
  ptr_feedback : Bool
  feedback : Option XPtrFeedbackControl
  accel_speed : Option ℚ
  enable_requests : List Bool

/-- The values of the touchpad key `left-handed` (`CsdTouchpadHandedness`). -/
inductive CsdTouchpadHandedness
  | CSD_TOUCHPAD_HANDEDNESS_RIGHT
  | CSD_TOUCHPAD_HANDEDNESS_LEFT
  | CSD_TOUCHPAD_HANDEDNESS_MOUSE
deriving DecidableEq, Repr

/-- The keys that the mouse and the touchpad settings both have. -/
structure PointerSettings where
  motion_acceleration : ℚ
  custom_acceleration : Bool
  motion_threshold : Int
  custom_threshold : Bool
  natural_scroll : Bool
deriving DecidableEq, Repr

/-- The settings the manager reads (mouse, touchpad, trackball and mouse
accessibility schemas). -/
structure Settings where
  mouse : PointerSettings
  touchpad : PointerSettings
  mouse_left_handed : Bool
  touchpad_left_handed : CsdTouchpadHandedness
  middle_button_enabled : Bool
  locate_pointer : Bool
  dwell_click_enabled : Bool
  secondary_click_enabled : Bool
  disable_while_typing : Bool
  tap_to_click : Bool
  clickpad_click : Int
  scrolling_method : Int
  horizontal_scrolling : Bool
  touchpad_enabled : Bool
  disable_with_external_mouse : Bool
  scroll_wheel_emulation_button : Int
deriving DecidableEq, Repr

/-- The function `gdkdevice_is_touchpad (device)`. -/
def gdkdevice_is_touchpad (device : GdkDevice) : Bool :=
  if device.xdevice.opens = false then false else device.xdevice.is_touchpad

/-- The function `get_touchpad_handedness (manager, mouse_left_handed)`. -/
def get_touchpad_handedness (s : Settings) (mouse_left_handed : Bool) : Bool :=
  match s.touchpad_left_handed with
  | .CSD_TOUCHPAD_HANDEDNESS_RIGHT => false
  | .CSD_TOUCHPAD_HANDEDNESS_LEFT => true
  | .CSD_TOUCHPAD_HANDEDNESS_MOUSE => mouse_left_handed

/-! ## Handedness: `set_left_handed` -/

/-- The button-map part of `set_left_handed_legacy_driver` (from
`XGetDeviceButtonMapping` to `XSetDeviceButtonMapping`): the map is read with
a capacity of 16 entries and read again with the reported length while that
is larger than the capacity, then swapped and written back. Requests on a
device that is gone are outside the model and leave it as it is. -/
def swap_button_mapping (device : GdkDevice) (left_handed : Bool) : GdkDevice :=
  if device.xdevice.alive = false then device
  else
    let n_buttons := device.buttons.length
    let reads :=
      if n_buttons > 16 then
        [ButtonRequest.get_mapping 16, ButtonRequest.get_mapping n_buttons]
      else [ButtonRequest.get_mapping 16]
    let buttons := configure_button_layout device.buttons n_buttons left_handed
    { device with
      buttons := buttons
      button_requests := device.button_requests ++ reads ++ [ButtonRequest.set_mapping buttons] }

/-- The function `set_left_handed_legacy_driver (manager, device,
mouse_left_handed, touchpad_left_handed)`; `tap` is the touchpad setting
`tap-to-click`. -/
def set_left_handed_legacy_driver (atoms : List String) (tap : Bool) (device : GdkDevice)
    (mouse_left_handed touchpad_left_handed : Bool) : GdkDevice :=
  if device.has_buttons = false then device
  else if device.xdevice.opens = false then device
  else if device.xdevice.is_touchpad = true then
    let single_button := touchpad_has_single_button atoms device.xdevice
    let device1 :=
      if tap = true ∧ single_button = false then
        { device with xdevice := set_tap_to_click atoms device.xdevice tap touchpad_left_handed }
      else device
    if single_button = true then device1
    else swap_button_mapping device1 touchpad_left_handed
  else swap_button_mapping device mouse_left_handed

/-- The function `set_left_handed_libinput (device, mouse_left_handed,
touchpad_left_handed)`. -/
def set_left_handed_libinput (atoms : List String) (device : GdkDevice)
    (mouse_left_handed touchpad_left_handed : Bool) : GdkDevice :=
  if device.xdevice.opens = false then device
  else
    let want_lefthanded :=
      if device.xdevice.is_touchpad = true then touchpad_left_handed else mouse_left_handed
    { device with
      xdevice := property_set_bool atoms device.xdevice "libinput Left Handed Enabled" 0
        want_lefthanded }

/-- The function `set_left_handed (manager, device, mouse_left_handed,
touchpad_left_handed)`. -/
def set_left_handed (atoms : List String) (tap : Bool) (device : GdkDevice)
    (mouse_left_handed touchpad_left_handed : Bool) : GdkDevice :=
  if property_exists_on_device atoms device.xdevice "libinput Left Handed Enabled" = true then
    set_left_handed_libinput atoms device mouse_left_handed touchpad_left_handed
  else
    set_left_handed_legacy_driver atoms tap device mouse_left_handed touchpad_left_handed

/-! ## Motion, middle button, natural scroll, enabling -/

/-- The atom the name `FLOAT` resolves to when it is interned. -/
def XA_FLOAT : Nat := 400

/-- The device side of `set_motion_legacy_driver`: the `gfloat` local holds
the `double` setting rounded to binary32, and the payload is sent to the
first pointer feedback of the device, if it has one. -/
def send_motion_legacy_driver (s : Settings) (device : GdkDevice) : GdkDevice :=
  if device.xdevice.opens = false then device
  else
    let settings := if device.xdevice.is_touchpad = true then s.touchpad else s.mouse
    let payload := set_motion_legacy_driver (binary32_round settings.motion_acceleration)
      settings.custom_acceleration settings.motion_threshold settings.custom_threshold
    if device.xdevice.alive = true ∧ device.ptr_feedback = true then
      { device with feedback := some payload }
    else device

/-- The device side of `set_motion_libinput`: the value is stored in the
first item of `libinput Accel Speed` when that is a 32-bit `FLOAT` property;
the items themselves are not modelled, the value is kept in `accel_speed`. -/
def send_motion_libinput (atoms : List String) (s : Settings) (device : GdkDevice) :
    GdkDevice :=
  if device.xdevice.opens = false then device
  else
    let settings := if device.xdevice.is_touchpad = true then s.touchpad else s.mouse
    let accel := set_motion_libinput settings.motion_acceleration settings.custom_acceleration
    if property_from_name atoms "FLOAT" = false then device
    else if property_from_name atoms "libinput Accel Speed" = false then device
    else
      let r := XGetDeviceProperty atoms device.xdevice "libinput Accel Speed" 1 XA_FLOAT
      if r.rc_success = true ∧ r.act_type = XA_FLOAT ∧ r.act_format = 32 ∧ r.nitems ≥ 1 then
        { device with accel_speed := some accel }
      else device

/-- The function `set_motion (manager, device)`. -/
def set_motion (atoms : List String) (s : Settings) (device : GdkDevice) : GdkDevice :=
  if property_exists_on_device atoms device.xdevice "libinput Accel Speed" = true then
    send_motion_libinput atoms s device
  else
    send_motion_legacy_driver s device

/-- The function `set_middle_button_evdev (manager, device, middle_button)`. -/
def set_middle_button_evdev (atoms : List String) (dev : XDeviceState)
    (middle_button : Bool) : XDeviceState :=
  if property_from_name atoms "Evdev Middle Button Emulation" = false then dev
  else if dev.opens = false then dev
  else
    let r := XGetDeviceProperty atoms dev "Evdev Middle Button Emulation" 1 XA_INTEGER
    if r.rc_success = true ∧ r.act_format = 8 ∧ r.act_type = XA_INTEGER ∧ r.nitems = 1 then
      XChangeDeviceProperty dev "Evdev Middle Button Emulation" r.act_type r.act_format
        (r.data.set 0 (if middle_button = true then 1 else 0)) r.nitems
    else dev

/-- The function `set_middle_button_libinput (manager, device, middle_button)`. -/
def set_middle_button_libinput (atoms : List String) (dev : XDeviceState)
    (middle_button : Bool) : XDeviceState :=
  if dev.opens = false then dev
  else if dev.is_touchpad = true then dev
  else property_set_bool atoms dev "libinput Middle Emulation Enabled" 0 middle_button

/-- The function `set_middle_button (manager, device, middle_button)`. -/
def set_middle_button (atoms : List String) (dev : XDeviceState)
    (middle_button : Bool) : XDeviceState :=
  let dev1 :=
    if property_from_name atoms "Evdev Middle Button Emulation" = true then
      set_middle_button_evdev atoms dev middle_button
    else dev
  if property_from_name atoms "libinput Middle Emulation Enabled" = true then
    set_middle_button_libinput atoms dev1 middle_button
  else dev1

/-- The function `set_natural_scroll_libinput (manager, device, natural_scroll)`. -/
def set_natural_scroll_libinput (atoms : List String) (dev : XDeviceState)
    (natural_scroll : Bool) : XDeviceState :=
  if dev.opens = false then dev
  else property_set_bool atoms dev "libinput Natural Scrolling Enabled" 0 natural_scroll

/-- The function `set_natural_scroll (manager, device, natural_scroll)`. -/
def set_natural_scroll (atoms : List String) (dev : XDeviceState)
    (natural_scroll : Bool) : XDeviceState :=
  let dev1 :=
    if property_from_name atoms "Synaptics Scrolling Distance" = true then
      set_natural_scroll_synaptics atoms dev natural_scroll
    else dev
  if property_from_name atoms "libinput Natural Scrolling Enabled" = true then
    set_natural_scroll_libinput atoms dev1 natural_scroll
  else dev1

/-- The function `set_touchpad_disabled (device)`: a touchpad that opens gets
the call `set_device_enabled (id, FALSE)`. -/
def set_touchpad_disabled (device : GdkDevice) : GdkDevice :=
  if device.xdevice.opens = false then device
  else if device.xdevice.is_touchpad = false then device
  else { device with enable_requests := device.enable_requests ++ [false] }

/-! ## The full pass: `set_mouse_settings` -/

/-- The function `set_mouse_settings (manager, device)`. -/
def set_mouse_settings (atoms : List String) (s : Settings) (device : GdkDevice) : GdkDevice :=
  let mouse_left_handed := s.mouse_left_handed
  let touchpad_left_handed := get_touchpad_handedness s mouse_left_handed
  let device := set_left_handed atoms s.tap_to_click device mouse_left_handed
    touchpad_left_handed
  let device := set_motion atoms s device
  let device := { device with
    xdevice := set_middle_button atoms device.xdevice s.middle_button_enabled }
  let device := { device with
    xdevice := set_tap_to_click atoms device.xdevice s.tap_to_click touchpad_left_handed }
  let device := { device with
    xdevice := set_click_actions atoms device.xdevice s.clickpad_click touchpad_left_handed }
  let device := { device with
    xdevice := set_scrolling atoms device.xdevice s.scrolling_method s.horizontal_scrolling }
  let device :=
    if gdkdevice_is_touchpad device = true then
      { device with xdevice := set_natural_scroll atoms device.xdevice s.touchpad.natural_scroll }
    else
      { device with xdevice := set_natural_scroll atoms device.xdevice s.mouse.natural_scroll }
  let device :=
    if s.touchpad_enabled = false then set_touchpad_disabled device else device
  { device with
    xdevice := set_scroll_wheel_button atoms device.xdevice device.is_trackball
      s.scroll_wheel_emulation_button }

/-- Settings as a fresh session has them, with tapping switched on. -/
def default_settings : Settings :=
  { mouse := { motion_acceleration := -1, custom_acceleration := false,
               motion_threshold := -1, custom_threshold := false, natural_scroll := false }
    touchpad := { motion_acceleration := -1, custom_acceleration := false,
                  motion_threshold := -1, custom_threshold := false, natural_scroll := false }
    mouse_left_handed := false
    touchpad_left_handed := .CSD_TOUCHPAD_HANDEDNESS_MOUSE
    middle_button_enabled := false
    locate_pointer := false
    dwell_click_enabled := false
    secondary_click_enabled := false
    disable_while_typing := false
    tap_to_click := true
    clickpad_click := 0
    scrolling_method := 0
    horizontal_scrolling := false
    touchpad_enabled := true
    disable_with_external_mouse := false
    scroll_wheel_emulation_button := 0 }

/-- A slave device with the given identity, properties and button map, and
no request issued yet. -/
def gdk_device (id : Int) (name : String) (source : GdkInputSource) (is_touchpad : Bool)
    (props : List (String × XProperty)) (buttons : List Nat) : GdkDevice :=
  { id := id, name := some name, source := source
    xdevice := device_with is_touchpad props
    has_buttons := true, is_trackball := false
    buttons := buttons, button_requests := []
    ptr_feedback := true, feedback := none, accel_speed := none, enable_requests := [] }

/-! ## Ignored devices -/

/-- The function `device_is_blacklisted (manager, device)`; the blacklist is
the key set of `manager->priv->blacklist`. -/
def device_is_blacklisted (blacklist : List Int) (device : GdkDevice) : Bool :=
  decide (device.id ∈ blacklist)

/-- The function `device_is_ignored (manager, device)`. -/
def device_is_ignored (blacklist : List Int) (device : GdkDevice) : Bool :=
  if device_is_blacklisted blacklist device = true then true
  else if device.source ≠ GdkInputSource.GDK_SOURCE_MOUSE ∧
      device.source ≠ GdkInputSource.GDK_SOURCE_TOUCHPAD ∧
      device.source ≠ GdkInputSource.GDK_SOURCE_CURSOR then true
  else if device.name = some "Virtual core XTEST pointer" then true
  else false

/-! ## The dispatcher -/

/-- The event tags passed to `run_custom_command`. -/
inductive CustomCommand
  | COMMAND_DEVICE_ADDED
  | COMMAND_DEVICE_REMOVED
  | COMMAND_DEVICE_PRESENT
deriving DecidableEq, Repr

/-- The calls the dispatcher makes: the mappers applied to a device, the
probes run on a device, and the manager-wide operations. -/
inductive Call
  | set_left_handed
  | set_motion
  | set_middle_button
  | set_tap_to_click
  | set_click_actions
  | set_scrolling
  | set_natural_scroll
  | set_touchpad_disabled
  | set_touchpad_enabled
  | set_scroll_wheel_button
  | touchpad_set_bool (property_name : String)
  | touchpad_get_bool (property_name : String)
  | run_custom_command (command : CustomCommand)
  | set_disable_w_typing
  | set_disable_w_mouse_attached
  | ensure_touchpad_active
  | set_locate_pointer
  | set_mousetweaks_daemon
deriving DecidableEq, Repr

/-- One call of the dispatcher: the call, the identifier of the device it is
made for (none for a manager-wide operation) and whether that device was
ignored when the call was made (`device_is_ignored` for a device of the
device list, membership of the blacklist for the bare identifier of a
disabled device). -/
structure LogEntry where
  call : Call
  id : Option Int
  ignored : Bool
deriving DecidableEq, Repr

/-- What the manager depends on outside this file: the names interned on the
connection, the verdict of `run_custom_command` (true when the custom command
asks to leave the device alone), the presence probes of the input helper, the
identifiers `get_disabled_devices` returns, and how the helper programs
start. -/
structure Host where
  atoms : List String
  custom_command : Int → CustomCommand → Bool
  mouse_is_present : Bool
  touchscreen_is_present : Bool
  touchpad_is_present : Bool
  disabled_devices : List Int
  syndaemon_in_path : Bool
  syndaemon_starts : Bool
  locate_pointer_starts : Bool
  mousetweaks_starts : Bool
  mousetweaks_missing : Bool

/-- The state of the manager (`CsdMouseManagerPrivate`, the settings it reads
and the slave devices of the device manager), with the helper programs it
tried to start so far. -/
structure CsdMouseManager where
  settings : Settings
  blacklist : List Int
  devices : List GdkDevice
  start_idle_id : Nat
  handlers_connected : Bool
  mousetweaks_daemon_running : Bool
  syndaemon_spawned : Bool
  locate_pointer_spawned : Bool
  spawn_attempts : List String

/-- A manager-wide log entry. -/
def global_call (call : Call) : LogEntry := { call := call, id := none, ignored := false }

/-- The log entry of a call made for a device of the device list. -/
def device_call (blacklist : List Int) (device : GdkDevice) (call : Call) : LogEntry :=
  { call := call, id := some device.id, ignored := device_is_ignored blacklist device }

/-- The loop `for (l = devices; l != NULL; l = l->next)` with the guard
`if (device_is_ignored (manager, device)) continue;`: `body` gives what the
rest of the loop body does to a device and the calls it makes. -/
def for_each_device (blacklist : List Int) (body : GdkDevice → GdkDevice × List Call) :
    List GdkDevice → List GdkDevice × List LogEntry
  | [] => ([], [])
  | device :: rest =>
    if device_is_ignored blacklist device = true then
      (device :: (for_each_device blacklist body rest).1,
        (for_each_device blacklist body rest).2)
    else
      ((body device).1 :: (for_each_device blacklist body rest).1,
        (body device).2.map (device_call blacklist device)
          ++ (for_each_device blacklist body rest).2)

/-- The function `set_touchpad_enabled (id)` for a device of the device list. -/
def set_touchpad_enabled (device : GdkDevice) : GdkDevice :=
  if device.xdevice.opens = false then device
  else if device.xdevice.is_touchpad = false then device
  else { device with enable_requests := device.enable_requests ++ [true] }

/-- The loop over `get_disabled_devices` that calls `set_touchpad_enabled`
with each identifier. The devices are not in the device list; only the calls
are recorded. -/
def enable_disabled_devices (h : Host) (blacklist : List Int) : List LogEntry :=
  h.disabled_devices.map fun device_id =>
    { call := Call.set_touchpad_enabled, id := some device_id,
      ignored := decide (device_id ∈ blacklist) }

/-- The function `ensure_touchpad_active (manager)`. -/
def ensure_touchpad_active (h : Host) (m : CsdMouseManager) : CsdMouseManager :=
  if h.mouse_is_present = false ∧ h.touchscreen_is_present = false
      ∧ h.touchpad_is_present = true then
    { m with settings := { m.settings with touchpad_enabled := true } }
  else m

/-- The function `set_disable_w_typing_synaptics (manager, state)`. -/
def set_disable_w_typing_synaptics (h : Host) (m : CsdMouseManager) (state : Bool) :
    CsdMouseManager :=
  if state = true ∧ h.touchpad_is_present = true then
    if m.syndaemon_spawned = true then m
    else if h.syndaemon_in_path = false then m
    else if h.syndaemon_starts = true then
      { m with syndaemon_spawned := true, spawn_attempts := m.spawn_attempts ++ ["syndaemon"] }
    else
      { m with
        syndaemon_spawned := false
        spawn_attempts := m.spawn_attempts ++ ["syndaemon"]
        settings := { m.settings with disable_while_typing := false } }
  else if m.syndaemon_spawned = true then
    { m with syndaemon_spawned := false }
  else m

/-- The function `set_disable_w_typing_libinput (manager, state)`. -/
def set_disable_w_typing_libinput (h : Host) (m : CsdMouseManager) (state : Bool) :
    CsdMouseManager × List LogEntry :=
  let r := for_each_device m.blacklist
    (fun device =>
      ({ device with
          xdevice := touchpad_set_bool h.atoms device.xdevice
            "libinput Disable While Typing Enabled" 0 state },
        [Call.touchpad_set_bool "libinput Disable While Typing Enabled"]))
    m.devices
  ({ m with devices := r.1 }, r.2)

/-- The function `set_disable_w_typing (manager, state)`. -/
def set_disable_w_typing (h : Host) (m : CsdMouseManager) (state : Bool) :
    CsdMouseManager × List LogEntry :=
  let m1 :=
    if property_from_name h.atoms "Synaptics Off" = true then
      set_disable_w_typing_synaptics h m state
    else m
  let r :=
    if property_from_name h.atoms "libinput Disable While Typing Enabled" = true then
      set_disable_w_typing_libinput h m1 state
    else (m1, [])
  (r.1, global_call Call.set_disable_w_typing :: r.2)

/-- The function `set_disable_w_mouse_attached (manager, state)`, that is
`set_disable_w_mouse_attached_libinput`. -/
def set_disable_w_mouse_attached (h : Host) (m : CsdMouseManager) (state : Bool) :
    CsdMouseManager × List LogEntry :=
  let r := for_each_device m.blacklist
    (fun device =>
      if touchpad_get_bool h.atoms device.xdevice "libinput Send Events Modes Available" 1
          = true then
        ({ device with
            xdevice := touchpad_set_bool h.atoms device.xdevice
              "libinput Send Events Mode Enabled" 1 state },
          [Call.touchpad_get_bool "libinput Send Events Modes Available",
           Call.touchpad_set_bool "libinput Send Events Mode Enabled"])
      else (device, [Call.touchpad_get_bool "libinput Send Events Modes Available"]))
    m.devices
  ({ m with devices := r.1 }, global_call Call.set_disable_w_mouse_attached :: r.2)

/-- The function `set_locate_pointer (manager, state)`. -/
def set_locate_pointer (h : Host) (m : CsdMouseManager) (state : Bool) : CsdMouseManager :=
  if state = true then
    if m.locate_pointer_spawned = true then m
    else if h.locate_pointer_starts = true then
      { m with
        locate_pointer_spawned := true
        spawn_attempts := m.spawn_attempts ++ ["csd-locate-pointer"] }
    else
      { m with
        locate_pointer_spawned := false
        spawn_attempts := m.spawn_attempts ++ ["csd-locate-pointer"]
        settings := { m.settings with locate_pointer := false } }
  else if m.locate_pointer_spawned = true then
    { m with locate_pointer_spawned := false }
  else m

/-- The function `set_mousetweaks_daemon (manager, dwell_click_enabled,
secondary_click_enabled)`; `mousetweaks_missing` tells whether a failed start
reports `G_SPAWN_ERROR_NOENT`. -/
def set_mousetweaks_daemon (h : Host) (m : CsdMouseManager)
    (dwell_click_enabled secondary_click_enabled : Bool) : CsdMouseManager :=
  let run_daemon := dwell_click_enabled || secondary_click_enabled
  if run_daemon = true ∨ m.mousetweaks_daemon_running = true then
    let m1 := if run_daemon = true then { m with mousetweaks_daemon_running := true } else m
    let m2 := { m1 with
      spawn_attempts := m1.spawn_attempts ++ [if run_daemon = true then "mousetweaks "
        else "mousetweaks -s"] }
    if h.mousetweaks_starts = false then
      if h.mousetweaks_missing = true ∧ run_daemon = true then
        if dwell_click_enabled = true then
          { m2 with settings := { m2.settings with dwell_click_enabled := false } }
        else if secondary_click_enabled = true then
          { m2 with settings := { m2.settings with secondary_click_enabled := false } }
        else m2
      else m2
    else m2
  else m

/-- The calls `set_mouse_settings` makes for a device, in order. -/
def set_mouse_settings_calls (s : Settings) : List Call :=
  [Call.set_left_handed, Call.set_motion, Call.set_middle_button, Call.set_tap_to_click,
   Call.set_click_actions, Call.set_scrolling, Call.set_natural_scroll]
  ++ (if s.touchpad_enabled = false then [Call.set_touchpad_disabled] else [])
  ++ [Call.set_scroll_wheel_button]

/-- The body of the device loop of `mouse_callback`, after the guard
`device_is_ignored`: what is done to the device and the calls made. -/
def mouse_callback_device (h : Host) (m : CsdMouseManager) (key : String)
    (device : GdkDevice) : GdkDevice × List Call :=
  if gdkdevice_is_touchpad device = true then (device, [])
  else if key = "left-handed" then
    (set_left_handed h.atoms m.settings.tap_to_click device m.settings.mouse_left_handed
      (get_touchpad_handedness m.settings m.settings.mouse_left_handed),
      [Call.set_left_handed])
  else if key = "motion-acceleration" ∨ key = "custom-acceleration"
      ∨ key = "motion-threshold" ∨ key = "custom-threshold" then
    (set_motion h.atoms m.settings device, [Call.set_motion])
  else if key = "middle-button-enabled" then
    ({ device with
        xdevice := set_middle_button h.atoms device.xdevice
          m.settings.middle_button_enabled }, [Call.set_middle_button])
  else if key = "natural-scroll" then
    ({ device with
        xdevice := set_natural_scroll h.atoms device.xdevice
          m.settings.mouse.natural_scroll }, [Call.set_natural_scroll])
  else (device, [])

/-- The function `mouse_callback (settings, key, manager)`. -/
def mouse_callback (h : Host) (m : CsdMouseManager) (key : String) :
    CsdMouseManager × List LogEntry :=
  if key = "dwell-click-enabled" ∨ key = "secondary-click-enabled" then
    (set_mousetweaks_daemon h m m.settings.dwell_click_enabled
      m.settings.secondary_click_enabled, [global_call Call.set_mousetweaks_daemon])
  else if key = "locate-pointer" then
    (set_locate_pointer h m m.settings.locate_pointer, [global_call Call.set_locate_pointer])
  else
    ({ m with
        devices := (for_each_device m.blacklist (mouse_callback_device h m key) m.devices).1 },
      (for_each_device m.blacklist (mouse_callback_device h m key) m.devices).2)

/-- The function `trackball_callback (settings, key, manager)`. -/
def trackball_callback (h : Host) (m : CsdMouseManager) :
    CsdMouseManager × List LogEntry :=
  let r := for_each_device m.blacklist
    (fun device =>
      ({ device with
          xdevice := set_scroll_wheel_button h.atoms device.xdevice device.is_trackball
            m.settings.scroll_wheel_emulation_button }, [Call.set_scroll_wheel_button]))
    m.devices
  ({ m with devices := r.1 }, r.2)

/-- The body of the device loop of `touchpad_callback`, after the guard
`device_is_ignored`: what is done to the device and the calls made. -/
def touchpad_callback_device (h : Host) (m : CsdMouseManager) (key : String)
    (device : GdkDevice) : GdkDevice × List Call :=
  let touchpad_left_handed := get_touchpad_handedness m.settings m.settings.mouse_left_handed
  if gdkdevice_is_touchpad device = false then (device, [])
  else if key = "tap-to-click" then
    ({ device with
        xdevice := set_tap_to_click h.atoms device.xdevice m.settings.tap_to_click
          touchpad_left_handed }, [Call.set_tap_to_click])
  else if key = "clickpad-click" then
    ({ device with
        xdevice := set_click_actions h.atoms device.xdevice m.settings.clickpad_click
          touchpad_left_handed }, [Call.set_click_actions])
  else if key = "scrolling-method" ∨ key = "horizontal-scrolling" then
    ({ device with
        xdevice := set_scrolling h.atoms device.xdevice m.settings.scrolling_method
          m.settings.horizontal_scrolling }, [Call.set_scrolling])
  else if key = "touchpad-enabled" then
    if m.settings.touchpad_enabled = false then
      (set_touchpad_disabled device, [Call.set_touchpad_disabled])
    else (set_touchpad_enabled device, [Call.set_touchpad_enabled])
  else if key = "motion-acceleration" ∨ key = "custom-acceleration"
      ∨ key = "motion-threshold" ∨ key = "custom-threshold" then
    (set_motion h.atoms m.settings device, [Call.set_motion])
  else if key = "left-handed" then
    (set_left_handed h.atoms m.settings.tap_to_click device m.settings.mouse_left_handed
      touchpad_left_handed, [Call.set_left_handed])
  else if key = "natural-scroll" then
    ({ device with
        xdevice := set_natural_scroll h.atoms device.xdevice
          m.settings.touchpad.natural_scroll }, [Call.set_natural_scroll])
  else (device, [])

/-- The function `touchpad_callback (settings, key, manager)`. -/
def touchpad_callback (h : Host) (m : CsdMouseManager) (key : String) :
    CsdMouseManager × List LogEntry :=
  if key = "disable-while-typing" then
    set_disable_w_typing h m m.settings.disable_while_typing
  else if key = "disable-with-external-mouse" then
    set_disable_w_mouse_attached h m m.settings.disable_with_external_mouse
  else
    ({ m with
        devices :=
          (for_each_device m.blacklist (touchpad_callback_device h m key) m.devices).1 },
      (for_each_device m.blacklist (touchpad_callback_device h m key) m.devices).2
        ++ (if key = "touchpad-enabled" ∧ m.settings.touchpad_enabled = true then
          enable_disabled_devices h m.blacklist else []))

/-- The function `device_added_cb (device_manager, device, manager)`. The
settings are applied to the entries of the device list that carry the
identifier of `device`. -/
def device_added_cb (h : Host) (m : CsdMouseManager) (device : GdkDevice) :
    CsdMouseManager × List LogEntry :=
  if device_is_ignored m.blacklist device = false then
    let command := device_call m.blacklist device
      (Call.run_custom_command CustomCommand.COMMAND_DEVICE_ADDED)
    let r1 : CsdMouseManager × List LogEntry :=
      if h.custom_command device.id CustomCommand.COMMAND_DEVICE_ADDED = false then
        ({ m with
            devices := m.devices.map fun d =>
              if d.id = device.id then set_mouse_settings h.atoms m.settings d else d },
          (set_mouse_settings_calls m.settings).map (device_call m.blacklist device))
      else ({ m with blacklist := m.blacklist ++ [device.id] }, [])
    let r2 := set_disable_w_typing h r1.1 r1.1.settings.disable_while_typing
    let r3 := set_disable_w_mouse_attached h r2.1 r2.1.settings.disable_with_external_mouse
    (r3.1, command :: r1.2 ++ r2.2 ++ r3.2)
  else (m, [])

/-- The function `device_removed_cb (device_manager, device, manager)`. -/
def device_removed_cb (h : Host) (m : CsdMouseManager) (device : GdkDevice) :
    CsdMouseManager × List LogEntry :=
  let m1 := { m with blacklist := m.blacklist.filter (fun id => id ≠ device.id) }
  if device_is_ignored m1.blacklist device = false then
    let command := device_call m1.blacklist device
      (Call.run_custom_command CustomCommand.COMMAND_DEVICE_REMOVED)
    let r2 := set_disable_w_typing h m1 m1.settings.disable_while_typing
    (ensure_touchpad_active h r2.1,
      command :: r2.2 ++ [global_call Call.ensure_touchpad_active])
  else (m1, [])

/-- The loop of `csd_mouse_manager_idle_cb` over the devices present at
startup: the blacklist grows while the loop runs. -/
def present_devices (h : Host) (s : Settings) :
    List Int → List GdkDevice → List GdkDevice × List Int × List LogEntry
  | blacklist, [] => ([], blacklist, [])
  | blacklist, device :: rest =>
    if device_is_ignored blacklist device = true then
      (device :: (present_devices h s blacklist rest).1,
        (present_devices h s blacklist rest).2.1,
        (present_devices h s blacklist rest).2.2)
    else if h.custom_command device.id CustomCommand.COMMAND_DEVICE_PRESENT = false then
      (set_mouse_settings h.atoms s device :: (present_devices h s blacklist rest).1,
        (present_devices h s blacklist rest).2.1,
        (Call.run_custom_command CustomCommand.COMMAND_DEVICE_PRESENT
            :: set_mouse_settings_calls s).map (device_call blacklist device)
          ++ (present_devices h s blacklist rest).2.2)
    else
      (device :: (present_devices h s (blacklist ++ [device.id]) rest).1,
        (present_devices h s (blacklist ++ [device.id]) rest).2.1,
        device_call blacklist device
            (Call.run_custom_command CustomCommand.COMMAND_DEVICE_PRESENT)
          :: (present_devices h s (blacklist ++ [device.id]) rest).2.2)

/-- The function `csd_mouse_manager_idle_cb (manager)`. -/
def csd_mouse_manager_idle_cb (h : Host) (m : CsdMouseManager) :
    CsdMouseManager × List LogEntry :=
  let m := { m with handlers_connected := true, syndaemon_spawned := false }
  let m := set_locate_pointer h m m.settings.locate_pointer
  let m := set_mousetweaks_daemon h m m.settings.dwell_click_enabled
    m.settings.secondary_click_enabled
  let r1 := set_disable_w_typing h m m.settings.disable_while_typing
  let r2 := set_disable_w_mouse_attached h r1.1 r1.1.settings.disable_with_external_mouse
  let r3 := present_devices h r2.1.settings r2.1.blacklist r2.1.devices
  let m3 : CsdMouseManager := { r2.1 with devices := r3.1, blacklist := r3.2.1 }
  let m4 := ensure_touchpad_active h m3
  let enabled :=
    if m4.settings.touchpad_enabled = true then enable_disabled_devices h m4.blacklist else []
  ({ m4 with start_idle_id := 0 },
    [global_call Call.set_locate_pointer, global_call Call.set_mousetweaks_daemon]
      ++ r1.2 ++ r2.2 ++ r3.2.2 ++ [global_call Call.ensure_touchpad_active] ++ enabled)

/-- The events the manager reacts to once it runs. -/
inductive Event
  | mouse_changed (key : String)
  | touchpad_changed (key : String)
  | trackball_changed
  | device_added (device : GdkDevice)
  | device_removed (device : GdkDevice)
  | startup

/-- The handler the main loop runs for an event. An attached device is in the
device list when `device_added_cb` runs, a detached one no longer is when
`device_removed_cb` runs. -/
def handle_event (h : Host) (m : CsdMouseManager) : Event → CsdMouseManager × List LogEntry
  | .mouse_changed key => mouse_callback h m key
  | .touchpad_changed key => touchpad_callback h m key
  | .trackball_changed => trackball_callback h m
  | .device_added device =>
    device_added_cb h { m with devices := m.devices ++ [device] } device
  | .device_removed device =>
    device_removed_cb h { m with devices := m.devices.filter (fun d => d.id ≠ device.id) } device
  | .startup => csd_mouse_manager_idle_cb h m

/-- The calls made while a sequence of events is handled, oldest first. -/
def run_events (h : Host) : CsdMouseManager → List Event → List LogEntry
  | _, [] => []
  | m, e :: es => (handle_event h m e).2 ++ run_events h (handle_event h m e).1 es

/-- How often a log records an evaluation of `ensure_touchpad_active`. -/
def ensure_touchpad_active_count (log : List LogEntry) : Nat :=
  log.count (global_call Call.ensure_touchpad_active)

/-- A host on which the names `atoms` are interned, the custom command
refuses the devices `refused`, `get_disabled_devices` returns `disabled`, a
mouse and a touchpad are present and no helper program is installed. -/
def host_with (atoms : List String) (refused disabled : List Int) : Host :=
  { atoms := atoms
    custom_command := fun id _ => decide (id ∈ refused)
    mouse_is_present := true
    touchscreen_is_present := false
    touchpad_is_present := true
    disabled_devices := disabled
    syndaemon_in_path := false
    syndaemon_starts := false
    locate_pointer_starts := false
    mousetweaks_starts := false
    mousetweaks_missing := true }

/-- A running manager with the given settings, blacklist and device list and
no helper program started. -/
def manager_with (settings : Settings) (blacklist : List Int) (devices : List GdkDevice) :
    CsdMouseManager :=
  { settings := settings, blacklist := blacklist, devices := devices
    start_idle_id := 0, handlers_connected := true
    mousetweaks_daemon_running := false, syndaemon_spawned := false
    locate_pointer_spawned := false, spawn_attempts := [] }


/-! ## Lifecycle: `csd_mouse_manager_start`, `csd_mouse_manager_stop` -/

/-- The state `csd_mouse_manager_init` leaves: the private data is
zero-filled and the blacklist is a new, empty table. The settings and the
slave devices belong to the environment. -/
def csd_mouse_manager_init (settings : Settings) (devices : List GdkDevice) :
    CsdMouseManager :=
  { settings := settings, blacklist := [], devices := devices
    start_idle_id := 0, handlers_connected := false
    mousetweaks_daemon_running := false, syndaemon_spawned := false
    locate_pointer_spawned := false, spawn_attempts := [] }

/-- The part of the GLib main context the manager uses: the identifiers of
the idle sources that are pending, oldest first, and the identifier the next
source gets. Identifiers are positive. -/
structure GMainContext where
  idle_sources : List Nat
  next_source_id : Nat
deriving DecidableEq, Repr

/-- The call `g_idle_add (function, data)`: a new pending source; its
identifier is returned. -/
def g_idle_add (context : GMainContext) : Nat × GMainContext :=
  (context.next_source_id,
    { idle_sources := context.idle_sources ++ [context.next_source_id]
      next_source_id := context.next_source_id + 1 })

/-- The call `g_source_remove (tag)`. -/
def g_source_remove (context : GMainContext) (tag : Nat) : GMainContext :=
  { context with idle_sources := context.idle_sources.filter (fun id => id ≠ tag) }

/-- The manager object inside its process: the private data, the main
context and whether the four `GSettings` objects are held. -/
structure ManagerObject where
  priv : CsdMouseManager
  context : GMainContext
  settings_objects : Bool

/-- The function `csd_mouse_manager_start (manager, error)`; the result of
`supports_xinput_devices` is a parameter. The C function returns `TRUE` on
both paths. -/
def csd_mouse_manager_start (supports_xinput_devices : Bool) (manager : ManagerObject) :
    ManagerObject :=
  if supports_xinput_devices = false then manager
  else
    { manager with
      priv := { manager.priv with start_idle_id := (g_idle_add manager.context).1 }
      context := (g_idle_add manager.context).2 }

/-- The function `csd_mouse_manager_stop (manager)`. -/
def csd_mouse_manager_stop (h : Host) (manager : ManagerObject) : ManagerObject :=
  let manager :=
    if manager.priv.start_idle_id ≠ 0 then
      { manager with
        context := g_source_remove manager.context manager.priv.start_idle_id
        priv := { manager.priv with start_idle_id := 0 } }
    else manager
  let manager :=
    if manager.priv.handlers_connected = true then
      { manager with priv := { manager.priv with handlers_connected := false } }
    else manager
  let manager := { manager with settings_objects := false }
  { manager with priv := set_locate_pointer h manager.priv false }

/-- A manager object right after `csd_mouse_manager_new`, in a main context
with no idle source. -/
def new_manager_object : ManagerObject :=
  { priv := csd_mouse_manager_init default_settings []
    context := { idle_sources := [], next_source_id := 1 }
    settings_objects := false }

/-! ## Reachable states -/

/-- The call `gdk_error_trap_push ()` (and
`gdk_x11_display_error_trap_push` on the default display), on the depth of
the trap stack. -/
def gdk_error_trap_push (depth : Nat) : Nat := depth + 1

/-- The call `gdk_error_trap_pop ()` (and the `gdk_x11_display` variants,
`_ignored` included), on the depth of the trap stack. -/
def gdk_error_trap_pop (depth : Nat) : Nat := depth - 1

/-- The trap depth after `open_gdk_device (device)`. -/
def open_gdk_device_trap (depth : Nat) : Nat :=
  gdk_error_trap_pop (gdk_error_trap_push depth)

/-- The trap depth after `device_is_trackball (device)`;
`device_list_null` tells whether `XListInputDevices` returns `NULL`. -/
def device_is_trackball_trap (device_list_null : Bool) (depth : Nat) : Nat :=
  let depth := gdk_error_trap_push depth
  if device_list_null = true then depth
  else gdk_error_trap_pop depth

/-- The trap depth after `set_motion_legacy_driver (manager, device)`;
`states_null` tells whether `XGetFeedbackControl` returns `NULL`. -/
def set_motion_legacy_driver_trap (dev : XDeviceState) (states_null : Bool)
    (depth : Nat) : Nat :=
  let depth := open_gdk_device_trap depth
  if dev.opens = false then depth
  else
    let depth := gdk_error_trap_push depth
    if states_null = true then depth
    else gdk_error_trap_pop depth

/-- The trap depth after `property_set_bool` on an open device. -/
def property_set_bool_trap (atoms : List String) (property_name : String)
    (depth : Nat) : Nat :=
  if property_from_name atoms property_name = false then depth
  else gdk_error_trap_pop (gdk_error_trap_push depth)

/-- The trap depth after `set_scroll_wheel_button (manager, device)`;
`is_trackball` is what `device_info_is_trackball` finds for the device. -/
def set_scroll_wheel_button_trap (atoms : List String) (dev : XDeviceState)
    (is_trackball device_list_null : Bool) (depth : Nat) : Nat :=
  let depth := device_is_trackball_trap device_list_null depth
  if device_list_null = true ∨ is_trackball = false then depth
  else
    let depth := open_gdk_device_trap depth
    if dev.opens = false then depth
    else if property_from_name atoms "Evdev Wheel Emulation" = false
        ∨ property_from_name atoms "Evdev Wheel Emulation Button" = false then depth
    else
      let depth := gdk_error_trap_push depth
      let r := XGetDeviceProperty atoms dev "Evdev Wheel Emulation" 1 XA_INTEGER
      let depth :=
        if r.rc_success = true ∧ r.act_format = 8 ∧ r.act_type = XA_INTEGER ∧ r.nitems = 1 then
          gdk_error_trap_push depth
        else depth
      gdk_error_trap_pop depth


/-! ## Handedness: properties of `configure_button_layout` -/

/-- The search loop never changes the length of the map. -/
theorem swap_first_length (t r : Nat) (k : Nat) (bs : List Nat) :
    (swap_first t r k bs).length = bs.length := by
  induction k generalizing bs with
  | zero => simp [swap_first]
  | succ k ih =>
    cases bs with
    | nil => simp [swap_first]
    | cons x xs =>
      by_cases hx : x = t <;> simp [swap_first, hx, ih]

/-- Searching for `b` and writing `a`, then searching for `a` and writing `b`,
restores a list in which `a` did not occur. -/
theorem swap_first_round (a b : Nat) (k : Nat) (bs : List Nat) (ha : a ∉ bs) :
    swap_first a b k (swap_first b a k bs) = bs := by
  induction k generalizing bs with
  | zero => simp [swap_first]
  | succ k ih =>
    cases bs with
    | nil => simp [swap_first]
    | cons x xs =>
      have hxa : x ≠ a := fun h => ha (by simp [h])
      have hxs : a ∉ xs := fun h => ha (by simp [h])
      by_cases hx : x = b
      · simp [swap_first, hx]
      · simp [swap_first, hx, hxa, ih xs hxs]

/-- A map differs from itself nowhere. -/
theorem differing_positions_self (bs : List Nat) : differing_positions bs bs = 0 := by
  induction bs with
  | nil => rfl
  | cons x xs ih => simpa [differing_positions] using ih

/-- Counting differing positions, one entry at a time. -/
theorem differing_positions_cons (x y : Nat) (xs ys : List Nat) :
    differing_positions (x :: xs) (y :: ys)
      = (if x = y then 0 else 1) + differing_positions xs ys := by
  by_cases h : x = y
  · simp [differing_positions, h]
  · simp [differing_positions, h, List.filter_cons, Nat.add_comm]

/-- The search loop overwrites at most one entry. -/
theorem swap_first_differing (t r : Nat) (k : Nat) (bs : List Nat) :
    differing_positions (swap_first t r k bs) bs ≤ 1 := by
  induction k generalizing bs with
  | zero => simp [swap_first, differing_positions_self]
  | succ k ih =>
    cases bs with
    | nil => simp [swap_first, differing_positions]
    | cons x xs =>
      by_cases hx : x = t
      · simp only [swap_first, hx, if_true, differing_positions_cons, differing_positions_self]
        split <;> simp
      · simp only [swap_first, hx, if_false, differing_positions_cons, if_true]
        simpa using ih xs

/-- Unfolding of `configure_button_layout` on a non-empty map whose length is
`n_buttons = k + 1`: the loop either hits entry 0 or continues in the tail, and
entry 0 is overwritten afterwards. -/
theorem configure_button_layout_cons (b0 : Nat) (tl : List Nat) (k : Nat) (lh : Bool) :
    configure_button_layout (b0 :: tl) (k + 1) lh =
      if b0 ≠ 1 ∧ b0 ≠ min (k + 1) 3 then b0 :: tl
      else if lh = true ∧ b0 = 1 then
        min (k + 1) 3 :: (if b0 = min (k + 1) 3 then tl else swap_first (min (k + 1) 3) 1 k tl)
      else if lh = false ∧ b0 = min (k + 1) 3 then
        1 :: (if b0 = 1 then tl else swap_first 1 (min (k + 1) 3) k tl)
      else b0 :: tl := by
  unfold configure_button_layout
  simp only [swap_first]
  generalize min (k + 1) 3 = R
  split_ifs <;> rfl

/-- Claim C1, counterexample: on the standard right-handed map `[1, 2, 3]`
(length 3, first entry 1) applying `left_handed = false` and then the
opposite value `true` ends in `[3, 2, 1]`, not in the original map; and on
`[1, 1, 3]`, where logical button 1 occurs twice, neither order of the two
opposite values restores the map. -/
theorem configure_button_layout_opposite_not_restored :
    ([1, 2, 3] : List Nat).length = 3 ∧ ([1, 2, 3] : List Nat).head? = some 1 ∧
    configure_button_layout (configure_button_layout [1, 2, 3] 3 false) 3 true = [3, 2, 1] ∧
    configure_button_layout (configure_button_layout [1, 2, 3] 3 false) 3 true ≠ [1, 2, 3] ∧
    (∀ lh : Bool,
      configure_button_layout (configure_button_layout [1, 1, 3] 3 lh) 3 (!lh) ≠ [1, 1, 3]) := by
  decide

/-- Claim C1, amended: for a button map `b0 :: tl` of length `n` whose first
entry does not occur again in the map, applying the handedness opposite to
the current orientation and then the other one restores the map: `true` then
`false` when the first entry is 1, `false` then `true` when it is
`min n 3`. -/
theorem configure_button_layout_round_trip (b0 : Nat) (tl : List Nat) (n : Nat)
    (hlen : (b0 :: tl).length = n) (hfresh : b0 ∉ tl) :
    (b0 = 1 →
      configure_button_layout (configure_button_layout (b0 :: tl) n true) n false = b0 :: tl) ∧
    (b0 = min n 3 →
      configure_button_layout (configure_button_layout (b0 :: tl) n false) n true = b0 :: tl) := by
  subst hlen
  simp only [List.length_cons]
  constructor
  · intro h1
    subst h1
    rw [configure_button_layout_cons 1 tl]
    by_cases hR : 1 = min (tl.length + 1) 3
    · rw [← hR]
      simp only [ne_eq, not_true_eq_false, and_self, if_false, and_true, if_true]
      rw [configure_button_layout_cons 1 tl, ← hR]
      simp
    · have hR2 : ¬ min (tl.length + 1) 3 = 1 := fun h => hR h.symm
      simp only [ne_eq, not_true_eq_false, false_and, if_false, and_self, if_true, hR]
      rw [configure_button_layout_cons]
      generalize min (tl.length + 1) 3 = R at *
      simp [hR2, swap_first_round 1 R _ tl hfresh]
  · intro h3
    rw [configure_button_layout_cons b0 tl]
    by_cases h1 : b0 = 1
    · subst h1
      rw [← h3]
      simp only [ne_eq, not_true_eq_false, and_self, if_false, and_true, if_true, Bool.false_eq_true,
        false_and]
      rw [configure_button_layout_cons 1 tl, ← h3]
      simp
    · rw [← h3]
      simp only [ne_eq, not_true_eq_false, and_false, if_false, and_self, if_true, h1,
        Bool.false_eq_true]
      rw [configure_button_layout_cons, ← h3]
      simp [h1, Ne.symm h1, swap_first_round b0 1 _ tl hfresh]

/-- Claim C1, instance: the map `[1, 2, 3]` made left-handed and then
right-handed again. -/
theorem configure_button_layout_round_trip_witness :
    ((1 :: [2, 3] : List Nat).length = 3 ∧ 1 ∉ ([2, 3] : List Nat)) ∧
    configure_button_layout (configure_button_layout [1, 2, 3] 3 true) 3 false = [1, 2, 3] :=
  ⟨by decide, (configure_button_layout_round_trip 1 [2, 3] 3 (by decide) (by decide)).1 rfl⟩

/-- Claim C2: for a button map of length `n ≥ 1` whose first entry is 1 or
`min n 3`, after `configure_button_layout` the first entry is `min n 3` when
`left_handed` is true and 1 when it is false, the length is unchanged and the
result differs from the input in at most two positions. -/
theorem configure_button_layout_first_entry (buttons : List Nat) (n : Nat) (left_handed : Bool)
    (hn : 1 ≤ n) (hlen : buttons.length = n)
    (hfirst : buttons.head? = some 1 ∨ buttons.head? = some (min n 3)) :
    (configure_button_layout buttons n left_handed).head?
        = some (if left_handed = true then min n 3 else 1) ∧
    (configure_button_layout buttons n left_handed).length = buttons.length ∧
    differing_positions (configure_button_layout buttons n left_handed) buttons ≤ 2 := by
  cases buttons with
  | nil => simp at hlen; omega
  | cons b0 tl =>
    subst hlen
    simp only [List.length_cons, List.head?_cons, Option.some.injEq] at hfirst ⊢
    rw [configure_button_layout_cons]
    have hd := swap_first_differing (min (tl.length + 1) 3) 1 tl.length tl
    have hd2 := swap_first_differing 1 (min (tl.length + 1) 3) tl.length tl
    generalize min (tl.length + 1) 3 = R at *
    have hl := swap_first_length R 1 tl.length tl
    have hl2 := swap_first_length 1 R tl.length tl
    rcases hfirst with h | h
    · subst h
      cases left_handed <;> by_cases hR : R = 1 <;>
        simp [hR, Ne.symm, differing_positions_cons, differing_positions_self, hl]
      all_goals omega
    · rw [h]
      cases left_handed <;> by_cases hR : R = 1 <;>
        simp [hR, Ne.symm, differing_positions_cons, differing_positions_self, hl2]
      all_goals omega

/-- Claim C2, instance: a five-button map made left-handed. -/
theorem configure_button_layout_first_entry_witness :
    (1 ≤ 5 ∧ ([1, 2, 3, 4, 5] : List Nat).length = 5 ∧
      (([1, 2, 3, 4, 5] : List Nat).head? = some 1 ∨
       ([1, 2, 3, 4, 5] : List Nat).head? = some (min 5 3))) ∧
    ((configure_button_layout [1, 2, 3, 4, 5] 5 true).head?
        = some (if true = true then min 5 3 else 1) ∧
    (configure_button_layout [1, 2, 3, 4, 5] 5 true).length
        = ([1, 2, 3, 4, 5] : List Nat).length ∧
    differing_positions (configure_button_layout [1, 2, 3, 4, 5] 5 true) [1, 2, 3, 4, 5] ≤ 2) :=
  ⟨by decide, configure_button_layout_first_entry [1, 2, 3, 4, 5] 5 true (by decide) (by decide)
    (by decide)⟩

/-- Claim C3: a button map of length `n ≥ 1` whose first entry is neither 1
nor `min n 3` is returned unchanged, whatever `left_handed` is. -/
theorem configure_button_layout_weird_unchanged (buttons : List Nat) (n : Nat)
    (left_handed : Bool) (hn : 1 ≤ n) (hlen : buttons.length = n)
    (h1 : buttons.head? ≠ some 1) (hR : buttons.head? ≠ some (min n 3)) :
    configure_button_layout buttons n left_handed = buttons := by
  cases buttons with
  | nil => simp at hlen; omega
  | cons b0 tl =>
    simp only [List.head?_cons, ne_eq, Option.some.injEq] at h1 hR
    simp [configure_button_layout, h1, hR]

/-- Claim C3, instance: the map `[2, 1, 3]` is left alone. -/
theorem configure_button_layout_weird_unchanged_witness :
    (1 ≤ 3 ∧ ([2, 1, 3] : List Nat).length = 3 ∧ ([2, 1, 3] : List Nat).head? ≠ some 1 ∧
      ([2, 1, 3] : List Nat).head? ≠ some (min 3 3)) ∧
    configure_button_layout [2, 1, 3] 3 true = [2, 1, 3] :=
  ⟨by decide, configure_button_layout_weird_unchanged [2, 1, 3] 3 true (by decide) (by decide)
    (by decide) (by decide)⟩

/-! ## Acceleration: properties of the two encodings -/

/-- With custom acceleration on, every configured value other than -1 is
mapped linearly. -/
theorem set_motion_libinput_custom (v : ℚ) (hv : v ≠ -1) :
    set_motion_libinput v true = (v - 1) * 2 / 9 - 1 := by
  simp [set_motion_libinput, hv]

/-- Claim C4: with custom-acceleration true the modern payload on the
configured range [1, 10] is `(v - 1) * 2 / 9 - 1`; over exact arithmetic this
map is strictly increasing on [1, 10], a bijection from [1, 10] onto [-1, 1],
and takes 1 to -1, 10 to 1 and 5.5 to 0. -/
theorem set_motion_libinput_range :
    (∀ v : ℚ, v ∈ Set.Icc (1 : ℚ) 10 → set_motion_libinput v true = (v - 1) * 2 / 9 - 1) ∧
    StrictMonoOn (fun v => set_motion_libinput v true) (Set.Icc (1 : ℚ) 10) ∧
    Set.BijOn (fun v => set_motion_libinput v true) (Set.Icc (1 : ℚ) 10) (Set.Icc (-1 : ℚ) 1) ∧
    set_motion_libinput 1 true = -1 ∧
    set_motion_libinput 10 true = 1 ∧
    set_motion_libinput (11 / 2) true = 0 := by
  have hf : ∀ v : ℚ, v ∈ Set.Icc (1 : ℚ) 10 →
      set_motion_libinput v true = (v - 1) * 2 / 9 - 1 := by
    intro v hv
    apply set_motion_libinput_custom
    have := hv.1
    linarith
  have hmono : StrictMonoOn (fun v => set_motion_libinput v true) (Set.Icc (1 : ℚ) 10) := by
    intro a ha b hb hab
    simp only [hf a ha, hf b hb]
    linarith
  refine ⟨hf, hmono, ⟨?_, hmono.injOn, ?_⟩, ?_, ?_, ?_⟩
  · intro v hv
    simp only [hf v hv, Set.mem_Icc]
    obtain ⟨h1, h2⟩ := hv
    constructor <;> linarith
  · intro y hy
    obtain ⟨h1, h2⟩ := hy
    have hmem : (y + 1) * 9 / 2 + 1 ∈ Set.Icc (1 : ℚ) 10 := by
      constructor <;> linarith
    refine ⟨(y + 1) * 9 / 2 + 1, hmem, ?_⟩
    simp only [hf _ hmem]
    ring
  · norm_num [set_motion_libinput]
  · norm_num [set_motion_libinput]
  · norm_num [set_motion_libinput]

/-! ## Acceleration: rounding to binary32 and conversion to `int` -/

/-- The rounded integer is at most half above the value. -/
theorem round_half_even_le (q : ℚ) : (round_half_even q : ℚ) ≤ q + 1 / 2 := by
  have hfl : (⌊q⌋ : ℚ) ≤ q := Int.floor_le q
  have hfu : q < (⌊q⌋ : ℚ) + 1 := Int.lt_floor_add_one q
  unfold round_half_even
  split_ifs with h1 h2 h3
  · linarith
  · push_cast; linarith
  · linarith
  · push_cast; linarith

/-- The rounded integer is at most half below the value. -/
theorem round_half_even_ge (q : ℚ) : q - 1 / 2 ≤ (round_half_even q : ℚ) := by
  have hfl : (⌊q⌋ : ℚ) ≤ q := Int.floor_le q
  have hfu : q < (⌊q⌋ : ℚ) + 1 := Int.lt_floor_add_one q
  unfold round_half_even
  split_ifs with h1 h2 h3
  · linarith
  · push_cast; linarith
  · have : q - ⌊q⌋ = 1 / 2 := le_antisymm (not_lt.mp h2) (not_lt.mp h1)
    linarith
  · push_cast; linarith

/-- An integer rounds to itself. -/
theorem round_half_even_intCast (n : Int) : round_half_even (n : ℚ) = n := by
  simp [round_half_even]

/-- Rounding to an integer is monotone. -/
theorem round_half_even_mono {a b : ℚ} (hab : a ≤ b) :
    round_half_even a ≤ round_half_even b := by
  by_contra hc
  have hc' : round_half_even b + 1 ≤ round_half_even a := by omega
  have hq : (round_half_even b : ℚ) + 1 ≤ (round_half_even a : ℚ) := by exact_mod_cast hc'
  have h1 := round_half_even_le a
  have h2 := round_half_even_ge b
  have hba : b ≤ a := by linarith
  have : a = b := le_antisymm hab hba
  subst this
  omega

/-- A value at or above an integer rounds to at least that integer. -/
theorem le_round_half_even {n : Int} {q : ℚ} (h : (n : ℚ) ≤ q) : n ≤ round_half_even q := by
  have := round_half_even_mono h
  rwa [round_half_even_intCast] at this

/-- A value at or below an integer rounds to at most that integer. -/
theorem round_half_even_le_int {n : Int} {q : ℚ} (h : q ≤ (n : ℚ)) : round_half_even q ≤ n := by
  have := round_half_even_mono h
  rwa [round_half_even_intCast] at this

/-- The unit in the last place is positive. -/
theorem binary32_ulp_pos (e : Int) : (0 : ℚ) < 2 ^ e := zpow_pos (by norm_num) e

/-- A positive value lies below the upper end of its binade. -/
theorem lt_binade_top {p : ℚ} (hp : 0 < p) : p < 2 ^ (binary32_exponent p + 1) := by
  have h1 : p < (2 : ℚ) ^ (Int.log 2 p + 1) := by
    have := Int.lt_zpow_succ_log_self (R := ℚ) (b := 2) (by norm_num) p
    simpa using this
  have h2 : (2 : ℚ) ^ (Int.log 2 p + 1) ≤ 2 ^ (binary32_exponent p + 1) := by
    apply zpow_le_zpow_right₀ (by norm_num)
    unfold binary32_exponent
    rw [abs_of_pos hp]
    have := le_max_left (Int.log 2 p) (-126)
    omega
  exact lt_of_lt_of_le h1 h2

/-- A positive value below a power of two has a smaller exponent. -/
theorem binary32_exponent_lt {p : ℚ} (hp : 0 < p) {e : Int} (he : -126 < e)
    (h : p < 2 ^ e) : binary32_exponent p < e := by
  unfold binary32_exponent
  rw [abs_of_pos hp]
  have h' : p < ((2 : ℕ) : ℚ) ^ e := by simpa using h
  have := (Int.lt_zpow_iff_log_lt (R := ℚ) (b := 2) (by norm_num) hp).mp h'
  exact max_lt this he

/-- The exponent of a positive value inside a binade. -/
theorem binary32_exponent_eq {p : ℚ} (hp : 0 < p) {e : Int} (he : -126 ≤ e)
    (h1 : (2 : ℚ) ^ e ≤ p) (h2 : p < 2 ^ (e + 1)) : binary32_exponent p = e := by
  have hlt := binary32_exponent_lt hp (by omega : -126 < e + 1) h2
  have h1' : ((2 : ℕ) : ℚ) ^ e ≤ p := by simpa using h1
  have hle := (Int.zpow_le_iff_le_log (R := ℚ) (b := 2) (by norm_num) hp).mp h1'
  have : Int.log 2 p ≤ binary32_exponent p := by
    unfold binary32_exponent
    rw [abs_of_pos hp]
    exact le_max_left _ _
  omega

/-- A rounded positive value does not leave its binade upwards. -/
theorem binary32_round_le_top {p : ℚ} (hp : 0 < p) :
    binary32_round p ≤ 2 ^ (binary32_exponent p + 1) := by
  have hu := binary32_ulp_pos (binary32_exponent p - 23)
  have htop := lt_binade_top hp
  have hsplit : (2 : ℚ) ^ (binary32_exponent p + 1)
      = ((16777216 : Int) : ℚ) * 2 ^ (binary32_exponent p - 23) := by
    have : binary32_exponent p + 1 = 24 + (binary32_exponent p - 23) := by ring
    rw [this, zpow_add₀ (by norm_num : (2 : ℚ) ≠ 0)]
    norm_num
  have hdiv : p / 2 ^ (binary32_exponent p - 23) ≤ ((16777216 : Int) : ℚ) := by
    rw [div_le_iff₀ hu, ← hsplit]
    exact le_of_lt htop
  have hr := round_half_even_le_int hdiv
  unfold binary32_round
  rw [hsplit]
  have hrq : (round_half_even (p / 2 ^ (binary32_exponent p - 23)) : ℚ)
      ≤ ((16777216 : Int) : ℚ) := by exact_mod_cast hr
  exact mul_le_mul_of_nonneg_right hrq (le_of_lt hu)

/-- Rounding to binary32 moves a value by at most half a unit in the last
place. -/
theorem binary32_round_error (p : ℚ) :
    |binary32_round p - p| ≤ 2 ^ (binary32_exponent p - 23) / 2 := by
  have hu := binary32_ulp_pos (binary32_exponent p - 23)
  have h1 := round_half_even_le (p / 2 ^ (binary32_exponent p - 23))
  have h2 := round_half_even_ge (p / 2 ^ (binary32_exponent p - 23))
  have e : p = p / 2 ^ (binary32_exponent p - 23) * 2 ^ (binary32_exponent p - 23) := by
    field_simp
  unfold binary32_round
  rw [abs_le]
  constructor
  · nlinarith
  · nlinarith

/-- Below 2^24 rounding to binary32 never crosses an integer downwards. -/
theorem le_binary32_round {p : ℚ} (hp : 0 < p) (h24 : p < 16777216) {k : Int}
    (hk : (k : ℚ) ≤ p) : (k : ℚ) ≤ binary32_round p := by
  have hu := binary32_ulp_pos (binary32_exponent p - 23)
  have he : binary32_exponent p < 24 :=
    binary32_exponent_lt hp (by norm_num) (by norm_num; exact h24)
  obtain ⟨n, hn⟩ : ∃ n : ℕ, 23 - binary32_exponent p = n :=
    ⟨(23 - binary32_exponent p).toNat, by omega⟩
  have hulp : (2 : ℚ) ^ (binary32_exponent p - 23) = 1 / 2 ^ n := by
    have : binary32_exponent p - 23 = -(n : Int) := by omega
    rw [this, zpow_neg, zpow_natCast]
    simp
  have hdiv : ((k * 2 ^ n : Int) : ℚ) ≤ p / 2 ^ (binary32_exponent p - 23) := by
    rw [le_div_iff₀ hu, hulp]
    push_cast
    field_simp
    exact hk
  have hr := le_round_half_even hdiv
  have hrq : ((k * 2 ^ n : Int) : ℚ)
      ≤ (round_half_even (p / 2 ^ (binary32_exponent p - 23)) : ℚ) := by exact_mod_cast hr
  unfold binary32_round
  have := mul_le_mul_of_nonneg_right hrq (le_of_lt hu)
  rw [hulp] at this ⊢
  push_cast at this
  field_simp at this ⊢
  linarith

/-- A binary32 value below 1 is at most `1 - 2^-24`. -/
theorem binary32_below_one {x : ℚ} (h0 : 0 < x) (h1 : x < 1) (hx : is_binary32 x = true) :
    x ≤ 16777215 / 16777216 := by
  have hrep : binary32_round x = x := by simpa [is_binary32] using hx
  have he : binary32_exponent x < 0 :=
    binary32_exponent_lt h0 (by norm_num) (by simpa using h1)
  rcases lt_or_eq_of_le (by omega : binary32_exponent x ≤ -1) with hlt | heq
  · have htop := lt_binade_top h0
    have : (2 : ℚ) ^ (binary32_exponent x + 1) ≤ 2 ^ (-1 : Int) :=
      zpow_le_zpow_right₀ (by norm_num) (by omega)
    have h2 : (2 : ℚ) ^ (-1 : Int) = 1 / 2 := by norm_num
    rw [h2] at this
    have h3 : x < 1 / 2 := lt_of_lt_of_le htop this
    linarith
  · unfold binary32_round at hrep
    rw [heq] at hrep
    have hu : (2 : ℚ) ^ ((-1 : Int) - 23) = 1 / 16777216 := by norm_num
    rw [hu] at hrep
    have hn : (round_half_even (x / (1 / 16777216)) : ℚ) < ((16777216 : Int) : ℚ) := by
      push_cast
      linarith
    have hn' : round_half_even (x / (1 / 16777216)) < 16777216 := by exact_mod_cast hn
    have hn'' : round_half_even (x / (1 / 16777216)) ≤ 16777215 := by omega
    have hq : (round_half_even (x / (1 / 16777216)) : ℚ) ≤ ((16777215 : Int) : ℚ) := by
      exact_mod_cast hn''
    push_cast at hq
    linarith

/-- The binary32 product of 10 and a positive value below 1 lies in the
binades up to exponent 3, so it is at least 0 and at most 16. -/
theorem binary32_product_range {x : ℚ} (h0 : 0 < x) (h1 : x < 1) :
    binary32_exponent (x * 10) ≤ 3 ∧ 0 ≤ binary32_round (x * 10) ∧
    binary32_round (x * 10) ≤ 16 := by
  have hp : 0 < x * 10 := by linarith
  have he : binary32_exponent (x * 10) < 4 :=
    binary32_exponent_lt hp (by norm_num) (by norm_num; linarith)
  refine ⟨by omega, ?_, ?_⟩
  · have := le_binary32_round hp (by linarith) (k := 0) (by simpa using le_of_lt hp)
    simpa using this
  · calc binary32_round (x * 10) ≤ 2 ^ (binary32_exponent (x * 10) + 1) :=
        binary32_round_le_top hp
      _ ≤ 2 ^ (4 : Int) := zpow_le_zpow_right₀ (by norm_num) (by omega)
      _ = 16 := by norm_num

/-- The binary32 product of 10 and a binary32 value below 1 is below 10. -/
theorem binary32_product_lt_ten {x : ℚ} (h0 : 0 < x) (h1 : x < 1)
    (hx : is_binary32 x = true) : binary32_round (x * 10) < 10 := by
  have hp : 0 < x * 10 := by linarith
  have hle := binary32_below_one h0 h1 hx
  have he := (binary32_product_range h0 h1).1
  rcases lt_or_eq_of_le he with hlt | heq
  · calc binary32_round (x * 10) ≤ 2 ^ (binary32_exponent (x * 10) + 1) :=
        binary32_round_le_top hp
      _ ≤ 2 ^ (3 : Int) := zpow_le_zpow_right₀ (by norm_num) (by omega)
      _ < 10 := by norm_num
  · unfold binary32_round
    rw [heq]
    have hu : (2 : ℚ) ^ ((3 : Int) - 23) = 1 / 1048576 := by norm_num
    rw [hu]
    have h1' := round_half_even_le (x * 10 / (1 / 1048576))
    have hn : (round_half_even (x * 10 / (1 / 1048576)) : ℚ) < ((10485760 : Int) : ℚ) := by
      push_cast
      have : x * 10 / (1 / 1048576) = x * 10485760 := by ring
      rw [this] at h1' ⊢
      linarith
    have hn' : round_half_even (x * 10 / (1 / 1048576)) < 10485760 := by exact_mod_cast hn
    have hn'' : round_half_even (x * 10 / (1 / 1048576)) ≤ 10485759 := by omega
    have hq : (round_half_even (x * 10 / (1 / 1048576)) : ℚ) ≤ ((10485759 : Int) : ℚ) := by
      exact_mod_cast hn''
    push_cast at hq
    linarith

/-- The binary32 product of 10 and a positive value below 1 is at most
`2^-21` above the exact product. -/
theorem binary32_product_le {x : ℚ} (h0 : 0 < x) (h1 : x < 1) :
    binary32_round (x * 10) ≤ x * 10 + 1 / 2097152 := by
  have he := (binary32_product_range h0 h1).1
  have herr := binary32_round_error (x * 10)
  have hu : (2 : ℚ) ^ (binary32_exponent (x * 10) - 23) ≤ 2 ^ ((3 : Int) - 23) :=
    zpow_le_zpow_right₀ (by norm_num) (by omega)
  have hv : (2 : ℚ) ^ ((3 : Int) - 23) = 1 / 1048576 := by norm_num
  rw [hv] at hu
  rw [abs_le] at herr
  have h2 := herr.2
  have h3 : binary32_round (x * 10) - x * 10 ≤ 1 / 1048576 / 2 :=
    le_trans h2 (div_le_div_of_nonneg_right hu (by norm_num))
  linarith

/-- The floor of the binary32 product is the floor of the exact product or
one more. -/
theorem floor_binary32_product {x : ℚ} (h0 : 0 < x) (h1 : x < 1) :
    ⌊x * 10⌋ ≤ ⌊binary32_round (x * 10)⌋ ∧ ⌊binary32_round (x * 10)⌋ ≤ ⌊x * 10⌋ + 1 := by
  have hp : 0 < x * 10 := by linarith
  constructor
  · apply Int.le_floor.mpr
    exact le_binary32_round hp (by linarith) (Int.floor_le _)
  · have hle := binary32_product_le h0 h1
    have hfu : x * 10 < (⌊x * 10⌋ : ℚ) + 1 := Int.lt_floor_add_one _
    have : ⌊binary32_round (x * 10)⌋ < ⌊x * 10⌋ + 2 := by
      apply Int.floor_lt.mpr
      push_cast
      linarith
    omega

/-- The binary32 product of 10 and 0.7f is 7. -/
theorem binary32_product_seven_tenths :
    binary32_round (11744051 / 16777216 * 10) = 7 := by
  have he : binary32_exponent (11744051 / 16777216 * 10) = 2 :=
    binary32_exponent_eq (by norm_num) (by norm_num) (by norm_num) (by norm_num)
  unfold binary32_round
  rw [he]
  have hr : round_half_even (11744051 / 16777216 * 10 / 2 ^ ((2 : Int) - 23)) = 14680064 := by
    have hv : (11744051 / 16777216 * 10 / 2 ^ ((2 : Int) - 23) : ℚ) = 58720255 / 4 := by
      norm_num
    rw [hv]
    have hf : ⌊(58720255 / 4 : ℚ)⌋ = 14680063 := by
      rw [Int.floor_eq_iff]
      constructor <;> norm_num
    unfold round_half_even
    rw [hf]
    norm_num
  rw [hr]
  norm_num

/-- The value 0.7f is a binary32 value. -/
theorem is_binary32_seven_tenths : is_binary32 (11744051 / 16777216) = true := by
  have he : binary32_exponent (11744051 / 16777216) = -1 :=
    binary32_exponent_eq (by norm_num) (by norm_num) (by norm_num) (by norm_num)
  have hr : round_half_even (11744051 / 16777216 / 2 ^ ((-1 : Int) - 23)) = 11744051 := by
    have hv : (11744051 / 16777216 / 2 ^ ((-1 : Int) - 23) : ℚ) = ((11744051 : Int) : ℚ) := by
      norm_num
    rw [hv, round_half_even_intCast]
  simp only [is_binary32, decide_eq_true_eq]
  unfold binary32_round
  rw [he, hr]
  norm_num

/-- Conversion to `int` keeps a value that is in the range of `int`. -/
theorem double_to_int_of_range (v : Int) (h1 : -2147483648 ≤ v) (h2 : v ≤ 2147483647) :
    double_to_int v = v := by
  simp [double_to_int, h1, h2]

/-- The binary32 product of 10 and 0.5 is 5. -/
theorem binary32_product_half : binary32_round (1 / 2 * 10) = 5 := by
  have he : binary32_exponent (1 / 2 * 10) = 2 :=
    binary32_exponent_eq (by norm_num) (by norm_num) (by norm_num) (by norm_num)
  have hr : round_half_even (1 / 2 * 10 / 2 ^ ((2 : Int) - 23)) = 10485760 := by
    have hv : (1 / 2 * 10 / 2 ^ ((2 : Int) - 23) : ℚ) = ((10485760 : Int) : ℚ) := by norm_num
    rw [hv, round_half_even_intCast]
  unfold binary32_round
  rw [he, hr]
  norm_num

/-- For `0 < x < 1` with custom acceleration on, the legacy payload is
`(floor (p) + 1) / 10`, where `p` is the binary32 product of `x` and 10. -/
theorem legacy_tenths_value (x : ℚ) (t : Int) (ct : Bool) (h0 : 0 < x) (h1 : x < 1) :
    set_motion_legacy_driver x true t ct
      = { threshold := if ct = true then t else -1,
          accelNum := ⌊binary32_round (x * 10)⌋ + 1, accelDenom := 10 } := by
  obtain ⟨-, hlo, hhi⟩ := binary32_product_range h0 h1
  have h2 : 0 ≤ ⌊binary32_round (x * 10)⌋ := Int.floor_nonneg.mpr hlo
  have h3 : ⌊binary32_round (x * 10)⌋ ≤ 16 := by
    have : (⌊binary32_round (x * 10)⌋ : ℚ) ≤ ((16 : Int) : ℚ) := by
      push_cast
      exact le_trans (Int.floor_le _) hhi
    exact_mod_cast this
  have hc : double_to_int (⌊binary32_round (x * 10)⌋ + 1) = ⌊binary32_round (x * 10)⌋ + 1 :=
    double_to_int_of_range _ (by omega) (by omega)
  simp [set_motion_legacy_driver, h0, h1, not_le.mpr h1, hc]

/-- Claim C5, counterexample: at the configured acceleration 0.5 (inside
(0, 1), custom-acceleration true) the legacy payload is 6/10, which is 0.1
away from the input, not within 0.05; at the `gfloat` nearest to 0.7 the
binary32 product is 7.0, the payload is 8/10 and the distance is above 0.1. -/
theorem set_motion_legacy_driver_tenths_off_by_tenth :
    ((0 : ℚ) < 1 / 2 ∧ (1 / 2 : ℚ) < 1) ∧
    set_motion_legacy_driver (1 / 2) true 0 false
      = { threshold := -1, accelNum := 6, accelDenom := 10 } ∧
    ¬ |decoded_acceleration (set_motion_legacy_driver (1 / 2) true 0 false) - 1 / 2| ≤ 5 / 100 ∧
    is_binary32 (11744051 / 16777216) = true ∧
    set_motion_legacy_driver (11744051 / 16777216) true 0 false
      = { threshold := -1, accelNum := 8, accelDenom := 10 } ∧
    ¬ |decoded_acceleration (set_motion_legacy_driver (11744051 / 16777216) true 0 false)
        - 11744051 / 16777216| ≤ 1 / 10 := by
  have h : set_motion_legacy_driver (1 / 2) true 0 false
      = { threshold := -1, accelNum := 6, accelDenom := 10 } := by
    rw [legacy_tenths_value (1 / 2) 0 false (by norm_num) (by norm_num), binary32_product_half]
    norm_num
  have h' : set_motion_legacy_driver (11744051 / 16777216) true 0 false
      = { threshold := -1, accelNum := 8, accelDenom := 10 } := by
    rw [legacy_tenths_value (11744051 / 16777216) 0 false (by norm_num) (by norm_num),
      binary32_product_seven_tenths]
    norm_num
  refine ⟨by norm_num, h, ?_, is_binary32_seven_tenths, h', ?_⟩
  · rw [h]
    norm_num [decoded_acceleration, abs_le]
  · rw [h']
    norm_num [decoded_acceleration, abs_le]

/-- Claim C5, amended: for `0 < x < 1` with custom-acceleration true the
value `numerator / denominator` of the legacy payload is above `x` and within
`0.1 + 2^-21 / 10` of `x`: a tenth, and the rounding of the binary32
product. -/
theorem set_motion_legacy_driver_tenths_error (x : ℚ) (t : Int) (ct : Bool)
    (h0 : 0 < x) (h1 : x < 1) :
    x < decoded_acceleration (set_motion_legacy_driver x true t ct) ∧
    |decoded_acceleration (set_motion_legacy_driver x true t ct) - x|
      ≤ 1 / 10 + 1 / 20971520 := by
  rw [legacy_tenths_value x t ct h0 h1]
  obtain ⟨hge, -⟩ := floor_binary32_product h0 h1
  have hle := binary32_product_le h0 h1
  have hfl : (⌊binary32_round (x * 10)⌋ : ℚ) ≤ binary32_round (x * 10) := Int.floor_le _
  have hfu : x * 10 < (⌊x * 10⌋ : ℚ) + 1 := Int.lt_floor_add_one _
  have hgeq : (⌊x * 10⌋ : ℚ) ≤ (⌊binary32_round (x * 10)⌋ : ℚ) := by exact_mod_cast hge
  simp only [decoded_acceleration]
  push_cast
  refine ⟨by linarith, ?_⟩
  rw [abs_le]
  constructor <;> linarith

/-- Claim C5, instance: the configured acceleration 0.75. -/
theorem set_motion_legacy_driver_tenths_error_witness :
    ((0 : ℚ) < 3 / 4 ∧ (3 / 4 : ℚ) < 1) ∧
    |decoded_acceleration (set_motion_legacy_driver (3 / 4) true 0 false) - 3 / 4|
      ≤ 1 / 10 + 1 / 20971520 :=
  ⟨by norm_num,
    (set_motion_legacy_driver_tenths_error (3 / 4) 0 false (by norm_num) (by norm_num)).2⟩

/-- Conversion to `int` is the identity on the range of `int`. -/
theorem to_int_of_range (x : Int) (h1 : -2147483648 ≤ x) (h2 : x ≤ 2147483647) :
    to_int x = x := by
  unfold to_int
  omega

/-- On every `int` but the minimum, `abs` is the absolute value. -/
theorem c_abs_of_range (x : Int) (h1 : -2147483648 < x) (h2 : x ≤ 2147483647) :
    c_abs x = |x| := by
  unfold c_abs
  rw [to_int_of_range x (by omega) h2, Int.natCast_natAbs]
  apply to_int_of_range
  · have := abs_nonneg x; omega
  · rw [abs_le]; omega

/-- The reply to the read of a two-item 32-bit integer scrolling distance. -/
theorem get_scrolling_distance (atoms : List String) (dev : XDeviceState) (a b : Int)
    (hatom : "Synaptics Scrolling Distance" ∈ atoms) (halive : dev.alive = true)
    (hprop : dev.props "Synaptics Scrolling Distance" = some ⟨XA_INTEGER, 32, [a, b]⟩) :
    XGetDeviceProperty atoms dev "Synaptics Scrolling Distance" 2 XA_INTEGER
      = { rc_success := true, act_type := XA_INTEGER, act_format := 32, data := [a, b] } := by
  simp [XGetDeviceProperty, property_from_name, hatom, halive, hprop]

/-- On a touchpad holding the distances `[a, b]` the function writes their
absolute values, negated for natural scrolling. -/
theorem set_natural_scroll_synaptics_value (atoms : List String) (dev : XDeviceState)
    (a b : Int) (ns : Bool)
    (hatom : "Synaptics Scrolling Distance" ∈ atoms)
    (hopen : dev.opens = true) (htp : dev.is_touchpad = true) (halive : dev.alive = true)
    (hprop : dev.props "Synaptics Scrolling Distance" = some ⟨XA_INTEGER, 32, [a, b]⟩)
    (ha : -2147483648 < a ∧ a ≤ 2147483647) (hb : -2147483648 < b ∧ b ≤ 2147483647) :
    set_natural_scroll_synaptics atoms dev ns
      = XChangeDeviceProperty dev "Synaptics Scrolling Distance" XA_INTEGER 32
          (if ns = true then [-|a|, -|b|] else [|a|, |b|]) 2 := by
  have ea := c_abs_of_range a ha.1 ha.2
  have eb := c_abs_of_range b hb.1 hb.2
  have na : to_int (-|a|) = -|a| := by
    apply to_int_of_range
    · have : |a| ≤ 2147483647 := by rw [abs_le]; omega
      omega
    · have := abs_nonneg a; omega
  have nb : to_int (-|b|) = -|b| := by
    apply to_int_of_range
    · have : |b| ≤ 2147483647 := by rw [abs_le]; omega
      omega
    · have := abs_nonneg b; omega
  unfold set_natural_scroll_synaptics
  rw [get_scrolling_distance atoms dev a b hatom halive hprop]
  cases ns <;> simp [hopen, htp, XGetReply.nitems, ea, eb, na, nb]

/-- Claim C8, counterexample: a touchpad whose scrolling distances are
`[-100, -100]` holds `[100, 100]` after natural scrolling is switched on and
then off, not the distances it started with. -/
theorem set_natural_scroll_synaptics_not_restored :
    (set_natural_scroll_synaptics ["Synaptics Scrolling Distance"]
      (set_natural_scroll_synaptics ["Synaptics Scrolling Distance"]
        (touchpad_with "Synaptics Scrolling Distance" ⟨XA_INTEGER, 32, [-100, -100]⟩) true)
      false).props "Synaptics Scrolling Distance"
      = some ⟨XA_INTEGER, 32, [100, 100]⟩ ∧
    (set_natural_scroll_synaptics ["Synaptics Scrolling Distance"]
      (set_natural_scroll_synaptics ["Synaptics Scrolling Distance"]
        (touchpad_with "Synaptics Scrolling Distance" ⟨XA_INTEGER, 32, [-100, -100]⟩) true)
      false).props "Synaptics Scrolling Distance"
      ≠ (touchpad_with "Synaptics Scrolling Distance" ⟨XA_INTEGER, 32, [-100, -100]⟩).props
          "Synaptics Scrolling Distance" := by
  decide

/-- Claim C8, amended: for every pair of non-negative 32-bit scroll distances
held in `Synaptics Scrolling Distance` of a touchpad, applying
`set_natural_scroll_synaptics` with `natural_scroll = true` and then with
`false` restores the original distances exactly. -/
theorem set_natural_scroll_synaptics_round_trip (atoms : List String) (dev : XDeviceState)
    (a b : Int)
    (hatom : "Synaptics Scrolling Distance" ∈ atoms)
    (hopen : dev.opens = true) (htp : dev.is_touchpad = true) (halive : dev.alive = true)
    (hprop : dev.props "Synaptics Scrolling Distance" = some ⟨XA_INTEGER, 32, [a, b]⟩)
    (ha : 0 ≤ a ∧ a ≤ 2147483647) (hb : 0 ≤ b ∧ b ≤ 2147483647) :
    (set_natural_scroll_synaptics atoms (set_natural_scroll_synaptics atoms dev true) false).props
        "Synaptics Scrolling Distance"
      = some ⟨XA_INTEGER, 32, [a, b]⟩ := by
  rw [set_natural_scroll_synaptics_value atoms dev a b true hatom hopen htp halive hprop
    ⟨by omega, ha.2⟩ ⟨by omega, hb.2⟩]
  have hna : -2147483648 < -|a| ∧ -|a| ≤ 2147483647 := by
    rw [abs_of_nonneg ha.1]; omega
  have hnb : -2147483648 < -|b| ∧ -|b| ≤ 2147483647 := by
    rw [abs_of_nonneg hb.1]; omega
  rw [set_natural_scroll_synaptics_value atoms _ (-|a|) (-|b|) false hatom
    (by simpa [XChangeDeviceProperty] using hopen)
    (by simpa [XChangeDeviceProperty] using htp)
    (by simpa [XChangeDeviceProperty] using halive)
    (by simp [XChangeDeviceProperty]) hna hnb]
  simp [XChangeDeviceProperty, abs_of_nonneg ha.1, abs_of_nonneg hb.1]

/-- Claim C8, instance: the distances `[100, 100]`. -/
theorem set_natural_scroll_synaptics_round_trip_witness :
    ((touchpad_with "Synaptics Scrolling Distance" ⟨XA_INTEGER, 32, [100, 100]⟩).props
        "Synaptics Scrolling Distance" = some ⟨XA_INTEGER, 32, [100, 100]⟩) ∧
    (set_natural_scroll_synaptics ["Synaptics Scrolling Distance"]
      (set_natural_scroll_synaptics ["Synaptics Scrolling Distance"]
        (touchpad_with "Synaptics Scrolling Distance" ⟨XA_INTEGER, 32, [100, 100]⟩) true)
      false).props "Synaptics Scrolling Distance"
      = some ⟨XA_INTEGER, 32, [100, 100]⟩ :=
  ⟨by decide,
    set_natural_scroll_synaptics_round_trip ["Synaptics Scrolling Distance"]
      (touchpad_with "Synaptics Scrolling Distance" ⟨XA_INTEGER, 32, [100, 100]⟩) 100 100
      (by decide) rfl rfl rfl (by decide) (by decide) (by decide)⟩

/-- Claim C9: for every pair of 32-bit scroll distances other than the
minimum `int`, `set_natural_scroll_synaptics` issues one write of two values
with the magnitudes that were read, both at most 0 for natural scrolling and
both at least 0 otherwise. -/
theorem set_natural_scroll_synaptics_sign (atoms : List String) (dev : XDeviceState)
    (a b : Int) (natural_scroll : Bool)
    (hatom : "Synaptics Scrolling Distance" ∈ atoms)
    (hopen : dev.opens = true) (htp : dev.is_touchpad = true) (halive : dev.alive = true)
    (hprop : dev.props "Synaptics Scrolling Distance" = some ⟨XA_INTEGER, 32, [a, b]⟩)
    (ha : -2147483648 < a ∧ a ≤ 2147483647) (hb : -2147483648 < b ∧ b ≤ 2147483647) :
    ∃ a' b' : Int,
      (set_natural_scroll_synaptics atoms dev natural_scroll).props "Synaptics Scrolling Distance"
        = some ⟨XA_INTEGER, 32, [a', b']⟩ ∧
      (set_natural_scroll_synaptics atoms dev natural_scroll).changes
        = dev.changes ++ [("Synaptics Scrolling Distance", ⟨XA_INTEGER, 32, [a', b']⟩)] ∧
      |a'| = |a| ∧ |b'| = |b| ∧
      (natural_scroll = true → a' ≤ 0 ∧ b' ≤ 0) ∧
      (natural_scroll = false → 0 ≤ a' ∧ 0 ≤ b') := by
  rw [set_natural_scroll_synaptics_value atoms dev a b natural_scroll hatom hopen htp halive
    hprop ha hb]
  cases natural_scroll
  · exact ⟨|a|, |b|, by simp [XChangeDeviceProperty], by simp [XChangeDeviceProperty],
      abs_abs a, abs_abs b, by simp, by simp⟩
  · exact ⟨-|a|, -|b|, by simp [XChangeDeviceProperty], by simp [XChangeDeviceProperty],
      by simp, by simp, by simp, by simp⟩

/-- Claim C9, instance: the distances `[100, -40]` with natural scrolling
switched on. -/
theorem set_natural_scroll_synaptics_sign_witness :
    ((touchpad_with "Synaptics Scrolling Distance" ⟨XA_INTEGER, 32, [100, -40]⟩).props
        "Synaptics Scrolling Distance" = some ⟨XA_INTEGER, 32, [100, -40]⟩) ∧
    ∃ a' b' : Int,
      (set_natural_scroll_synaptics ["Synaptics Scrolling Distance"]
        (touchpad_with "Synaptics Scrolling Distance" ⟨XA_INTEGER, 32, [100, -40]⟩) true).props
          "Synaptics Scrolling Distance" = some ⟨XA_INTEGER, 32, [a', b']⟩ ∧
      (set_natural_scroll_synaptics ["Synaptics Scrolling Distance"]
        (touchpad_with "Synaptics Scrolling Distance" ⟨XA_INTEGER, 32, [100, -40]⟩) true).changes
        = (touchpad_with "Synaptics Scrolling Distance" ⟨XA_INTEGER, 32, [100, -40]⟩).changes
            ++ [("Synaptics Scrolling Distance", ⟨XA_INTEGER, 32, [a', b']⟩)] ∧
      |a'| = |(100 : Int)| ∧ |b'| = |(-40 : Int)| ∧
      (true = true → a' ≤ 0 ∧ b' ≤ 0) ∧
      (true = false → 0 ≤ a' ∧ 0 ≤ b') :=
  ⟨by decide,
    set_natural_scroll_synaptics_sign ["Synaptics Scrolling Distance"]
      (touchpad_with "Synaptics Scrolling Distance" ⟨XA_INTEGER, 32, [100, -40]⟩) 100 (-40) true
      (by decide) rfl rfl rfl (by decide) (by decide) (by decide)⟩

/-! ## Tap to click: properties of `set_tap_to_click_synaptics` -/

/-- The reply to the read of an 8-bit integer tap action table: at most
eight bytes are returned. -/
theorem get_tap_action (atoms : List String) (dev : XDeviceState) (data : List Int)
    (hatom : "Synaptics Tap Action" ∈ atoms) (halive : dev.alive = true)
    (hprop : dev.props "Synaptics Tap Action" = some ⟨XA_INTEGER, 8, data⟩) :
    XGetDeviceProperty atoms dev "Synaptics Tap Action" 2 XA_INTEGER
      = { rc_success := true, act_type := XA_INTEGER, act_format := 8, data := data.take 8 } := by
  simp [XGetDeviceProperty, property_from_name, hatom, halive, hprop]

/-- Claim C10: on a touchpad whose `Synaptics Tap Action` table is 8-bit
integer data, a table of at least 7 bytes is rewritten once, with bytes
0, 1, 4, 5, 6 equal to (2, 3, 1, 3, 2) when `state` is true and right-handed,
(2, 3, 3, 1, 2) when `state` is true and left-handed and all zero when `state`
is false, and with bytes 2 and 3 (and byte 7, if any) as read; with fewer
than 7 bytes the device is left as it was and nothing is written. -/
theorem set_tap_to_click_synaptics_table (atoms : List String) (dev : XDeviceState)
    (data : List Int) (state left_handed : Bool)
    (hatom : "Synaptics Tap Action" ∈ atoms)
    (hopen : dev.opens = true) (htp : dev.is_touchpad = true) (halive : dev.alive = true)
    (hprop : dev.props "Synaptics Tap Action" = some ⟨XA_INTEGER, 8, data⟩) :
    (7 ≤ data.length →
      ∃ w : List Int,
        (set_tap_to_click_synaptics atoms dev state left_handed).props "Synaptics Tap Action"
          = some ⟨XA_INTEGER, 8, w⟩ ∧
        (set_tap_to_click_synaptics atoms dev state left_handed).changes
          = dev.changes ++ [("Synaptics Tap Action", ⟨XA_INTEGER, 8, w⟩)] ∧
        w.length = min data.length 8 ∧
        [w[0]?, w[1]?, w[4]?, w[5]?, w[6]?]
          = (if state = true then
              (if left_handed = true then [some 2, some 3, some 3, some 1, some 2]
               else [some 2, some 3, some 1, some 3, some 2])
             else [some 0, some 0, some 0, some 0, some 0]) ∧
        w[2]? = data[2]? ∧ w[3]? = data[3]? ∧ w[7]? = data[7]?) ∧
    (data.length < 7 → set_tap_to_click_synaptics atoms dev state left_handed = dev) := by
  have hget := get_tap_action atoms dev data hatom halive hprop
  constructor
  · intro hlen
    obtain ⟨d0, d1, d2, d3, d4, d5, d6, rest, rfl⟩ :
        ∃ d0 d1 d2 d3 d4 d5 d6 rest, data = d0 :: d1 :: d2 :: d3 :: d4 :: d5 :: d6 :: rest := by
      rcases data with _ | ⟨d0, _ | ⟨d1, _ | ⟨d2, _ | ⟨d3, _ | ⟨d4, _ | ⟨d5, _ | ⟨d6, rest⟩⟩⟩⟩⟩⟩⟩ <;>
        simp at hlen
      exact ⟨d0, d1, d2, d3, d4, d5, d6, rest, rfl⟩
    have hval : set_tap_to_click_synaptics atoms dev state left_handed
        = XChangeDeviceProperty dev "Synaptics Tap Action" XA_INTEGER 8
            ((if state = true then 2 else 0) :: (if state = true then 3 else 0) :: d2 :: d3 ::
              (if state = true then (if left_handed = true then 3 else 1) else 0) ::
              (if state = true then (if left_handed = true then 1 else 3) else 0) ::
              (if state = true then 2 else 0) :: rest.take 1) 8 := by
      unfold set_tap_to_click_synaptics
      rw [hget]
      cases rest <;>
        simp [property_from_name, hatom, hopen, htp, XGetReply.nitems, XChangeDeviceProperty]
    rw [hval]
    refine ⟨((if state = true then 2 else 0) :: (if state = true then 3 else 0) :: d2 :: d3 ::
              (if state = true then (if left_handed = true then 3 else 1) else 0) ::
              (if state = true then (if left_handed = true then 1 else 3) else 0) ::
              (if state = true then 2 else 0) :: rest.take 1), ?_, ?_, ?_, ?_, ?_, ?_, ?_⟩
    · cases rest <;> simp [XChangeDeviceProperty]
    · cases rest <;> simp [XChangeDeviceProperty]
    · cases rest <;> simp
    · cases state <;> cases left_handed <;> simp
    · simp
    · simp
    · cases rest <;> simp
  · intro hlen
    unfold set_tap_to_click_synaptics
    rw [hget]
    have : ¬ (7 ≤ data.length ∧ 7 ≤ 8) := by omega
    simp [property_from_name, hatom, hopen, htp, XGetReply.nitems]
    omega

/-- Claim C10, instance: a seven-byte table, tapping switched on for a
left-handed user. -/
theorem set_tap_to_click_synaptics_table_witness :
    ((touchpad_with "Synaptics Tap Action" ⟨XA_INTEGER, 8, [9, 9, 9, 9, 9, 9, 9]⟩).props
        "Synaptics Tap Action" = some ⟨XA_INTEGER, 8, [9, 9, 9, 9, 9, 9, 9]⟩) ∧
    (set_tap_to_click_synaptics ["Synaptics Tap Action"]
        (touchpad_with "Synaptics Tap Action" ⟨XA_INTEGER, 8, [9, 9, 9, 9, 9, 9, 9]⟩)
        true true).props "Synaptics Tap Action"
      = some ⟨XA_INTEGER, 8, [2, 3, 9, 9, 3, 1, 2]⟩ ∧
    ∃ w : List Int,
      (set_tap_to_click_synaptics ["Synaptics Tap Action"]
          (touchpad_with "Synaptics Tap Action" ⟨XA_INTEGER, 8, [9, 9, 9, 9, 9, 9, 9]⟩)
          true true).props "Synaptics Tap Action" = some ⟨XA_INTEGER, 8, w⟩ ∧
      [w[0]?, w[1]?, w[4]?, w[5]?, w[6]?] = [some 2, some 3, some 3, some 1, some 2] :=
  ⟨by decide, by decide,
    match (set_tap_to_click_synaptics_table ["Synaptics Tap Action"]
      (touchpad_with "Synaptics Tap Action" ⟨XA_INTEGER, 8, [9, 9, 9, 9, 9, 9, 9]⟩)
      [9, 9, 9, 9, 9, 9, 9] true true (by decide) rfl rfl rfl (by decide)).1 (by decide) with
    | ⟨w, h1, _, _, h4, _⟩ => ⟨w, h1, by simpa using h4⟩⟩

/-! ## Click actions: properties of `set_click_actions_libinput` -/

/-- The reply to a read of `length` units of an 8-bit integer property the
device has: the first `4 * length` bytes. -/
theorem get_int8_property (atoms : List String) (dev : XDeviceState) (name : String)
    (data : List Int) (length : Nat)
    (hatom : name ∈ atoms) (halive : dev.alive = true)
    (hprop : dev.props name = some ⟨XA_INTEGER, 8, data⟩) :
    XGetDeviceProperty atoms dev name length XA_INTEGER
      = { rc_success := true, act_type := XA_INTEGER, act_format := 8,
          data := data.take (4 * length) } := by
  simp [XGetDeviceProperty, property_from_name, hatom, halive, hprop]

/-- Claim C12, counterexample: with the default mask `[2, 0]` the
driver-default mode 3 writes `[1, 0]`, not the default bytes. -/
theorem set_click_actions_libinput_default_not_verbatim :
    (set_click_actions_libinput
      ["libinput Click Method Enabled", "libinput Click Method Enabled Default"]
      (device_with true [("libinput Click Method Enabled", ⟨XA_INTEGER, 8, [0, 0]⟩),
        ("libinput Click Method Enabled Default", ⟨XA_INTEGER, 8, [2, 0]⟩)]) 3).props
        "libinput Click Method Enabled"
      = some ⟨XA_INTEGER, 8, [1, 0]⟩ ∧
    (set_click_actions_libinput
      ["libinput Click Method Enabled", "libinput Click Method Enabled Default"]
      (device_with true [("libinput Click Method Enabled", ⟨XA_INTEGER, 8, [0, 0]⟩),
        ("libinput Click Method Enabled Default", ⟨XA_INTEGER, 8, [2, 0]⟩)]) 3).props
        "libinput Click Method Enabled"
      ≠ some ⟨XA_INTEGER, 8, [2, 0]⟩ := by
  decide

/-- Claim C12, amended: on a touchpad whose `libinput Click Method Enabled`
mask is 8-bit integer data of at least 2 bytes, `set_click_actions_libinput`
writes (byte 0, byte 1) = (0, 0) for mode 0, (1, 0) for mode 1, (0, 1) for
mode 2, and for mode 3, when the `Default` mask has at least 2 bytes, 1 for
each of its first two bytes that is non-zero and 0 for one that is zero. -/
theorem set_click_actions_libinput_mask (atoms : List String) (dev : XDeviceState)
    (clickpad_click : Int) (m0 m1 : Int) (rest : List Int)
    (hatom : "libinput Click Method Enabled" ∈ atoms)
    (hopen : dev.opens = true) (htp : dev.is_touchpad = true) (halive : dev.alive = true)
    (hprop : dev.props "libinput Click Method Enabled"
      = some ⟨XA_INTEGER, 8, m0 :: m1 :: rest⟩) :
    ((clickpad_click = 0 ∨ clickpad_click = 1 ∨ clickpad_click = 2) →
      ∃ w : List Int,
        (set_click_actions_libinput atoms dev clickpad_click).props
            "libinput Click Method Enabled" = some ⟨XA_INTEGER, 8, w⟩ ∧
        (set_click_actions_libinput atoms dev clickpad_click).changes
          = dev.changes ++ [("libinput Click Method Enabled", ⟨XA_INTEGER, 8, w⟩)] ∧
        w[0]? = some (if clickpad_click = 1 then 1 else 0) ∧
        w[1]? = some (if clickpad_click = 2 then 1 else 0)) ∧
    (clickpad_click = 3 →
      ∀ (d0 d1 : Int) (drest : List Int),
        "libinput Click Method Enabled Default" ∈ atoms →
        dev.props "libinput Click Method Enabled Default"
          = some ⟨XA_INTEGER, 8, d0 :: d1 :: drest⟩ →
        ∃ w : List Int,
          (set_click_actions_libinput atoms dev clickpad_click).props
              "libinput Click Method Enabled" = some ⟨XA_INTEGER, 8, w⟩ ∧
          (set_click_actions_libinput atoms dev clickpad_click).changes
            = dev.changes ++ [("libinput Click Method Enabled", ⟨XA_INTEGER, 8, w⟩)] ∧
          w[0]? = some (if d0 ≠ 0 then 1 else 0) ∧
          w[1]? = some (if d1 ≠ 0 then 1 else 0)) := by
  have hget := get_int8_property atoms dev _ _ 2 hatom halive hprop
  constructor
  · intro hmode
    have h3 : clickpad_click ≠ 3 := by omega
    refine ⟨((if clickpad_click = 1 then 1 else 0) :: (if clickpad_click = 2 then 1 else 0)
      :: rest.take 6), ?_, ?_, by simp, by simp⟩ <;>
    · unfold set_click_actions_libinput
      rw [hget]
      simp [property_from_name, hatom, hopen, htp, XGetReply.nitems, XChangeDeviceProperty, h3]
  · intro hmode d0 d1 drest hatomd hpropd
    have hgetd := get_int8_property atoms dev _ _ 2 hatomd halive hpropd
    subst hmode
    refine ⟨((if d0 ≠ 0 then 1 else 0) :: (if d1 ≠ 0 then 1 else 0)
      :: (rest.take 6).take (min 6 drest.length)), ?_, ?_, by simp, by simp⟩ <;>
    · unfold set_click_actions_libinput
      rw [hget, hgetd]
      simp [property_from_name, hatom, hatomd, hopen, htp, XGetReply.nitems,
        XChangeDeviceProperty]

/-- Claim C12, instance: mode 1 on a two-byte mask. -/
theorem set_click_actions_libinput_mask_witness :
    ((device_with true [("libinput Click Method Enabled", ⟨XA_INTEGER, 8, [0, 1]⟩)]).props
        "libinput Click Method Enabled" = some ⟨XA_INTEGER, 8, [0, 1]⟩) ∧
    (set_click_actions_libinput ["libinput Click Method Enabled"]
      (device_with true [("libinput Click Method Enabled", ⟨XA_INTEGER, 8, [0, 1]⟩)]) 1).props
        "libinput Click Method Enabled" = some ⟨XA_INTEGER, 8, [1, 0]⟩ ∧
    ∃ w : List Int,
      (set_click_actions_libinput ["libinput Click Method Enabled"]
        (device_with true [("libinput Click Method Enabled", ⟨XA_INTEGER, 8, [0, 1]⟩)]) 1).props
          "libinput Click Method Enabled" = some ⟨XA_INTEGER, 8, w⟩ ∧
      w[0]? = some 1 ∧ w[1]? = some 0 :=
  ⟨by decide, by decide,
    match (set_click_actions_libinput_mask ["libinput Click Method Enabled"]
      (device_with true [("libinput Click Method Enabled", ⟨XA_INTEGER, 8, [0, 1]⟩)])
      1 0 1 [] (by decide) rfl rfl rfl (by decide)).1 (by decide) with
    | ⟨w, h1, _, h3, h4⟩ => ⟨w, h1, by simpa using h3, by simpa using h4⟩⟩

/-! ## Frame properties of the boolean writes -/

/-- A property write leaves every other property as it was. -/
theorem XChangeDeviceProperty_props_ne (dev : XDeviceState) (name n : String)
    (type format : Nat) (data : List Int) (nitems : Nat) (h : n ≠ name) :
    (XChangeDeviceProperty dev name type format data nitems).props n = dev.props n := by
  simp [XChangeDeviceProperty, h]

/-- The boolean write leaves every other property as it was. -/
theorem property_set_bool_props_ne (atoms : List String) (dev : XDeviceState)
    (name n : String) (i : Nat) (b : Bool) (h : n ≠ name) :
    (property_set_bool atoms dev name i b).props n = dev.props n := by
  unfold property_set_bool
  dsimp only
  split_ifs <;> simp [XChangeDeviceProperty, h]

/-- The boolean write changes none of the flags of the device. -/
theorem property_set_bool_flags (atoms : List String) (dev : XDeviceState)
    (name : String) (i : Nat) (b : Bool) :
    (property_set_bool atoms dev name i b).opens = dev.opens ∧
    (property_set_bool atoms dev name i b).is_touchpad = dev.is_touchpad ∧
    (property_set_bool atoms dev name i b).alive = dev.alive := by
  unfold property_set_bool
  dsimp only
  split_ifs <;> simp [XChangeDeviceProperty]

/-- The touchpad boolean write leaves every other property as it was. -/
theorem touchpad_set_bool_props_ne (atoms : List String) (dev : XDeviceState)
    (name n : String) (i : Nat) (b : Bool) (h : n ≠ name) :
    (touchpad_set_bool atoms dev name i b).props n = dev.props n := by
  unfold touchpad_set_bool
  split_ifs <;> simp [property_set_bool_props_ne _ _ _ _ _ _ h]

/-- The touchpad boolean write changes none of the flags of the device. -/
theorem touchpad_set_bool_flags (atoms : List String) (dev : XDeviceState)
    (name : String) (i : Nat) (b : Bool) :
    (touchpad_set_bool atoms dev name i b).opens = dev.opens ∧
    (touchpad_set_bool atoms dev name i b).is_touchpad = dev.is_touchpad ∧
    (touchpad_set_bool atoms dev name i b).alive = dev.alive := by
  unfold touchpad_set_bool
  split_ifs <;> simp [property_set_bool_flags]

/-- The touchpad boolean write on an 8-bit integer property of a touchpad:
the byte at an index below the number of bytes read (at most 4) is set, and
the bytes read are written back. -/
theorem touchpad_set_bool_value (atoms : List String) (dev : XDeviceState)
    (name : String) (data : List Int) (i : Nat) (b : Bool)
    (hatom : name ∈ atoms)
    (hopen : dev.opens = true) (htp : dev.is_touchpad = true) (halive : dev.alive = true)
    (hprop : dev.props name = some ⟨XA_INTEGER, 8, data⟩)
    (hi : i < (data.take 4).length) :
    (touchpad_set_bool atoms dev name i b).props name
      = some ⟨XA_INTEGER, 8, (data.take 4).set i (if b = true then 1 else 0)⟩ := by
  have hget := get_int8_property atoms dev name data 1 hatom halive hprop
  unfold touchpad_set_bool property_set_bool
  rw [hget]
  have hi' : i < 4 ∧ i < data.length := by simpa using hi
  simp [property_from_name, hatom, hopen, htp, XChangeDeviceProperty, XGetReply.nitems, hi']

/-! ## Scrolling: properties of `set_scrolling_libinput` -/

/-- The two legacy flags after `set_scrolling_synaptics` on a touchpad whose
two scrolling properties hold at least two bytes each: byte 0 of
`Synaptics Two-Finger Scrolling` is `want_2fg` and byte 0 of
`Synaptics Edge Scrolling` is `want_edge`. -/
theorem set_scrolling_synaptics_flags (atoms : List String) (dev : XDeviceState)
    (scrolling_method : Int) (horizontal_scroll : Bool) (e0 e1 t0 t1 : Int)
    (erest trest : List Int)
    (hatome : "Synaptics Edge Scrolling" ∈ atoms)
    (hatomt : "Synaptics Two-Finger Scrolling" ∈ atoms)
    (hopen : dev.opens = true) (htp : dev.is_touchpad = true) (halive : dev.alive = true)
    (hedge : dev.props "Synaptics Edge Scrolling"
      = some ⟨XA_INTEGER, 8, e0 :: e1 :: erest⟩)
    (htwo : dev.props "Synaptics Two-Finger Scrolling"
      = some ⟨XA_INTEGER, 8, t0 :: t1 :: trest⟩) :
    (set_scrolling_synaptics atoms dev scrolling_method horizontal_scroll).props
        "Synaptics Two-Finger Scrolling"
      = some ⟨XA_INTEGER, 8, (if want_2fg scrolling_method = true then 1 else 0)
          :: (if (want_2fg scrolling_method && horizontal_scroll) = true then 1 else 0)
          :: trest.take 2⟩ ∧
    (set_scrolling_synaptics atoms dev scrolling_method horizontal_scroll).props
        "Synaptics Edge Scrolling"
      = some ⟨XA_INTEGER, 8, (if want_edge scrolling_method = true then 1 else 0)
          :: (if (want_edge scrolling_method && horizontal_scroll) = true then 1 else 0)
          :: erest.take 2⟩ := by
  unfold set_scrolling_synaptics
  dsimp only
  have hne : "Synaptics Two-Finger Scrolling" ≠ "Synaptics Edge Scrolling" := by decide
  -- first write
  have f1 := touchpad_set_bool_flags atoms dev "Synaptics Edge Scrolling" 0
    (want_edge scrolling_method)
  have v1 := touchpad_set_bool_value atoms dev "Synaptics Edge Scrolling" (e0 :: e1 :: erest) 0
    (want_edge scrolling_method) hatome hopen htp halive hedge (by simp)
  have o1 := touchpad_set_bool_props_ne atoms dev "Synaptics Edge Scrolling"
    "Synaptics Two-Finger Scrolling" 0 (want_edge scrolling_method) hne
  generalize touchpad_set_bool atoms dev "Synaptics Edge Scrolling" 0
    (want_edge scrolling_method) = dev1 at *
  -- second write
  have f2 := touchpad_set_bool_flags atoms dev1 "Synaptics Edge Scrolling" 1
    (want_edge scrolling_method && horizontal_scroll)
  have v2 := touchpad_set_bool_value atoms dev1 "Synaptics Edge Scrolling" _ 1
    (want_edge scrolling_method && horizontal_scroll) hatome (by rw [f1.1, hopen])
    (by rw [f1.2.1, htp]) (by rw [f1.2.2, halive]) v1 (by simp)
  have o2 := touchpad_set_bool_props_ne atoms dev1 "Synaptics Edge Scrolling"
    "Synaptics Two-Finger Scrolling" 1 (want_edge scrolling_method && horizontal_scroll) hne
  generalize touchpad_set_bool atoms dev1 "Synaptics Edge Scrolling" 1
    (want_edge scrolling_method && horizontal_scroll) = dev2 at *
  -- third write
  have f3 := touchpad_set_bool_flags atoms dev2 "Synaptics Two-Finger Scrolling" 0
    (want_2fg scrolling_method)
  have v3 := touchpad_set_bool_value atoms dev2 "Synaptics Two-Finger Scrolling"
    (t0 :: t1 :: trest) 0
    (want_2fg scrolling_method) hatomt (by rw [f2.1, f1.1, hopen])
    (by rw [f2.2.1, f1.2.1, htp]) (by rw [f2.2.2, f1.2.2, halive])
    (by rw [o2, o1, htwo]) (by simp)
  have o3 := touchpad_set_bool_props_ne atoms dev2 "Synaptics Two-Finger Scrolling"
    "Synaptics Edge Scrolling" 0 (want_2fg scrolling_method) hne.symm
  generalize touchpad_set_bool atoms dev2 "Synaptics Two-Finger Scrolling" 0
    (want_2fg scrolling_method) = dev3 at *
  -- fourth write
  have v4 := touchpad_set_bool_value atoms dev3 "Synaptics Two-Finger Scrolling" _ 1
    (want_2fg scrolling_method && horizontal_scroll) hatomt (by rw [f3.1, f2.1, f1.1, hopen])
    (by rw [f3.2.1, f2.2.1, f1.2.1, htp]) (by rw [f3.2.2, f2.2.2, f1.2.2, halive]) v3 (by simp)
  have o4 := touchpad_set_bool_props_ne atoms dev3 "Synaptics Two-Finger Scrolling"
    "Synaptics Edge Scrolling" 1 (want_2fg scrolling_method && horizontal_scroll) hne.symm
  constructor
  · rw [v4]; simp
  · rw [o4, o3, v2]; simp

/-- A reply never holds more items than the property stored on the device. -/
theorem get_nitems_le (atoms : List String) (dev : XDeviceState) (name : String)
    (p : XProperty) (length req_type : Nat) (hprop : dev.props name = some p) :
    (XGetDeviceProperty atoms dev name length req_type).nitems ≤ p.data.length := by
  unfold XGetDeviceProperty XGetReply.nitems
  rw [hprop]
  dsimp only
  split_ifs <;> simp

/-- The touchpad boolean write issues at most one request, on the property it
is given. -/
theorem touchpad_set_bool_changes (atoms : List String) (dev : XDeviceState)
    (name : String) (i : Nat) (b : Bool) :
    (touchpad_set_bool atoms dev name i b).changes = dev.changes ∨
    ∃ p : XProperty, (touchpad_set_bool atoms dev name i b).changes = dev.changes ++ [(name, p)] := by
  unfold touchpad_set_bool property_set_bool
  dsimp only
  split_ifs
  all_goals first
    | exact Or.inl rfl
    | exact Or.inr ⟨_, rfl⟩

/-- Claim C13, counterexample: with the default mask `[2, 0, 0]` method 3
writes `[1, 0, 0]`, so the three bytes are not a copy of the default. -/
theorem set_scrolling_libinput_default_not_copied :
    (set_scrolling_libinput
      ["libinput Scroll Method Enabled", "libinput Scroll Method Enabled Default"]
      (device_with true [("libinput Scroll Method Enabled", ⟨XA_INTEGER, 8, [0, 0, 0]⟩),
        ("libinput Scroll Method Enabled Default", ⟨XA_INTEGER, 8, [2, 0, 0]⟩)]) 3 false).props
        "libinput Scroll Method Enabled"
      = some ⟨XA_INTEGER, 8, [1, 0, 0]⟩ ∧
    (set_scrolling_libinput
      ["libinput Scroll Method Enabled", "libinput Scroll Method Enabled Default"]
      (device_with true [("libinput Scroll Method Enabled", ⟨XA_INTEGER, 8, [0, 0, 0]⟩),
        ("libinput Scroll Method Enabled Default", ⟨XA_INTEGER, 8, [2, 0, 0]⟩)]) 3 false).props
        "libinput Scroll Method Enabled"
      ≠ some ⟨XA_INTEGER, 8, [2, 0, 0]⟩ := by
  decide

/-- The mask part of `set_scrolling_libinput` on a touchpad whose mask holds
at least 3 bytes, for a method other than 3. -/
theorem set_scrolling_libinput_mask_value (atoms : List String) (dev : XDeviceState)
    (scrolling_method : Int) (m0 m1 m2 : Int) (rest : List Int)
    (hatom : "libinput Scroll Method Enabled" ∈ atoms) (halive : dev.alive = true)
    (hprop : dev.props "libinput Scroll Method Enabled"
      = some ⟨XA_INTEGER, 8, m0 :: m1 :: m2 :: rest⟩)
    (h3 : scrolling_method ≠ 3) :
    set_scrolling_libinput_mask atoms dev scrolling_method
      = XChangeDeviceProperty dev "libinput Scroll Method Enabled" XA_INTEGER 8
          ((if scrolling_method = 1 then 1 else 0) :: (if scrolling_method = 2 then 1 else 0)
            :: 0 :: rest.take 5) (3 + min 5 rest.length) := by
  have hget := get_int8_property atoms dev _ _ 2 hatom halive hprop
  unfold set_scrolling_libinput_mask
  rw [hget]
  simp [XGetReply.nitems, h3]
  congr 1
  omega

/-- The mask part of `set_scrolling_libinput` for method 3, when the default
mask holds at least 3 bytes. -/
theorem set_scrolling_libinput_mask_default (atoms : List String) (dev : XDeviceState)
    (m0 m1 m2 : Int) (rest : List Int) (d0 d1 d2 : Int) (drest : List Int)
    (hatom : "libinput Scroll Method Enabled" ∈ atoms)
    (hatomd : "libinput Scroll Method Enabled Default" ∈ atoms)
    (halive : dev.alive = true)
    (hprop : dev.props "libinput Scroll Method Enabled"
      = some ⟨XA_INTEGER, 8, m0 :: m1 :: m2 :: rest⟩)
    (hpropd : dev.props "libinput Scroll Method Enabled Default"
      = some ⟨XA_INTEGER, 8, d0 :: d1 :: d2 :: drest⟩) :
    set_scrolling_libinput_mask atoms dev 3
      = XChangeDeviceProperty dev "libinput Scroll Method Enabled" XA_INTEGER 8
          ((if d0 ≠ 0 then 1 else 0) :: (if d1 ≠ 0 then 1 else 0)
            :: (if d2 ≠ 0 then 1 else 0) :: rest.take 5) (3 + min 5 drest.length) := by
  have hget := get_int8_property atoms dev _ _ 2 hatom halive hprop
  have hgetd := get_int8_property atoms dev _ _ 2 hatomd halive hpropd
  unfold set_scrolling_libinput_mask
  rw [hget, hgetd]
  simp [XGetReply.nitems]
  congr 1
  omega

/-- The mask part of `set_scrolling_libinput` leaves a mask shorter than 3
bytes alone, for a method other than 3. -/
theorem set_scrolling_libinput_mask_short (atoms : List String) (dev : XDeviceState)
    (scrolling_method : Int) (p : XProperty)
    (hprop : dev.props "libinput Scroll Method Enabled" = some p)
    (hshort : p.data.length < 3) (h3 : scrolling_method ≠ 3) :
    set_scrolling_libinput_mask atoms dev scrolling_method = dev := by
  have hn := get_nitems_le atoms dev "libinput Scroll Method Enabled" p 2 XA_INTEGER hprop
  unfold set_scrolling_libinput_mask
  simp only [h3, if_false]
  rw [if_neg]
  intro hc
  have := hc.2.2.2.1
  omega

/-- Taking three more items than `k` from a list that starts with three items. -/
theorem take_three_add (a b c : Int) (l : List Int) (k : Nat) :
    (a :: b :: c :: l).take (3 + k) = a :: b :: c :: l.take k := by
  rw [Nat.add_comm]
  rfl

/-- The horizontal-scroll write that ends `set_scrolling_libinput` does not
touch the scroll method mask. -/
theorem set_scrolling_libinput_props_mask (atoms : List String) (dev : XDeviceState)
    (scrolling_method : Int) (horizontal_scroll : Bool)
    (hatom : "libinput Scroll Method Enabled" ∈ atoms)
    (hdef : "libinput Scroll Method Enabled Default" ∈ atoms ∨ scrolling_method ≠ 3)
    (hopen : dev.opens = true) (htp : dev.is_touchpad = true) :
    (set_scrolling_libinput atoms dev scrolling_method horizontal_scroll).props
        "libinput Scroll Method Enabled"
      = (set_scrolling_libinput_mask atoms dev scrolling_method).props
          "libinput Scroll Method Enabled" := by
  have hguard : ¬ (property_from_name atoms "libinput Scroll Method Enabled Default" = false
      ∧ scrolling_method = 3) := by
    rintro ⟨h1, h2⟩
    rcases hdef with h | h
    · simp [property_from_name, h] at h1
    · exact h h2
  unfold set_scrolling_libinput
  simp only [property_from_name, hatom, decide_True, Bool.true_eq_false, if_false, hopen, htp]
  rw [if_neg (by simpa [property_from_name] using hguard)]
  split_ifs
  · exact touchpad_set_bool_props_ne _ _ _ _ _ _ (by decide)
  · exact touchpad_set_bool_props_ne _ _ _ _ _ _ (by decide)

/-- Claim C13, amended: on a touchpad whose scroll method mask holds at least
3 bytes, for every scrolling method in {0, 1, 2} byte 0 of the mask written
by `set_scrolling_libinput` equals the two-finger flag written by
`set_scrolling_synaptics`, byte 1 equals the edge flag and byte 2 is 0; for
method 3, when the default mask holds at least 3 bytes, each of the three
bytes is 1 if the corresponding default byte is non-zero and 0 otherwise;
for a method other than 3 a mask shorter than 3 bytes is not written. -/
theorem set_scrolling_libinput_mirrors (atoms : List String) (dev : XDeviceState)
    (scrolling_method : Int) (horizontal_scroll : Bool)
    (m0 m1 m2 : Int) (rest : List Int) (e0 e1 t0 t1 : Int) (erest trest : List Int)
    (hatom : "libinput Scroll Method Enabled" ∈ atoms)
    (hatome : "Synaptics Edge Scrolling" ∈ atoms)
    (hatomt : "Synaptics Two-Finger Scrolling" ∈ atoms)
    (hopen : dev.opens = true) (htp : dev.is_touchpad = true) (halive : dev.alive = true)
    (hprop : dev.props "libinput Scroll Method Enabled"
      = some ⟨XA_INTEGER, 8, m0 :: m1 :: m2 :: rest⟩)
    (hedge : dev.props "Synaptics Edge Scrolling"
      = some ⟨XA_INTEGER, 8, e0 :: e1 :: erest⟩)
    (htwo : dev.props "Synaptics Two-Finger Scrolling"
      = some ⟨XA_INTEGER, 8, t0 :: t1 :: trest⟩) :
    ((scrolling_method = 0 ∨ scrolling_method = 1 ∨ scrolling_method = 2) →
      ∃ w t e : List Int,
        (set_scrolling_libinput atoms dev scrolling_method horizontal_scroll).props
            "libinput Scroll Method Enabled" = some ⟨XA_INTEGER, 8, w⟩ ∧
        (set_scrolling_synaptics atoms dev scrolling_method horizontal_scroll).props
            "Synaptics Two-Finger Scrolling" = some ⟨XA_INTEGER, 8, t⟩ ∧
        (set_scrolling_synaptics atoms dev scrolling_method horizontal_scroll).props
            "Synaptics Edge Scrolling" = some ⟨XA_INTEGER, 8, e⟩ ∧
        w[0]? = t[0]? ∧ w[1]? = e[0]? ∧ w[2]? = some 0) ∧
    (scrolling_method = 3 →
      ∀ (d0 d1 d2 : Int) (drest : List Int),
        "libinput Scroll Method Enabled Default" ∈ atoms →
        dev.props "libinput Scroll Method Enabled Default"
          = some ⟨XA_INTEGER, 8, d0 :: d1 :: d2 :: drest⟩ →
        ∃ w : List Int,
          (set_scrolling_libinput atoms dev scrolling_method horizontal_scroll).props
              "libinput Scroll Method Enabled" = some ⟨XA_INTEGER, 8, w⟩ ∧
          w[0]? = some (if d0 ≠ 0 then 1 else 0) ∧
          w[1]? = some (if d1 ≠ 0 then 1 else 0) ∧
          w[2]? = some (if d2 ≠ 0 then 1 else 0)) ∧
    (scrolling_method ≠ 3 →
      ∀ (other : XDeviceState) (p : XProperty),
        other.props "libinput Scroll Method Enabled" = some p → p.data.length < 3 →
        set_scrolling_libinput_mask atoms other scrolling_method = other ∧
        (set_scrolling_libinput atoms other scrolling_method horizontal_scroll).props
            "libinput Scroll Method Enabled" = some p ∧
        ∀ c ∈ (set_scrolling_libinput atoms other scrolling_method horizontal_scroll).changes,
          c ∈ other.changes ∨ c.1 ≠ "libinput Scroll Method Enabled") := by
  refine ⟨?_, ?_, ?_⟩
  · intro hmode
    have h3 : scrolling_method ≠ 3 := by omega
    obtain ⟨ht, he⟩ := set_scrolling_synaptics_flags atoms dev scrolling_method
      horizontal_scroll e0 e1 t0 t1 erest trest hatome hatomt hopen htp halive hedge htwo
    refine ⟨((if scrolling_method = 1 then 1 else 0) :: (if scrolling_method = 2 then 1 else 0)
      :: 0 :: (rest.take 5).take (min 5 rest.length)), _, _, ?_, ht, he, ?_, ?_, ?_⟩
    · rw [set_scrolling_libinput_props_mask atoms dev _ _ hatom (Or.inr h3) hopen htp,
        set_scrolling_libinput_mask_value atoms dev _ m0 m1 m2 rest hatom halive hprop h3]
      simp only [XChangeDeviceProperty, if_true, take_three_add]
    · rcases hmode with h | h | h <;> subst h <;> simp [want_2fg]
    · rcases hmode with h | h | h <;> subst h <;> simp [want_edge]
    · simp
  · intro hmode d0 d1 d2 drest hatomd hpropd
    subst hmode
    refine ⟨((if d0 ≠ 0 then 1 else 0) :: (if d1 ≠ 0 then 1 else 0)
      :: (if d2 ≠ 0 then 1 else 0) :: (rest.take 5).take (min 5 drest.length)), ?_, ?_, ?_, ?_⟩
    · rw [set_scrolling_libinput_props_mask atoms dev _ _ hatom (Or.inl hatomd) hopen htp,
        set_scrolling_libinput_mask_default atoms dev m0 m1 m2 rest d0 d1 d2 drest hatom hatomd
          halive hprop hpropd]
      simp only [XChangeDeviceProperty, if_true, take_three_add]
    · simp
    · simp
    · simp
  · intro h3 other p hp hshort
    have hmask := set_scrolling_libinput_mask_short atoms other scrolling_method p hp hshort h3
    refine ⟨hmask, ?_, ?_⟩
    · unfold set_scrolling_libinput
      rw [hmask]
      dsimp only
      split_ifs <;> first
        | exact hp
        | (rw [touchpad_set_bool_props_ne _ _ _ _ _ _ (by decide)]; exact hp)
    · intro c hc
      unfold set_scrolling_libinput at hc
      rw [hmask] at hc
      dsimp only at hc
      split_ifs at hc
      all_goals first
        | exact Or.inl hc
        | (rcases touchpad_set_bool_changes atoms other _ 0 horizontal_scroll with h | ⟨q, h⟩
           · rw [h] at hc; exact Or.inl hc
           · rw [h] at hc
             rcases List.mem_append.mp hc with h' | h'
             · exact Or.inl h'
             · right
               rw [List.mem_singleton.mp h']
               dsimp only
               decide)

/-- Claim C13, instance: two-finger scrolling (method 1) on a touchpad with
both the legacy and the libinput scrolling properties. -/
theorem set_scrolling_libinput_mirrors_witness :
    ((device_with true [("libinput Scroll Method Enabled", ⟨XA_INTEGER, 8, [0, 1, 1]⟩),
        ("Synaptics Edge Scrolling", ⟨XA_INTEGER, 8, [1, 1, 0]⟩),
        ("Synaptics Two-Finger Scrolling", ⟨XA_INTEGER, 8, [0, 0]⟩)]).props
        "libinput Scroll Method Enabled" = some ⟨XA_INTEGER, 8, [0, 1, 1]⟩) ∧
    ∃ w t e : List Int,
      (set_scrolling_libinput
        ["libinput Scroll Method Enabled", "Synaptics Edge Scrolling",
          "Synaptics Two-Finger Scrolling"]
        (device_with true [("libinput Scroll Method Enabled", ⟨XA_INTEGER, 8, [0, 1, 1]⟩),
          ("Synaptics Edge Scrolling", ⟨XA_INTEGER, 8, [1, 1, 0]⟩),
          ("Synaptics Two-Finger Scrolling", ⟨XA_INTEGER, 8, [0, 0]⟩)]) 1 false).props
          "libinput Scroll Method Enabled" = some ⟨XA_INTEGER, 8, w⟩ ∧
      (set_scrolling_synaptics
        ["libinput Scroll Method Enabled", "Synaptics Edge Scrolling",
          "Synaptics Two-Finger Scrolling"]
        (device_with true [("libinput Scroll Method Enabled", ⟨XA_INTEGER, 8, [0, 1, 1]⟩),
          ("Synaptics Edge Scrolling", ⟨XA_INTEGER, 8, [1, 1, 0]⟩),
          ("Synaptics Two-Finger Scrolling", ⟨XA_INTEGER, 8, [0, 0]⟩)]) 1 false).props
          "Synaptics Two-Finger Scrolling" = some ⟨XA_INTEGER, 8, t⟩ ∧
      (set_scrolling_synaptics
        ["libinput Scroll Method Enabled", "Synaptics Edge Scrolling",
          "Synaptics Two-Finger Scrolling"]
        (device_with true [("libinput Scroll Method Enabled", ⟨XA_INTEGER, 8, [0, 1, 1]⟩),
          ("Synaptics Edge Scrolling", ⟨XA_INTEGER, 8, [1, 1, 0]⟩),
          ("Synaptics Two-Finger Scrolling", ⟨XA_INTEGER, 8, [0, 0]⟩)]) 1 false).props
          "Synaptics Edge Scrolling" = some ⟨XA_INTEGER, 8, e⟩ ∧
      w[0]? = t[0]? ∧ w[1]? = e[0]? ∧ w[2]? = some 0 :=
  ⟨by decide,
    (set_scrolling_libinput_mirrors
      ["libinput Scroll Method Enabled", "Synaptics Edge Scrolling",
        "Synaptics Two-Finger Scrolling"]
      (device_with true [("libinput Scroll Method Enabled", ⟨XA_INTEGER, 8, [0, 1, 1]⟩),
        ("Synaptics Edge Scrolling", ⟨XA_INTEGER, 8, [1, 1, 0]⟩),
        ("Synaptics Two-Finger Scrolling", ⟨XA_INTEGER, 8, [0, 0]⟩)]) 1 false
      0 1 1 [] 1 1 0 0 [0] [] (by decide) (by decide) (by decide) rfl rfl rfl
      (by decide) (by decide) (by decide)).1 (by decide)⟩

/-- Claim C14, the code at the failing input: both spellings resolve on the
connection, the touchpad has only `libinput Horizontal Scroll Enabled`, and
horizontal scrolling is switched on. The only request is the rewrite of the
scroll method mask; the horizontal-scroll property keeps its value 0. -/
theorem set_scrolling_libinput_misses_correct_spelling :
    (set_scrolling_libinput
      ["libinput Scroll Method Enabled", "libinput Horizonal Scroll Enabled",
        "libinput Horizontal Scroll Enabled"]
      (device_with true [("libinput Scroll Method Enabled", ⟨XA_INTEGER, 8, [0, 0, 0]⟩),
        ("libinput Horizontal Scroll Enabled", ⟨XA_INTEGER, 8, [0]⟩)]) 1 true).changes
      = [("libinput Scroll Method Enabled", ⟨XA_INTEGER, 8, [1, 0, 0]⟩)] ∧
    (set_scrolling_libinput
      ["libinput Scroll Method Enabled", "libinput Horizonal Scroll Enabled",
        "libinput Horizontal Scroll Enabled"]
      (device_with true [("libinput Scroll Method Enabled", ⟨XA_INTEGER, 8, [0, 0, 0]⟩),
        ("libinput Horizontal Scroll Enabled", ⟨XA_INTEGER, 8, [0]⟩)]) 1 true).props
        "libinput Horizontal Scroll Enabled"
      = some ⟨XA_INTEGER, 8, [0]⟩ ∧
    (set_scrolling_libinput
      ["libinput Scroll Method Enabled", "libinput Horizontal Scroll Enabled"]
      (device_with true [("libinput Scroll Method Enabled", ⟨XA_INTEGER, 8, [0, 0, 0]⟩),
        ("libinput Horizontal Scroll Enabled", ⟨XA_INTEGER, 8, [0]⟩)]) 1 true).props
        "libinput Horizontal Scroll Enabled"
      = some ⟨XA_INTEGER, 8, [1]⟩ := by
  decide

/-! ## Wheel emulation: properties of `set_scroll_wheel_button` -/

/-- Claim C15, counterexample: with the configured button 256 the enable
flag is written as 1 and the button byte as 0, not as the configured
button. -/
theorem set_scroll_wheel_button_byte_wraps :
    (0 : Int) < 256 ∧
    (set_scroll_wheel_button ["Evdev Wheel Emulation", "Evdev Wheel Emulation Button"]
      (device_with false [("Evdev Wheel Emulation", ⟨XA_INTEGER, 8, [0]⟩),
        ("Evdev Wheel Emulation Button", ⟨XA_INTEGER, 8, [4]⟩)]) true 256).changes
      = [("Evdev Wheel Emulation", ⟨XA_INTEGER, 8, [1]⟩),
         ("Evdev Wheel Emulation Button", ⟨XA_INTEGER, 8, [0]⟩)] ∧
    (set_scroll_wheel_button ["Evdev Wheel Emulation", "Evdev Wheel Emulation Button"]
      (device_with false [("Evdev Wheel Emulation", ⟨XA_INTEGER, 8, [0]⟩),
        ("Evdev Wheel Emulation Button", ⟨XA_INTEGER, 8, [4]⟩)]) true 256).props
        "Evdev Wheel Emulation Button"
      ≠ some ⟨XA_INTEGER, 8, [256]⟩ := by
  decide

/-- Claim C15, amended: for a trackball exposing single-byte
`Evdev Wheel Emulation` and `Evdev Wheel Emulation Button` properties,
`set_scroll_wheel_button` writes the enable flag 1 and the button byte
`button mod 256`, which is the configured button when it is between 1 and
255, whenever the configured button is positive; it writes the enable flag 0
and leaves the button property alone when the button is at most 0; on a
device that is not a trackball it does nothing. -/
theorem set_scroll_wheel_button_writes (atoms : List String) (dev : XDeviceState)
    (button w b : Int)
    (hatomw : "Evdev Wheel Emulation" ∈ atoms)
    (hatomb : "Evdev Wheel Emulation Button" ∈ atoms)
    (hopen : dev.opens = true) (halive : dev.alive = true)
    (hwheel : dev.props "Evdev Wheel Emulation" = some ⟨XA_INTEGER, 8, [w]⟩)
    (hbutton : dev.props "Evdev Wheel Emulation Button" = some ⟨XA_INTEGER, 8, [b]⟩) :
    (0 < button →
      (set_scroll_wheel_button atoms dev true button).changes
        = dev.changes ++ [("Evdev Wheel Emulation", ⟨XA_INTEGER, 8, [1]⟩),
            ("Evdev Wheel Emulation Button", ⟨XA_INTEGER, 8, [button % 256]⟩)] ∧
      (set_scroll_wheel_button atoms dev true button).props "Evdev Wheel Emulation"
        = some ⟨XA_INTEGER, 8, [1]⟩ ∧
      (set_scroll_wheel_button atoms dev true button).props "Evdev Wheel Emulation Button"
        = some ⟨XA_INTEGER, 8, [button % 256]⟩ ∧
      (button ≤ 255 → button % 256 = button)) ∧
    (button ≤ 0 →
      (set_scroll_wheel_button atoms dev true button).changes
        = dev.changes ++ [("Evdev Wheel Emulation", ⟨XA_INTEGER, 8, [0]⟩)] ∧
      (set_scroll_wheel_button atoms dev true button).props "Evdev Wheel Emulation"
        = some ⟨XA_INTEGER, 8, [0]⟩ ∧
      (set_scroll_wheel_button atoms dev true button).props "Evdev Wheel Emulation Button"
        = some ⟨XA_INTEGER, 8, [b]⟩) ∧
    (∀ (other : XDeviceState) (any : Int),
      set_scroll_wheel_button atoms other false any = other) := by
  have hne : "Evdev Wheel Emulation Button" ≠ "Evdev Wheel Emulation" := by decide
  have hgw := get_int8_property atoms dev _ _ 1 hatomw halive hwheel
  refine ⟨?_, ?_, ?_⟩
  · intro hpos
    have hgb := get_int8_property atoms
      (XChangeDeviceProperty dev "Evdev Wheel Emulation" XA_INTEGER 8 [1] 1)
      "Evdev Wheel Emulation Button" [b] 1 hatomb (by simpa [XChangeDeviceProperty] using halive)
      (by simp [XChangeDeviceProperty, hne, hbutton])
    have hval : set_scroll_wheel_button atoms dev true button
        = XChangeDeviceProperty
            (XChangeDeviceProperty dev "Evdev Wheel Emulation" XA_INTEGER 8 [1] 1)
            "Evdev Wheel Emulation Button" XA_INTEGER 8 [button % 256] 1 := by
      unfold set_scroll_wheel_button
      rw [hgw]
      simp only [property_from_name, hatomw, hatomb, hopen, XGetReply.nitems, hpos]
      simp [hgb, XGetReply.nitems]
    rw [hval]
    refine ⟨by simp [XChangeDeviceProperty], by simp [XChangeDeviceProperty, hne.symm],
      by simp [XChangeDeviceProperty], fun h255 => by omega⟩
  · intro hle
    have hnot : ¬ (0 < button) := by omega
    have hval : set_scroll_wheel_button atoms dev true button
        = XChangeDeviceProperty dev "Evdev Wheel Emulation" XA_INTEGER 8 [0] 1 := by
      unfold set_scroll_wheel_button
      rw [hgw]
      simp [property_from_name, hatomw, hatomb, hopen, XGetReply.nitems, hnot]
    rw [hval]
    exact ⟨by simp [XChangeDeviceProperty], by simp [XChangeDeviceProperty],
      by simp [XChangeDeviceProperty, hne, hbutton]⟩
  · intro other any
    simp [set_scroll_wheel_button]

/-- Claim C15, instance: button 8 on a trackball. -/
theorem set_scroll_wheel_button_writes_witness :
    ((device_with false [("Evdev Wheel Emulation", ⟨XA_INTEGER, 8, [0]⟩),
        ("Evdev Wheel Emulation Button", ⟨XA_INTEGER, 8, [4]⟩)]).props
        "Evdev Wheel Emulation" = some ⟨XA_INTEGER, 8, [0]⟩ ∧ (0 : Int) < 8) ∧
    (set_scroll_wheel_button ["Evdev Wheel Emulation", "Evdev Wheel Emulation Button"]
      (device_with false [("Evdev Wheel Emulation", ⟨XA_INTEGER, 8, [0]⟩),
        ("Evdev Wheel Emulation Button", ⟨XA_INTEGER, 8, [4]⟩)]) true 8).props
        "Evdev Wheel Emulation Button"
      = some ⟨XA_INTEGER, 8, [8 % 256]⟩ :=
  ⟨by decide,
    ((set_scroll_wheel_button_writes ["Evdev Wheel Emulation", "Evdev Wheel Emulation Button"]
      (device_with false [("Evdev Wheel Emulation", ⟨XA_INTEGER, 8, [0]⟩),
        ("Evdev Wheel Emulation Button", ⟨XA_INTEGER, 8, [4]⟩)]) 8 0 4
      (by decide) (by decide) rfl rfl (by decide) (by decide)).1 (by decide)).2.2.1⟩

/-! ## Handedness: properties of `set_left_handed` -/

/-- Claim C16, the code at the failing input: the name
`libinput Left Handed Enabled` is interned on the connection, the mouse does
not have the property, its button map is `[1, 2, 3]` and the mouse is to be
left-handed. `property_exists_on_device` answers true, no request at all is
made and the button map stays as it is; without the interned name the same
call swaps the map. -/
theorem set_left_handed_skips_legacy_device :
    (gdk_device 9 "Legacy Mouse" .GDK_SOURCE_MOUSE false [] [1, 2, 3]).xdevice.props
        "libinput Left Handed Enabled" = none ∧
    property_exists_on_device ["libinput Left Handed Enabled"]
      (gdk_device 9 "Legacy Mouse" .GDK_SOURCE_MOUSE false [] [1, 2, 3]).xdevice
      "libinput Left Handed Enabled" = true ∧
    (set_left_handed ["libinput Left Handed Enabled"] false
      (gdk_device 9 "Legacy Mouse" .GDK_SOURCE_MOUSE false [] [1, 2, 3]) true true).buttons
      = [1, 2, 3] ∧
    (set_left_handed ["libinput Left Handed Enabled"] false
      (gdk_device 9 "Legacy Mouse" .GDK_SOURCE_MOUSE false [] [1, 2, 3]) true true).button_requests
      = [] ∧
    (set_left_handed ["libinput Left Handed Enabled"] false
      (gdk_device 9 "Legacy Mouse" .GDK_SOURCE_MOUSE false [] [1, 2, 3]) true true).xdevice.changes
      = [] ∧
    (set_left_handed [] false
      (gdk_device 9 "Legacy Mouse" .GDK_SOURCE_MOUSE false [] [1, 2, 3]) true true).buttons
      = [3, 2, 1] := by
  decide

/-- Claim C17: `device_is_ignored` holds exactly when the device identifier
is in the blacklist, or the source is none of mouse, touchpad and cursor, or
the name is `Virtual core XTEST pointer`. -/
theorem device_is_ignored_iff (blacklist : List Int) (device : GdkDevice) :
    device_is_ignored blacklist device = true ↔
      (device.id ∈ blacklist ∨
       (device.source ≠ GdkInputSource.GDK_SOURCE_MOUSE ∧
        device.source ≠ GdkInputSource.GDK_SOURCE_TOUCHPAD ∧
        device.source ≠ GdkInputSource.GDK_SOURCE_CURSOR) ∨
       device.name = some "Virtual core XTEST pointer") := by
  unfold device_is_ignored device_is_blacklisted
  split_ifs with h1 h2 h3
  · simp at h1; simp [h1]
  · simp [h2]
  · simp [h3]
  · simp at h1
    simp only [false_iff, Bool.false_eq_true, not_or]
    exact ⟨h1, h2, h3⟩

/-- A device whose identifier is blacklisted is ignored. -/
theorem device_is_ignored_of_mem (blacklist : List Int) (device : GdkDevice)
    (h : device.id ∈ blacklist) : device_is_ignored blacklist device = true := by
  simp [device_is_ignored, device_is_blacklisted, h]

/-- Every call logged by the guarded device loop is made for a device of the
list that is not ignored, and is one of the calls of the loop body. -/
theorem for_each_device_log (blacklist : List Int)
    (body : GdkDevice → GdkDevice × List Call) (devices : List GdkDevice) :
    ∀ e ∈ (for_each_device blacklist body devices).2,
      e.ignored = false ∧
      ∃ d ∈ devices, device_is_ignored blacklist d = false ∧ e.id = some d.id ∧
        e.call ∈ (body d).2 := by
  induction devices with
  | nil => intro e he; simp [for_each_device] at he
  | cons d ds ih =>
    intro e he
    unfold for_each_device at he
    split_ifs at he with hign
    · obtain ⟨h1, x, hx, h2⟩ := ih e he
      exact ⟨h1, x, List.mem_cons_of_mem _ hx, h2⟩
    · have hign' : device_is_ignored blacklist d = false := by simpa using hign
      rcases List.mem_append.mp he with h' | h'
      · obtain ⟨c, hc, rfl⟩ := List.mem_map.mp h'
        exact ⟨by simp [device_call, hign'], d, List.mem_cons_self _ _, hign',
          by simp [device_call], by simpa [device_call] using hc⟩
      · obtain ⟨h1, x, hx, h2⟩ := ih e h'
        exact ⟨h1, x, List.mem_cons_of_mem _ hx, h2⟩

/-- The guarded device loop leaves every ignored device of the list as it is. -/
theorem for_each_device_keeps_ignored (blacklist : List Int)
    (body : GdkDevice → GdkDevice × List Call) (devices : List GdkDevice) :
    ∀ d ∈ devices, device_is_ignored blacklist d = true →
      d ∈ (for_each_device blacklist body devices).1 := by
  induction devices with
  | nil => intro d hd; simp at hd
  | cons x xs ih =>
    intro d hd hign
    unfold for_each_device
    rcases List.mem_cons.mp hd with rfl | hmem
    · simp [hign]
    · split_ifs
      · exact List.mem_cons_of_mem _ (ih d hmem hign)
      · exact List.mem_cons_of_mem _ (ih d hmem hign)

/-- The typing helper does not touch the blacklist or the device list. -/
theorem set_disable_w_typing_synaptics_frame (h : Host) (m : CsdMouseManager) (state : Bool) :
    (set_disable_w_typing_synaptics h m state).blacklist = m.blacklist ∧
    (set_disable_w_typing_synaptics h m state).devices = m.devices := by
  unfold set_disable_w_typing_synaptics
  split_ifs <;> exact ⟨rfl, rfl⟩

/-- What `set_disable_w_typing` does to the blacklist, to ignored devices and
to the log. -/
theorem set_disable_w_typing_frame (h : Host) (m : CsdMouseManager) (state : Bool) :
    (set_disable_w_typing h m state).1.blacklist = m.blacklist ∧
    (∀ d ∈ m.devices, device_is_ignored m.blacklist d = true →
      d ∈ (set_disable_w_typing h m state).1.devices) ∧
    (∀ e ∈ (set_disable_w_typing h m state).2,
      e = global_call Call.set_disable_w_typing ∨
      (e.ignored = false ∧ ∃ d ∈ m.devices, device_is_ignored m.blacklist d = false ∧
        e.id = some d.id)) := by
  have hs := set_disable_w_typing_synaptics_frame h m state
  unfold set_disable_w_typing
  dsimp only
  generalize hm1 : (if property_from_name h.atoms "Synaptics Off" = true then
    set_disable_w_typing_synaptics h m state else m) = m1
  have hb : m1.blacklist = m.blacklist := by
    rw [← hm1]; split_ifs
    · exact hs.1
    · rfl
  have hd : m1.devices = m.devices := by
    rw [← hm1]; split_ifs
    · exact hs.2
    · rfl
  by_cases h2 : property_from_name h.atoms "libinput Disable While Typing Enabled" = true
  · rw [if_pos h2]
    unfold set_disable_w_typing_libinput
    dsimp only
    rw [hb, hd]
    refine ⟨rfl, fun d hd' hi => for_each_device_keeps_ignored _ _ _ d hd' hi, ?_⟩
    intro e he
    rcases List.mem_cons.mp he with rfl | he'
    · exact Or.inl rfl
    · obtain ⟨g1, d, hd', g2, g3, -⟩ := for_each_device_log _ _ _ e he'
      exact Or.inr ⟨g1, d, hd', g2, g3⟩
  · rw [if_neg h2]
    dsimp only
    refine ⟨hb, fun d hd' _ => by rw [hd]; exact hd', ?_⟩
    intro e he
    simp only [List.mem_singleton] at he
    exact Or.inl he

/-- What `set_disable_w_mouse_attached` does to the blacklist, to ignored
devices and to the log. -/
theorem set_disable_w_mouse_attached_frame (h : Host) (m : CsdMouseManager) (state : Bool) :
    (set_disable_w_mouse_attached h m state).1.blacklist = m.blacklist ∧
    (∀ d ∈ m.devices, device_is_ignored m.blacklist d = true →
      d ∈ (set_disable_w_mouse_attached h m state).1.devices) ∧
    (∀ e ∈ (set_disable_w_mouse_attached h m state).2,
      e = global_call Call.set_disable_w_mouse_attached ∨
      (e.ignored = false ∧ ∃ d ∈ m.devices, device_is_ignored m.blacklist d = false ∧
        e.id = some d.id)) := by
  unfold set_disable_w_mouse_attached
  dsimp only
  refine ⟨rfl, fun d hd hi => for_each_device_keeps_ignored _ _ _ d hd hi, ?_⟩
  intro e he
  rcases List.mem_cons.mp he with rfl | he'
  · exact Or.inl rfl
  · obtain ⟨g1, d, hd, g2, g3, -⟩ := for_each_device_log _ _ _ e he'
    exact Or.inr ⟨g1, d, hd, g2, g3⟩

/-- The enable calls for disabled devices are `set_touchpad_enabled` calls on
identifiers that `get_disabled_devices` returned. -/
theorem enable_disabled_devices_log (h : Host) (blacklist : List Int) :
    ∀ e ∈ enable_disabled_devices h blacklist,
      e.call = Call.set_touchpad_enabled ∧ ∃ id ∈ h.disabled_devices, e.id = some id := by
  intro e he
  obtain ⟨id, hid, rfl⟩ := List.mem_map.mp he
  exact ⟨rfl, id, hid, rfl⟩

/-- Every call of the startup loop over the devices present is made for a
device that is not ignored at that moment. -/
theorem present_devices_log (h : Host) (s : Settings) (devices : List GdkDevice) :
    ∀ (blacklist : List Int), ∀ e ∈ (present_devices h s blacklist devices).2.2,
      e.ignored = false ∧ e.id ≠ none := by
  induction devices with
  | nil => intro bl e he; simp [present_devices] at he
  | cons d ds ih =>
    intro bl e he
    unfold present_devices at he
    split_ifs at he with hign hcmd
    · exact ih bl e he
    · have hign' : device_is_ignored bl d = false := by simpa using hign
      rcases List.mem_append.mp he with h' | h'
      · obtain ⟨c, -, rfl⟩ := List.mem_map.mp h'
        exact ⟨by simp [device_call, hign'], by simp [device_call]⟩
      · exact ih bl e h'
    · have hign' : device_is_ignored bl d = false := by simpa using hign
      rcases List.mem_cons.mp he with rfl | h'
      · exact ⟨by simp [device_call, hign'], by simp [device_call]⟩
      · exact ih _ e h'

/-- The calls of `mouse_callback` are made for devices that are not ignored. -/
theorem mouse_callback_log (h : Host) (m : CsdMouseManager) (key : String) :
    ∀ e ∈ (mouse_callback h m key).2, e.ignored = false := by
  intro e he
  unfold mouse_callback at he
  split_ifs at he
  · simp only [List.mem_singleton] at he; rw [he]; rfl
  · simp only [List.mem_singleton] at he; rw [he]; rfl
  · exact (for_each_device_log _ _ _ e he).1

/-- The calls of `trackball_callback` are made for devices that are not ignored. -/
theorem trackball_callback_log (h : Host) (m : CsdMouseManager) :
    ∀ e ∈ (trackball_callback h m).2, e.ignored = false := by
  intro e he
  exact (for_each_device_log _ _ _ e he).1

/-- The calls of `touchpad_callback` are made for devices that are not
ignored, apart from the enable calls for disabled devices. -/
theorem touchpad_callback_log (h : Host) (m : CsdMouseManager) (key : String) :
    ∀ e ∈ (touchpad_callback h m key).2, e.ignored = true →
      e.call = Call.set_touchpad_enabled ∧ ∃ id ∈ h.disabled_devices, e.id = some id := by
  intro e he hign
  unfold touchpad_callback at he
  split_ifs at he
  · rcases (set_disable_w_typing_frame h m _).2.2 e he with rfl | ⟨g, -⟩
    · simp [global_call] at hign
    · rw [g] at hign; cases hign
  · rcases (set_disable_w_mouse_attached_frame h m _).2.2 e he with rfl | ⟨g, -⟩
    · simp [global_call] at hign
    · rw [g] at hign; cases hign
  · rcases List.mem_append.mp he with h' | h'
    · have g := (for_each_device_log _ _ _ e h').1
      rw [g] at hign; cases hign
    · exact enable_disabled_devices_log h _ e h'
  · simp only [List.append_nil] at he
    have g := (for_each_device_log _ _ _ e he).1
    rw [g] at hign; cases hign

/-- The calls of `device_added_cb` are made for devices that are not ignored. -/
theorem device_added_cb_log (h : Host) (m : CsdMouseManager) (device : GdkDevice) :
    ∀ e ∈ (device_added_cb h m device).2, e.ignored = false := by
  intro e he
  unfold device_added_cb at he
  split_ifs at he with hign hcmd
  · simp only [List.mem_append, List.mem_cons, List.mem_map] at he
    rcases he with ((rfl | ⟨c, -, rfl⟩) | he) | he
    · simp [device_call, hign]
    · simp [device_call, hign]
    · rcases (set_disable_w_typing_frame h _ _).2.2 e he with rfl | ⟨g, -⟩
      · rfl
      · exact g
    · rcases (set_disable_w_mouse_attached_frame h _ _).2.2 e he with rfl | ⟨g, -⟩
      · rfl
      · exact g
  · simp only [List.mem_append, List.mem_cons, List.not_mem_nil, or_false] at he
    rcases he with (rfl | he) | he
    · simp [device_call, hign]
    · rcases (set_disable_w_typing_frame h _ _).2.2 e he with rfl | ⟨g, -⟩
      · rfl
      · exact g
    · rcases (set_disable_w_mouse_attached_frame h _ _).2.2 e he with rfl | ⟨g, -⟩
      · rfl
      · exact g
  · simp at he

/-- The calls of `device_removed_cb` are made for devices that are not ignored. -/
theorem device_removed_cb_log (h : Host) (m : CsdMouseManager) (device : GdkDevice) :
    ∀ e ∈ (device_removed_cb h m device).2, e.ignored = false := by
  intro e he
  unfold device_removed_cb at he
  dsimp only at he
  split_ifs at he with hign
  · simp only [List.mem_append, List.mem_cons, List.not_mem_nil, or_false] at he
    rcases he with (rfl | he) | rfl
    · exact hign
    · rcases (set_disable_w_typing_frame h _ _).2.2 e he with rfl | ⟨g, -⟩
      · rfl
      · exact g
    · rfl
  · simp at he

/-- The calls of `csd_mouse_manager_idle_cb` are made for devices that are
not ignored, apart from the enable calls for disabled devices. -/
theorem csd_mouse_manager_idle_cb_log (h : Host) (m : CsdMouseManager) :
    ∀ e ∈ (csd_mouse_manager_idle_cb h m).2, e.ignored = true →
      e.call = Call.set_touchpad_enabled ∧ ∃ id ∈ h.disabled_devices, e.id = some id := by
  intro e he hign
  unfold csd_mouse_manager_idle_cb at he
  dsimp only at he
  split_ifs at he
  · simp only [List.mem_append, List.mem_cons, List.mem_singleton, List.not_mem_nil,
      or_false] at he
    rcases he with ((((( he | he) | he) | he) | he) | he) | he
    · rw [he] at hign; simp [global_call] at hign
    · rw [he] at hign; simp [global_call] at hign
    · rcases (set_disable_w_typing_frame h _ _).2.2 e he with rfl | ⟨g, -⟩
      · simp [global_call] at hign
      · rw [g] at hign; cases hign
    · rcases (set_disable_w_mouse_attached_frame h _ _).2.2 e he with rfl | ⟨g, -⟩
      · simp [global_call] at hign
      · rw [g] at hign; cases hign
    · have g := (present_devices_log h _ _ _ e he).1
      rw [g] at hign; cases hign
    · rw [he] at hign; simp [global_call] at hign
    · exact enable_disabled_devices_log h _ e he
  · simp only [List.mem_append, List.mem_cons, List.mem_singleton, List.not_mem_nil,
      or_false] at he
    rcases he with (((( he | he) | he) | he) | he) | he
    · rw [he] at hign; simp [global_call] at hign
    · rw [he] at hign; simp [global_call] at hign
    · rcases (set_disable_w_typing_frame h _ _).2.2 e he with rfl | ⟨g, -⟩
      · simp [global_call] at hign
      · rw [g] at hign; cases hign
    · rcases (set_disable_w_mouse_attached_frame h _ _).2.2 e he with rfl | ⟨g, -⟩
      · simp [global_call] at hign
      · rw [g] at hign; cases hign
    · have g := (present_devices_log h _ _ _ e he).1
      rw [g] at hign; cases hign
    · rw [he] at hign; simp [global_call] at hign

/-- Claim C18, counterexample: the identifier 12 is on the blacklist and
`get_disabled_devices` returns it; when `touchpad-enabled` changes to true,
`touchpad_callback` calls `set_touchpad_enabled (12)`. -/
theorem set_touchpad_enabled_on_blacklisted_device :
    (12 : Int) ∈ (manager_with default_settings [12] []).blacklist ∧
    (touchpad_callback (host_with [] [] [12]) (manager_with default_settings [12] [])
      "touchpad-enabled").2
      = [{ call := Call.set_touchpad_enabled, id := some 12, ignored := true }] := by
  decide

/-- Claim C18, amended: for every sequence of events (setting changes,
device attach, device detach, startup pass), every call made for a device of
the device list is made for a device that is not ignored; the only calls made
for an ignored device are `set_touchpad_enabled` calls for identifiers that
`get_disabled_devices` returned. -/
theorem calls_on_ignored_devices (h : Host) (m : CsdMouseManager) (events : List Event)
    (e : LogEntry) (he : e ∈ run_events h m events) (hign : e.ignored = true) :
    e.call = Call.set_touchpad_enabled ∧ ∃ id ∈ h.disabled_devices, e.id = some id := by
  induction events generalizing m with
  | nil => simp [run_events] at he
  | cons ev evs ih =>
    unfold run_events at he
    rcases List.mem_append.mp he with h1 | h1
    · cases ev with
      | mouse_changed key =>
        have g := mouse_callback_log h m key e h1
        rw [g] at hign; cases hign
      | touchpad_changed key => exact touchpad_callback_log h m key e h1 hign
      | trackball_changed =>
        have g := trackball_callback_log h m e h1
        rw [g] at hign; cases hign
      | device_added device =>
        have g := device_added_cb_log h _ device e h1
        rw [g] at hign; cases hign
      | device_removed device =>
        have g := device_removed_cb_log h _ device e h1
        rw [g] at hign; cases hign
      | startup => exact csd_mouse_manager_idle_cb_log h m e h1 hign
    · exact ih _ h1

/-- Claim C18, instance: a startup pass followed by a change of
`touchpad-enabled`, with the disabled device 12 on the blacklist. -/
theorem calls_on_ignored_devices_witness :
    (({ call := Call.set_touchpad_enabled, id := some 12, ignored := true } : LogEntry)
      ∈ run_events (host_with [] [] [12]) (manager_with default_settings [12] [])
          [Event.startup, Event.touchpad_changed "touchpad-enabled"]) ∧
    ∃ id ∈ (host_with [] [] [12]).disabled_devices, (some (12 : Int)) = some id :=
  ⟨by decide,
    (calls_on_ignored_devices (host_with [] [] [12]) (manager_with default_settings [12] [])
      [Event.startup, Event.touchpad_changed "touchpad-enabled"]
      { call := Call.set_touchpad_enabled, id := some 12, ignored := true }
      (by decide) rfl).2⟩

/-- Every run of `set_disable_w_typing` is logged. -/
theorem set_disable_w_typing_logged (h : Host) (m : CsdMouseManager) (state : Bool) :
    global_call Call.set_disable_w_typing ∈ (set_disable_w_typing h m state).2 := by
  unfold set_disable_w_typing
  exact List.mem_cons_self _ _

/-- Every run of `set_disable_w_mouse_attached` is logged. -/
theorem set_disable_w_mouse_attached_logged (h : Host) (m : CsdMouseManager) (state : Bool) :
    global_call Call.set_disable_w_mouse_attached
      ∈ (set_disable_w_mouse_attached h m state).2 := by
  unfold set_disable_w_mouse_attached
  exact List.mem_cons_self _ _

/-- Claim C19, counterexample: the custom command refuses the attached mouse
9 while a touchpad 12 with `libinput Disable While Typing Enabled` is
connected. After blacklisting the mouse, `device_added_cb` goes on to
`set_disable_w_typing` and `set_disable_w_mouse_attached`, and the first of
them rewrites the property of the touchpad. -/
theorem device_added_cb_rejected_reevaluates :
    (device_added_cb (host_with ["libinput Disable While Typing Enabled"] [9] [])
      (manager_with default_settings []
        [gdk_device 9 "Mouse" .GDK_SOURCE_MOUSE false [] [1, 2, 3],
         gdk_device 12 "Touchpad" .GDK_SOURCE_TOUCHPAD true
           [("libinput Disable While Typing Enabled", ⟨XA_INTEGER, 8, [1]⟩)] [1, 2, 3]])
      (gdk_device 9 "Mouse" .GDK_SOURCE_MOUSE false [] [1, 2, 3])).1.blacklist = [9] ∧
    (device_added_cb (host_with ["libinput Disable While Typing Enabled"] [9] [])
      (manager_with default_settings []
        [gdk_device 9 "Mouse" .GDK_SOURCE_MOUSE false [] [1, 2, 3],
         gdk_device 12 "Touchpad" .GDK_SOURCE_TOUCHPAD true
           [("libinput Disable While Typing Enabled", ⟨XA_INTEGER, 8, [1]⟩)] [1, 2, 3]])
      (gdk_device 9 "Mouse" .GDK_SOURCE_MOUSE false [] [1, 2, 3])).2
      = [{ call := Call.run_custom_command .COMMAND_DEVICE_ADDED, id := some 9,
           ignored := false },
         { call := Call.set_disable_w_typing, id := none, ignored := false },
         { call := Call.touchpad_set_bool "libinput Disable While Typing Enabled",
           id := some 12, ignored := false },
         { call := Call.set_disable_w_mouse_attached, id := none, ignored := false },
         { call := Call.touchpad_get_bool "libinput Send Events Modes Available",
           id := some 12, ignored := false }] ∧
    ((device_added_cb (host_with ["libinput Disable While Typing Enabled"] [9] [])
      (manager_with default_settings []
        [gdk_device 9 "Mouse" .GDK_SOURCE_MOUSE false [] [1, 2, 3],
         gdk_device 12 "Touchpad" .GDK_SOURCE_TOUCHPAD true
           [("libinput Disable While Typing Enabled", ⟨XA_INTEGER, 8, [1]⟩)] [1, 2, 3]])
      (gdk_device 9 "Mouse" .GDK_SOURCE_MOUSE false [] [1, 2, 3])).1.devices.map
        fun d => d.xdevice.changes)
      = [[], [("libinput Disable While Typing Enabled", ⟨XA_INTEGER, 8, [0]⟩)]] := by
  decide

/-- Claim C19, amended: on a device-attach event for a device that is not
ignored and that the custom command refuses, `device_added_cb` adds the
identifier to the blacklist and applies no settings to the device: every
entry of the device list with that identifier is kept as it is and the only
call made for the identifier is the custom command. It then re-evaluates
disable-while-typing and disable-with-external-mouse. -/
theorem device_added_cb_rejected (h : Host) (m : CsdMouseManager) (device : GdkDevice)
    (hnot : device_is_ignored m.blacklist device = false)
    (hrej : h.custom_command device.id CustomCommand.COMMAND_DEVICE_ADDED = true) :
    (device_added_cb h m device).1.blacklist = m.blacklist ++ [device.id] ∧
    (∀ d ∈ m.devices, d.id = device.id → d ∈ (device_added_cb h m device).1.devices) ∧
    (∀ e ∈ (device_added_cb h m device).2, e.id = some device.id →
      e = device_call m.blacklist device
        (Call.run_custom_command CustomCommand.COMMAND_DEVICE_ADDED)) ∧
    global_call Call.set_disable_w_typing ∈ (device_added_cb h m device).2 ∧
    global_call Call.set_disable_w_mouse_attached ∈ (device_added_cb h m device).2 := by
  have hval : device_added_cb h m device
      = ((set_disable_w_mouse_attached h
            (set_disable_w_typing h { m with blacklist := m.blacklist ++ [device.id] }
              m.settings.disable_while_typing).1
            (set_disable_w_typing h { m with blacklist := m.blacklist ++ [device.id] }
              m.settings.disable_while_typing).1.settings.disable_with_external_mouse).1,
         device_call m.blacklist device
            (Call.run_custom_command CustomCommand.COMMAND_DEVICE_ADDED)
          :: [] ++ (set_disable_w_typing h { m with blacklist := m.blacklist ++ [device.id] }
              m.settings.disable_while_typing).2
          ++ (set_disable_w_mouse_attached h
            (set_disable_w_typing h { m with blacklist := m.blacklist ++ [device.id] }
              m.settings.disable_while_typing).1
            (set_disable_w_typing h { m with blacklist := m.blacklist ++ [device.id] }
              m.settings.disable_while_typing).1.settings.disable_with_external_mouse).2) := by
    unfold device_added_cb
    simp [hnot, hrej]
  rw [hval]
  generalize hm1 : ({ m with blacklist := m.blacklist ++ [device.id] } : CsdMouseManager) = m1
  have hb1 : m1.blacklist = m.blacklist ++ [device.id] := by rw [← hm1]
  have hd1 : m1.devices = m.devices := by rw [← hm1]
  have ft := set_disable_w_typing_frame h m1 m.settings.disable_while_typing
  have gt := set_disable_w_typing_logged h m1 m.settings.disable_while_typing
  generalize set_disable_w_typing h m1 m.settings.disable_while_typing = r2 at ft gt ⊢
  have fa := set_disable_w_mouse_attached_frame h r2.1 r2.1.settings.disable_with_external_mouse
  have ga := set_disable_w_mouse_attached_logged h r2.1
    r2.1.settings.disable_with_external_mouse
  generalize set_disable_w_mouse_attached h r2.1 r2.1.settings.disable_with_external_mouse
    = r3 at fa ga ⊢
  have hmemb : ∀ d : GdkDevice, d.id = device.id → device_is_ignored m1.blacklist d = true := by
    intro d hd
    apply device_is_ignored_of_mem
    rw [hb1, hd]
    simp
  refine ⟨?_, ?_, ?_, ?_, ?_⟩
  · dsimp only
    rw [fa.1, ft.1, hb1]
  · intro d hd hid
    dsimp only
    have h2 : d ∈ r2.1.devices := ft.2.1 d (by rw [hd1]; exact hd) (hmemb d hid)
    exact fa.2.1 d h2 (by rw [ft.1]; exact hmemb d hid)
  · intro e he hid
    dsimp only at he
    simp only [List.mem_append, List.mem_cons, List.not_mem_nil, or_false] at he
    rcases he with (he | he) | he
    · exact he
    · rcases ft.2.2 e he with rfl | ⟨-, d, -, hd2, hd3⟩
      · simp [global_call] at hid
      · rw [hd3] at hid
        have := hmemb d (by simpa using hid)
        rw [this] at hd2; cases hd2
    · rcases fa.2.2 e he with rfl | ⟨-, d, -, hd2, hd3⟩
      · simp [global_call] at hid
      · rw [hd3] at hid
        have := hmemb d (by simpa using hid)
        rw [ft.1, this] at hd2; cases hd2
  · dsimp only
    exact List.mem_append_left _ (List.mem_append_right _ gt)
  · dsimp only
    exact List.mem_append_right _ ga

/-- Claim C19, instance: the refused mouse 9 of the counterexample. -/
theorem device_added_cb_rejected_witness :
    (device_is_ignored (manager_with default_settings []
        [gdk_device 9 "Mouse" .GDK_SOURCE_MOUSE false [] [1, 2, 3]]).blacklist
        (gdk_device 9 "Mouse" .GDK_SOURCE_MOUSE false [] [1, 2, 3]) = false ∧
      (host_with [] [9] []).custom_command
        (gdk_device 9 "Mouse" .GDK_SOURCE_MOUSE false [] [1, 2, 3]).id
        CustomCommand.COMMAND_DEVICE_ADDED = true) ∧
    (device_added_cb (host_with [] [9] [])
      (manager_with default_settings []
        [gdk_device 9 "Mouse" .GDK_SOURCE_MOUSE false [] [1, 2, 3]])
      (gdk_device 9 "Mouse" .GDK_SOURCE_MOUSE false [] [1, 2, 3])).1.blacklist
      = (manager_with default_settings []
          [gdk_device 9 "Mouse" .GDK_SOURCE_MOUSE false [] [1, 2, 3]]).blacklist
        ++ [(gdk_device 9 "Mouse" .GDK_SOURCE_MOUSE false [] [1, 2, 3]).id] :=
  ⟨by decide,
    (device_added_cb_rejected (host_with [] [9] [])
      (manager_with default_settings []
        [gdk_device 9 "Mouse" .GDK_SOURCE_MOUSE false [] [1, 2, 3]])
      (gdk_device 9 "Mouse" .GDK_SOURCE_MOUSE false [] [1, 2, 3]) (by decide) (by decide)).1⟩

/-- A log in which every entry names a device or is another call records no
evaluation of `ensure_touchpad_active`. -/
theorem ensure_touchpad_active_count_zero (log : List LogEntry)
    (hl : ∀ e ∈ log, e.id ≠ none ∨ e.call ≠ Call.ensure_touchpad_active) :
    ensure_touchpad_active_count log = 0 := by
  unfold ensure_touchpad_active_count
  rw [List.count_eq_zero]
  intro hmem
  rcases hl _ hmem with h | h
  · exact h rfl
  · exact h rfl

/-- Running `set_disable_w_typing` records no evaluation of
`ensure_touchpad_active`. -/
theorem set_disable_w_typing_count (h : Host) (m : CsdMouseManager) (state : Bool) :
    ensure_touchpad_active_count (set_disable_w_typing h m state).2 = 0 := by
  apply ensure_touchpad_active_count_zero
  intro e he
  rcases (set_disable_w_typing_frame h m state).2.2 e he with rfl | ⟨-, d, -, -, hd⟩
  · right; simp [global_call]
  · left; rw [hd]; simp

/-- Running `set_disable_w_mouse_attached` records no evaluation of
`ensure_touchpad_active`. -/
theorem set_disable_w_mouse_attached_count (h : Host) (m : CsdMouseManager) (state : Bool) :
    ensure_touchpad_active_count (set_disable_w_mouse_attached h m state).2 = 0 := by
  apply ensure_touchpad_active_count_zero
  intro e he
  rcases (set_disable_w_mouse_attached_frame h m state).2.2 e he with rfl | ⟨-, d, -, -, hd⟩
  · right; simp [global_call]
  · left; rw [hd]; simp

/-- Counting over a concatenation. -/
theorem ensure_touchpad_active_count_append (a b : List LogEntry) :
    ensure_touchpad_active_count (a ++ b)
      = ensure_touchpad_active_count a + ensure_touchpad_active_count b := by
  simp [ensure_touchpad_active_count, List.count_append]

/-- Claim C20, counterexample: no mouse and no touch screen are present, a
touchpad is, and `touchpad-enabled` is false. The rule would set the setting
to true, but the attach event of the touchpad 12 does not evaluate it and
leaves the setting false; the detach event of a keyboard does not evaluate it
either. -/
theorem ensure_touchpad_active_not_on_attach :
    (ensure_touchpad_active { host_with [] [] [] with mouse_is_present := false }
      (manager_with { default_settings with touchpad_enabled := false } [] [])
      ).settings.touchpad_enabled = true ∧
    ensure_touchpad_active_count
      (handle_event { host_with [] [] [] with mouse_is_present := false }
        (manager_with { default_settings with touchpad_enabled := false } [] [])
        (Event.device_added (gdk_device 12 "Touchpad" .GDK_SOURCE_TOUCHPAD true [] [1, 2, 3]))).2
      = 0 ∧
    (handle_event { host_with [] [] [] with mouse_is_present := false }
        (manager_with { default_settings with touchpad_enabled := false } [] [])
        (Event.device_added (gdk_device 12 "Touchpad" .GDK_SOURCE_TOUCHPAD true [] [1, 2, 3]))
      ).1.settings.touchpad_enabled = false ∧
    ensure_touchpad_active_count
      (handle_event { host_with [] [] [] with mouse_is_present := false }
        (manager_with { default_settings with touchpad_enabled := false } []
          [gdk_device 3 "Keyboard" .GDK_SOURCE_KEYBOARD false [] []])
        (Event.device_removed (gdk_device 3 "Keyboard" .GDK_SOURCE_KEYBOARD false [] []))).2
      = 0 := by
  decide

/-- Claim C20, amended: `ensure_touchpad_active` is evaluated once at
startup and once on every device-detach event of a device that is not
ignored after its identifier has left the blacklist; it is not evaluated on
a device-attach event, nor on the detach event of an ignored device. -/
theorem ensure_touchpad_active_evaluations (h : Host) (m : CsdMouseManager)
    (device : GdkDevice) :
    ensure_touchpad_active_count (device_added_cb h m device).2 = 0 ∧
    ensure_touchpad_active_count (device_removed_cb h m device).2
      = (if device_is_ignored (m.blacklist.filter (fun id => id ≠ device.id)) device = true
          then 0 else 1) ∧
    ensure_touchpad_active_count (csd_mouse_manager_idle_cb h m).2 = 1 := by
  refine ⟨?_, ?_, ?_⟩
  · apply ensure_touchpad_active_count_zero
    intro e he
    unfold device_added_cb at he
    split_ifs at he with hign hcmd
    · simp only [List.mem_append, List.mem_cons, List.mem_map] at he
      rcases he with ((rfl | ⟨c, -, rfl⟩) | he) | he
      · left; simp [device_call]
      · left; simp [device_call]
      · rcases (set_disable_w_typing_frame h _ _).2.2 e he with rfl | ⟨-, d, -, -, hd⟩
        · right; simp [global_call]
        · left; rw [hd]; simp
      · rcases (set_disable_w_mouse_attached_frame h _ _).2.2 e he with rfl | ⟨-, d, -, -, hd⟩
        · right; simp [global_call]
        · left; rw [hd]; simp
    · simp only [List.mem_append, List.mem_cons, List.not_mem_nil, or_false] at he
      rcases he with (rfl | he) | he
      · left; simp [device_call]
      · rcases (set_disable_w_typing_frame h _ _).2.2 e he with rfl | ⟨-, d, -, -, hd⟩
        · right; simp [global_call]
        · left; rw [hd]; simp
      · rcases (set_disable_w_mouse_attached_frame h _ _).2.2 e he with rfl | ⟨-, d, -, -, hd⟩
        · right; simp [global_call]
        · left; rw [hd]; simp
    · simp at he
  · unfold device_removed_cb
    dsimp only
    split_ifs with h1 h2 h2
    · rw [h2] at h1; cases h1
    · have e1 : ∀ (x : LogEntry) (l : List LogEntry), x :: l = [x] ++ l := fun _ _ => rfl
      rw [e1, ensure_touchpad_active_count_append, ensure_touchpad_active_count_append,
        set_disable_w_typing_count]
      simp [ensure_touchpad_active_count, device_call, global_call]
    · simp [ensure_touchpad_active_count]
    · exact absurd (by simpa using h1) h2
  · unfold csd_mouse_manager_idle_cb
    dsimp only
    simp only [ensure_touchpad_active_count_append, set_disable_w_typing_count,
      set_disable_w_mouse_attached_count]
    have hp : ∀ bl ds s, ensure_touchpad_active_count (present_devices h s bl ds).2.2 = 0 := by
      intro bl ds s
      apply ensure_touchpad_active_count_zero
      intro e he
      exact Or.inl (present_devices_log h s ds bl e he).2
    have hen : ∀ bl, ensure_touchpad_active_count (enable_disabled_devices h bl) = 0 := by
      intro bl
      apply ensure_touchpad_active_count_zero
      intro e he
      obtain ⟨-, id, -, hid⟩ := enable_disabled_devices_log h bl e he
      left; rw [hid]; simp
    rw [hp]
    split_ifs
    · rw [hen]; simp [ensure_touchpad_active_count, global_call]
    · simp [ensure_touchpad_active_count, global_call]


/-! ## The auto re-enable rule: properties of `ensure_touchpad_active` -/

/-- Claim C21, counterexample: a touchpad is present, a mouse is present and
no touch screen is; the setting `touchpad-enabled` is false and
`ensure_touchpad_active` leaves it false. -/
theorem ensure_touchpad_active_touchscreen_absent :
    (host_with [] [] []).touchpad_is_present = true ∧
    (host_with [] [] []).touchscreen_is_present = false ∧
    (host_with [] [] []).mouse_is_present = true ∧
    (ensure_touchpad_active (host_with [] [] [])
      (manager_with { default_settings with touchpad_enabled := false } [] [])
      ).settings.touchpad_enabled = false := by
  decide

/-- Claim C21, amended: for every presence state, `ensure_touchpad_active`
sets `touchpad-enabled` to true when a touchpad is present and both the
mouse and the touch screen are absent, and otherwise leaves the manager and
its settings as they are; nothing but that setting ever changes. -/
theorem ensure_touchpad_active_rule (h : Host) (m : CsdMouseManager) :
    (ensure_touchpad_active h m).settings.touchpad_enabled
      = (if h.touchpad_is_present = true ∧ h.mouse_is_present = false
            ∧ h.touchscreen_is_present = false then true
          else m.settings.touchpad_enabled) ∧
    (¬ (h.touchpad_is_present = true ∧ h.mouse_is_present = false
        ∧ h.touchscreen_is_present = false) → ensure_touchpad_active h m = m) ∧
    ensure_touchpad_active h m
      = { m with settings := { m.settings with
            touchpad_enabled := (ensure_touchpad_active h m).settings.touchpad_enabled } } := by
  unfold ensure_touchpad_active
  refine ⟨?_, ?_, ?_⟩
  · split_ifs with h1 h2 h2
    · rfl
    · exact absurd ⟨h1.2.2, h1.1, h1.2.1⟩ h2
    · exact absurd ⟨h2.2.1, h2.2.2, h2.1⟩ h1
    · rfl
  · intro hn
    rw [if_neg]
    intro h1
    exact hn ⟨h1.2.2, h1.1, h1.2.1⟩
  · split_ifs <;> rfl

/-! ## Helper programs -/

/-- Claim C22, counterexample: dwell click is on and `mousetweaks` is not
installed. The setting is reset, but the daemon stays recorded as running,
and the same event with the settings as they are now makes a further spawn
attempt (`mousetweaks -s`). When the start fails for another reason the
setting is not reset and the same event spawns again. -/
theorem set_mousetweaks_daemon_spawns_again :
    (set_mousetweaks_daemon (host_with [] [] [])
      (manager_with { default_settings with dwell_click_enabled := true } [] [])
      true false).settings.dwell_click_enabled = false ∧
    (set_mousetweaks_daemon (host_with [] [] [])
      (manager_with { default_settings with dwell_click_enabled := true } [] [])
      true false).mousetweaks_daemon_running = true ∧
    (set_mousetweaks_daemon (host_with [] [] [])
      (set_mousetweaks_daemon (host_with [] [] [])
        (manager_with { default_settings with dwell_click_enabled := true } [] [])
        true false) false false).spawn_attempts = ["mousetweaks ", "mousetweaks -s"] ∧
    (set_mousetweaks_daemon { host_with [] [] [] with mousetweaks_missing := false }
      (manager_with { default_settings with dwell_click_enabled := true } [] [])
      true false).settings.dwell_click_enabled = true ∧
    (set_mousetweaks_daemon { host_with [] [] [] with mousetweaks_missing := false }
      (set_mousetweaks_daemon { host_with [] [] [] with mousetweaks_missing := false }
        (manager_with { default_settings with dwell_click_enabled := true } [] [])
        true false) true false).spawn_attempts = ["mousetweaks ", "mousetweaks "] := by
  decide

/-- Claim C22, amended: when the typing-disable helper or the pointer
locator is desired on and its spawn fails, the originating setting is reset
to false and the helper is recorded as not running, so that the same event,
which reads the setting again, makes no further spawn attempt. When the
accessibility daemon is desired on and its start fails because the program
is not installed, `dwell-click-enabled` is reset to false if it was on, and
otherwise `secondary-click-enabled`. -/
theorem helper_spawn_failure (h : Host) (m : CsdMouseManager) :
    (h.touchpad_is_present = true → m.syndaemon_spawned = false →
      h.syndaemon_in_path = true → h.syndaemon_starts = false →
      (set_disable_w_typing_synaptics h m true).settings.disable_while_typing = false ∧
      (set_disable_w_typing_synaptics h m true).syndaemon_spawned = false ∧
      (set_disable_w_typing_synaptics h m true).spawn_attempts
        = m.spawn_attempts ++ ["syndaemon"] ∧
      (set_disable_w_typing_synaptics h (set_disable_w_typing_synaptics h m true)
        (set_disable_w_typing_synaptics h m true).settings.disable_while_typing).spawn_attempts
        = (set_disable_w_typing_synaptics h m true).spawn_attempts) ∧
    (m.locate_pointer_spawned = false → h.locate_pointer_starts = false →
      (set_locate_pointer h m true).settings.locate_pointer = false ∧
      (set_locate_pointer h m true).locate_pointer_spawned = false ∧
      (set_locate_pointer h m true).spawn_attempts
        = m.spawn_attempts ++ ["csd-locate-pointer"] ∧
      (set_locate_pointer h (set_locate_pointer h m true)
        (set_locate_pointer h m true).settings.locate_pointer).spawn_attempts
        = (set_locate_pointer h m true).spawn_attempts) ∧
    (h.mousetweaks_starts = false → h.mousetweaks_missing = true →
      (∀ secondary_click_enabled : Bool,
        (set_mousetweaks_daemon h m true secondary_click_enabled).settings.dwell_click_enabled
          = false) ∧
      (set_mousetweaks_daemon h m false true).settings.secondary_click_enabled = false) := by
  refine ⟨?_, ?_, ?_⟩
  · intro htp hsp hpath hstart
    have e : set_disable_w_typing_synaptics h m true
        = { m with
            syndaemon_spawned := false
            spawn_attempts := m.spawn_attempts ++ ["syndaemon"]
            settings := { m.settings with disable_while_typing := false } } := by
      simp [set_disable_w_typing_synaptics, htp, hsp, hpath, hstart]
    rw [e]
    simp [set_disable_w_typing_synaptics]
  · intro hsp hstart
    have e : set_locate_pointer h m true
        = { m with
            locate_pointer_spawned := false
            spawn_attempts := m.spawn_attempts ++ ["csd-locate-pointer"]
            settings := { m.settings with locate_pointer := false } } := by
      simp [set_locate_pointer, hsp, hstart]
    rw [e]
    simp [set_locate_pointer]
  · intro hstart hmiss
    refine ⟨?_, ?_⟩
    · intro s
      simp [set_mousetweaks_daemon, hstart, hmiss]
    · simp [set_mousetweaks_daemon, hstart, hmiss]

/-! ## Lifecycle: properties of `csd_mouse_manager_start` and `csd_mouse_manager_stop` -/

/-- Claim C23, counterexample: on a new manager, a second
`csd_mouse_manager_start` adds a second pending startup task and overwrites
the identifier of the first one, so the state differs from that after one
call; a single `csd_mouse_manager_stop` then cancels the second task only and
the first stays pending. -/
theorem csd_mouse_manager_start_twice :
    (csd_mouse_manager_start true new_manager_object).context.idle_sources = [1] ∧
    (csd_mouse_manager_start true
      (csd_mouse_manager_start true new_manager_object)).context.idle_sources = [1, 2] ∧
    (csd_mouse_manager_stop (host_with [] [] [])
      (csd_mouse_manager_start true new_manager_object)).context.idle_sources = [] ∧
    (csd_mouse_manager_stop (host_with [] [] [])
      (csd_mouse_manager_start true
        (csd_mouse_manager_start true new_manager_object))).context.idle_sources = [1] := by
  decide

/-- Claim C23, amended: `csd_mouse_manager_stop` is idempotent on the manager
state; `csd_mouse_manager_start` does nothing when the host does not support
XInput, and otherwise every call adds one pending startup task and records
its identifier, and a `csd_mouse_manager_stop` that follows cancels the task
of the last call only. -/
theorem csd_mouse_manager_stop_idempotent (h : Host) (manager : ManagerObject) :
    csd_mouse_manager_stop h (csd_mouse_manager_stop h manager)
      = csd_mouse_manager_stop h manager ∧
    csd_mouse_manager_start false manager = manager ∧
    (csd_mouse_manager_start true manager).context.idle_sources
      = manager.context.idle_sources ++ [manager.context.next_source_id] ∧
    (csd_mouse_manager_start true manager).priv.start_idle_id
      = manager.context.next_source_id ∧
    (manager.context.next_source_id ≠ 0 →
      (csd_mouse_manager_stop h (csd_mouse_manager_start true manager)).context.idle_sources
        = manager.context.idle_sources.filter
            (fun id => id ≠ manager.context.next_source_id)) := by
  obtain ⟨⟨s, bl, ds, sid, hc, mt, syn, loc, sa⟩, ⟨srcs, nxt⟩, so⟩ := manager
  refine ⟨?_, rfl, rfl, rfl, ?_⟩
  · by_cases hsid : sid = 0 <;> cases hc <;> cases loc <;>
      simp [csd_mouse_manager_stop, set_locate_pointer, hsid]
  · intro hne
    have hne' : nxt ≠ 0 := hne
    cases hc <;> cases loc <;>
      simp [csd_mouse_manager_stop, csd_mouse_manager_start, g_source_remove, g_idle_add,
        set_locate_pointer, hne', List.filter_append]

/-! ## Boolean properties: properties of `property_set_bool` -/

/-- Claim C24, counterexample: an 8-bit integer property of 6 bytes. Setting
byte 0 writes the property back with 4 bytes, so its length changes and bytes
4 and 5 are gone; index 5 is below the number of items and yet nothing is
written. -/
theorem property_set_bool_truncates :
    (property_set_bool ["libinput Tapping Enabled"]
      (device_with true [("libinput Tapping Enabled", ⟨XA_INTEGER, 8, [0, 0, 0, 0, 7, 7]⟩)])
      "libinput Tapping Enabled" 0 true).props "libinput Tapping Enabled"
      = some ⟨XA_INTEGER, 8, [1, 0, 0, 0]⟩ ∧
    (property_set_bool ["libinput Tapping Enabled"]
      (device_with true [("libinput Tapping Enabled", ⟨XA_INTEGER, 8, [0, 0, 0, 0, 7, 7]⟩)])
      "libinput Tapping Enabled" 5 true).changes = [] := by
  decide

/-- When the reply to the read does not pass the test of `property_set_bool`,
the device is left as it is. -/
theorem property_set_bool_of_not (atoms : List String) (dev : XDeviceState)
    (property_name : String) (property_index : Nat) (enable : Bool)
    (hc : ¬ ((XGetDeviceProperty atoms dev property_name 1 XA_INTEGER).rc_success = true ∧
      (XGetDeviceProperty atoms dev property_name 1 XA_INTEGER).act_type = XA_INTEGER ∧
      (XGetDeviceProperty atoms dev property_name 1 XA_INTEGER).act_format = 8 ∧
      (XGetDeviceProperty atoms dev property_name 1 XA_INTEGER).nitems > property_index)) :
    property_set_bool atoms dev property_name property_index enable = dev := by
  unfold property_set_bool
  dsimp only
  rw [if_neg hc]
  split_ifs <;> rfl

/-- Claim C24, amended: `property_set_bool` writes nothing when the property
name does not resolve, when the device does not have the property, when the
property is not 8-bit integer typed, or when `property_index` is not below
the number of items; otherwise, for a property of at most 4 bytes (the one
32-bit unit that is read), the byte at `property_index` becomes 1 or 0
according to the value, every other byte and the length of the property are
unchanged, and the write is the only request. No other property of the
device ever changes. -/
theorem property_set_bool_single_byte (atoms : List String) (dev : XDeviceState)
    (property_name : String) (property_index : Nat) (enable : Bool) :
    (property_from_name atoms property_name = false →
      property_set_bool atoms dev property_name property_index enable = dev) ∧
    (dev.props property_name = none →
      property_set_bool atoms dev property_name property_index enable = dev) ∧
    (∀ p : XProperty, dev.props property_name = some p →
      (p.type ≠ XA_INTEGER ∨ p.format ≠ 8 ∨ p.data.length ≤ property_index) →
      property_set_bool atoms dev property_name property_index enable = dev) ∧
    (∀ data : List Int, property_name ∈ atoms → dev.alive = true →
      dev.props property_name = some ⟨XA_INTEGER, 8, data⟩ →
      property_index < data.length → data.length ≤ 4 →
      ∃ w : List Int,
        (property_set_bool atoms dev property_name property_index enable).props property_name
          = some ⟨XA_INTEGER, 8, w⟩ ∧
        (property_set_bool atoms dev property_name property_index enable).changes
          = dev.changes ++ [(property_name, ⟨XA_INTEGER, 8, w⟩)] ∧
        w.length = data.length ∧
        w[property_index]? = some (if enable = true then 1 else 0) ∧
        ∀ j : Nat, j ≠ property_index → w[j]? = data[j]?) ∧
    (∀ n : String, n ≠ property_name →
      (property_set_bool atoms dev property_name property_index enable).props n
        = dev.props n) := by
  refine ⟨?_, ?_, ?_, ?_, ?_⟩
  · intro hn
    simp [property_set_bool, hn]
  · intro hnone
    apply property_set_bool_of_not
    rintro ⟨-, ht, -, -⟩
    revert ht
    unfold XGetDeviceProperty
    split_ifs <;> simp [hnone, XA_INTEGER]
  · intro p hp hbad
    apply property_set_bool_of_not
    rintro ⟨-, ht, hf, hn⟩
    have hle := get_nitems_le atoms dev property_name p 1 XA_INTEGER hp
    revert ht hf
    unfold XGetDeviceProperty
    split_ifs with g1
    · simp [XA_INTEGER]
    · rw [hp]
      dsimp only
      split_ifs with g2
      · simp [XA_INTEGER]
        intro ht
        exact absurd ht g2
      · dsimp only
        intro ht hf
        rcases hbad with hb | hb | hb
        · exact hb ht
        · exact hb hf
        · omega
  · intro data hatom halive hprop hidx hlen
    have hget := get_int8_property atoms dev property_name data 1 hatom halive hprop
    have htake : data.take 4 = data := List.take_of_length_le hlen
    refine ⟨data.set property_index (if enable = true then 1 else 0), ?_, ?_, ?_, ?_, ?_⟩
    · unfold property_set_bool
      rw [hget]
      simp [property_from_name, hatom, XChangeDeviceProperty, XGetReply.nitems, htake, hidx,
        List.take_of_length_le]
    · unfold property_set_bool
      rw [hget]
      simp [property_from_name, hatom, XChangeDeviceProperty, XGetReply.nitems, htake, hidx,
        List.take_of_length_le]
    · simp
    · simp [hidx]
    · intro j hj
      simp [List.getElem?_set, Ne.symm hj]
  · intro n hn
    exact property_set_bool_props_ne atoms dev property_name n property_index enable hn

/-! ## The error trap -/

/-- Claim C26, the code at the failing inputs: `set_scroll_wheel_button` on
a trackball whose `Evdev Wheel Emulation` is one 8-bit item pushes the trap
twice and pops it once; `set_motion_legacy_driver` leaves by `goto out`
before the pop when the device has no feedback list; `device_is_trackball`
returns before the pop when there is no device list. Each leaves the trap
one level deeper than it found it, whatever the depth before; on the other
paths, and in `open_gdk_device` and `property_set_bool`, the depth is
restored. -/
theorem error_trap_left_pushed (depth : Nat) :
    set_scroll_wheel_button_trap ["Evdev Wheel Emulation", "Evdev Wheel Emulation Button"]
      (device_with false [("Evdev Wheel Emulation", ⟨XA_INTEGER, 8, [0]⟩),
        ("Evdev Wheel Emulation Button", ⟨XA_INTEGER, 8, [4]⟩)]) true false depth
      = depth + 1 ∧
    set_motion_legacy_driver_trap (device_with false []) true depth = depth + 1 ∧
    device_is_trackball_trap true depth = depth + 1 ∧
    set_scroll_wheel_button_trap ["Evdev Wheel Emulation", "Evdev Wheel Emulation Button"]
      (device_with false []) true false depth = depth ∧
    set_motion_legacy_driver_trap (device_with false []) false depth = depth ∧
    device_is_trackball_trap false depth = depth ∧
    open_gdk_device_trap depth = depth ∧
    (∀ (atoms : List String) (property_name : String),
      property_set_bool_trap atoms property_name depth = depth) := by
  refine ⟨?_, ?_, ?_, ?_, ?_, ?_, ?_, ?_⟩
  · simp [set_scroll_wheel_button_trap, device_is_trackball_trap, open_gdk_device_trap,
      gdk_error_trap_push, gdk_error_trap_pop, property_from_name, XGetDeviceProperty,
      device_with, XGetReply.nitems, XA_INTEGER]
  · simp [set_motion_legacy_driver_trap, open_gdk_device_trap, gdk_error_trap_push,
      gdk_error_trap_pop, device_with]
  · simp [device_is_trackball_trap, gdk_error_trap_push]
  · simp [set_scroll_wheel_button_trap, device_is_trackball_trap, open_gdk_device_trap,
      gdk_error_trap_push, gdk_error_trap_pop, property_from_name, XGetDeviceProperty,
      device_with, XGetReply.nitems, XA_INTEGER]
  · simp [set_motion_legacy_driver_trap, open_gdk_device_trap, gdk_error_trap_push,
      gdk_error_trap_pop, device_with]
  · simp [device_is_trackball_trap, gdk_error_trap_push, gdk_error_trap_pop]
  · simp [open_gdk_device_trap, gdk_error_trap_push, gdk_error_trap_pop]
  · intro atoms property_name
    unfold property_set_bool_trap
    split_ifs <;> simp [gdk_error_trap_push, gdk_error_trap_pop]

/-! ## Handedness: idempotence and injectivity of `configure_button_layout` -/

/-- Claim C27: for every button map of length n ≥ 1 and every handedness,
applying `configure_button_layout` twice with the same handedness gives the
same map as applying it once. -/
theorem configure_button_layout_idempotent (buttons : List Nat) (left_handed : Bool)
    (hn : 1 ≤ buttons.length) :
    configure_button_layout
        (configure_button_layout buttons buttons.length left_handed) buttons.length left_handed
      = configure_button_layout buttons buttons.length left_handed := by
  cases buttons with
  | nil => simp at hn
  | cons b0 tl =>
    simp only [List.length_cons]
    have e1 := configure_button_layout_cons b0 tl tl.length left_handed
    have e2 := fun (x : Nat) (xs : List Nat) =>
      configure_button_layout_cons x xs tl.length left_handed
    generalize min (tl.length + 1) 3 = R at e1 e2
    rw [e1]
    split_ifs with h1 h2 h3 h4 h5
    · rw [e1, if_pos h1]
    · rw [e2]
      by_cases hR : R = 1
      · simp [hR, h2.1]
      · simp [hR, h2.1]
    · rw [e2]
      by_cases hR : R = 1
      · simp [hR, h2.1]
      · simp [hR, h2.1]
    · rw [e2]
      by_cases hR : 1 = R
      · simp [← hR, h4.1]
      · simp [hR, h4.1]
    · rw [e2]
      by_cases hR : 1 = R
      · simp [← hR, h4.1]
      · simp [hR, h4.1]
    · rw [e1, if_neg h1, if_neg h2, if_neg h4]

/-- Claim C27, instance: the map `[1, 2, 3]` made left-handed twice. -/
theorem configure_button_layout_idempotent_witness :
    configure_button_layout (configure_button_layout [1, 2, 3] 3 true) 3 true
      = configure_button_layout [1, 2, 3] 3 true :=
  configure_button_layout_idempotent [1, 2, 3] true (by decide)

/-- The search loop leaves a map without the target as it is. -/
theorem swap_first_not_mem (t r : Nat) (k : Nat) (bs : List Nat) (ht : t ∉ bs) :
    swap_first t r k bs = bs := by
  induction bs generalizing k with
  | nil => cases k <;> rfl
  | cons b rest ih =>
    cases k with
    | zero => rfl
    | succ k =>
      have hb : b ≠ t := fun h => ht (by simp [h])
      have hr : t ∉ rest := fun h => ht (by simp [h])
      simp [swap_first, hb, ih k hr]

/-- When the target occurs within the scanned entries, the search loop trades
one occurrence of it for the replacement. -/
theorem swap_first_perm (t r : Nat) (k : Nat) (bs : List Nat) (ht : t ∈ bs)
    (hk : bs.length ≤ k) : (swap_first t r k bs).Perm (r :: bs.erase t) := by
  induction bs generalizing k with
  | nil => simp at ht
  | cons b rest ih =>
    cases k with
    | zero => simp at hk
    | succ k =>
      by_cases hb : b = t
      · subst hb
        simp [swap_first]
      · have hr : t ∈ rest := by
          rcases List.mem_cons.mp ht with h | h
          · exact absurd h.symm hb
          · exact h
        have hlen : rest.length ≤ k := by simpa using hk
        have hbeq : ¬ (b == t) = true := by simpa using hb
        rw [List.erase_cons_tail hbeq]
        simp only [swap_first, if_neg hb]
        exact (List.Perm.cons b (ih k hr hlen)).trans (List.Perm.swap r b _)

/-- On a map with pairwise distinct entries `configure_button_layout`
either permutes the entries, or puts a logical button the map did not hold
in place of the first entry. -/
theorem configure_button_layout_perm_or (b0 : Nat) (tl : List Nat) (left_handed : Bool)
    (hd : (b0 :: tl).Nodup) :
    (configure_button_layout (b0 :: tl) (tl.length + 1) left_handed).Perm (b0 :: tl) ∨
    ((configure_button_layout (b0 :: tl) (tl.length + 1) left_handed).Nodup ∧
      (1 ∉ b0 :: tl ∨ min (tl.length + 1) 3 ∉ b0 :: tl)) := by
  have hb0 : b0 ∉ tl := (List.nodup_cons.mp hd).1
  have htl : tl.Nodup := (List.nodup_cons.mp hd).2
  rw [configure_button_layout_cons b0 tl tl.length left_handed]
  generalize min (tl.length + 1) 3 = R
  split_ifs with h1 h2 h3 h4 h5
  · exact Or.inl (List.Perm.refl _)
  · rw [← h3]
    exact Or.inl (List.Perm.refl _)
  · by_cases hR : R ∈ tl
    · left
      have hp := swap_first_perm R 1 tl.length tl hR le_rfl
      refine (List.Perm.cons R hp).trans ((List.Perm.swap 1 R _).trans ?_)
      rw [h2.2]
      exact List.Perm.cons 1 (List.perm_cons_erase hR).symm
    · right
      rw [swap_first_not_mem R 1 tl.length tl hR]
      refine ⟨List.nodup_cons.mpr ⟨hR, htl⟩, Or.inr ?_⟩
      intro hmem
      rcases List.mem_cons.mp hmem with h | h
      · exact h3 h.symm
      · exact hR h
  · rw [← h5]
    exact Or.inl (List.Perm.refl _)
  · by_cases hL : 1 ∈ tl
    · left
      have hp := swap_first_perm 1 R tl.length tl hL le_rfl
      refine (List.Perm.cons 1 hp).trans ((List.Perm.swap R 1 _).trans ?_)
      rw [h4.2]
      exact List.Perm.cons R (List.perm_cons_erase hL).symm
    · right
      rw [swap_first_not_mem 1 R tl.length tl hL]
      refine ⟨List.nodup_cons.mpr ⟨hL, htl⟩, Or.inl ?_⟩
      intro hmem
      rcases List.mem_cons.mp hmem with h | h
      · exact h5 h.symm
      · exact hL h
  · exact Or.inl (List.Perm.refl _)

/-- Claim C28: for every button map of length n ≥ 1 whose entries are
pairwise distinct, the map `configure_button_layout` returns has pairwise
distinct entries, and when the input is a permutation of 1..n so is the
result. -/
theorem configure_button_layout_injective (buttons : List Nat) (left_handed : Bool)
    (hn : 1 ≤ buttons.length) (hd : buttons.Nodup) :
    (configure_button_layout buttons buttons.length left_handed).Nodup ∧
    (buttons.Perm (List.range' 1 buttons.length) →
      (configure_button_layout buttons buttons.length left_handed).Perm
        (List.range' 1 buttons.length)) := by
  cases buttons with
  | nil => simp at hn
  | cons b0 tl =>
    simp only [List.length_cons]
    rcases configure_button_layout_perm_or b0 tl left_handed hd with hp | ⟨hnd, hmiss⟩
    · exact ⟨(List.Perm.nodup_iff hp).mpr hd, fun h => hp.trans h⟩
    · refine ⟨hnd, fun h => ?_⟩
      exfalso
      rcases hmiss with h1 | hR
      · apply h1
        rw [List.Perm.mem_iff h]
        simp [List.mem_range']
      · apply hR
        rw [List.Perm.mem_iff h]
        rw [List.mem_range'_1]
        omega

/-- Claim C28, instance: the identity map of three buttons. -/
theorem configure_button_layout_injective_witness :
    (configure_button_layout [1, 2, 3] 3 true).Nodup ∧
    ([1, 2, 3].Perm (List.range' 1 3) →
      (configure_button_layout [1, 2, 3] 3 true).Perm (List.range' 1 3)) :=
  configure_button_layout_injective [1, 2, 3] true (by decide) (by decide)

/-! ## Acceleration: monotonicity of the legacy encoding -/

/-- For a `gfloat` value `0 < x < 1` with custom acceleration on, the legacy
payload has denominator 10 and a numerator from 1 to 10, and decodes to
`(floor (p) + 1) / 10`, with `p` the binary32 product of `x` and 10, which is
at most 1. -/
theorem legacy_tenths_decoded (x : ℚ) (t : Int) (ct : Bool) (h0 : 0 < x) (h1 : x < 1)
    (hx : is_binary32 x = true) :
    (set_motion_legacy_driver x true t ct).accelDenom = 10 ∧
    (1 ≤ (set_motion_legacy_driver x true t ct).accelNum ∧
      (set_motion_legacy_driver x true t ct).accelNum ≤ 10) ∧
    decoded_acceleration (set_motion_legacy_driver x true t ct)
      = (((⌊binary32_round (x * 10)⌋ + 1 : Int)) : ℚ) / 10 ∧
    decoded_acceleration (set_motion_legacy_driver x true t ct) ≤ 1 := by
  rw [legacy_tenths_value x t ct h0 h1]
  have hlo : 0 ≤ ⌊binary32_round (x * 10)⌋ :=
    Int.floor_nonneg.mpr (binary32_product_range h0 h1).2.1
  have hf : ⌊binary32_round (x * 10)⌋ < 10 :=
    Int.floor_lt.mpr (by push_cast; exact binary32_product_lt_ten h0 h1 hx)
  have hq : ((⌊binary32_round (x * 10)⌋ : Int) : ℚ) ≤ 9 := by
    have : ⌊binary32_round (x * 10)⌋ ≤ 9 := by omega
    exact_mod_cast this
  refine ⟨rfl, ⟨?_, ?_⟩, ?_, ?_⟩
  · simp only; omega
  · simp only; omega
  · simp [decoded_acceleration]
  · simp only [decoded_acceleration]
    push_cast
    linarith

/-- Claim C30, counterexample: at the `gfloat` nearest to 0.7, which is
below 0.7, the binary32 product with 10 is 7.0, so the numerator is 8 where
`floor (10 x) + 1` is 7, and 8/10 is above `x + 1/10`. -/
theorem set_motion_legacy_driver_tenths_rounded_product :
    ((0 : ℚ) < 11744051 / 16777216 ∧ (11744051 / 16777216 : ℚ) < 1) ∧
    is_binary32 (11744051 / 16777216) = true ∧
    (set_motion_legacy_driver (11744051 / 16777216) true 0 false).accelNum = 8 ∧
    ⌊10 * (11744051 / 16777216 : ℚ)⌋ + 1 = 7 ∧
    ¬ ((set_motion_legacy_driver (11744051 / 16777216) true 0 false).accelNum : ℚ) / 10
      ≤ 11744051 / 16777216 + 1 / 10 := by
  have h' : set_motion_legacy_driver (11744051 / 16777216) true 0 false
      = { threshold := -1, accelNum := 8, accelDenom := 10 } := by
    rw [legacy_tenths_value (11744051 / 16777216) 0 false (by norm_num) (by norm_num),
      binary32_product_seven_tenths]
    norm_num
  have hf : ⌊10 * (11744051 / 16777216 : ℚ)⌋ = 6 := by
    rw [Int.floor_eq_iff]
    constructor <;> norm_num
  rw [h', hf]
  refine ⟨by norm_num, is_binary32_seven_tenths, rfl, by norm_num, by norm_num⟩

/-- Claim C30, amended: for every `gfloat` value `x` with `0 < x < 1` and
custom-acceleration true the legacy payload has denominator 10 and numerator
`floor (p) + 1`, with `p` the binary32 product of `x` and 10; the numerator
is `floor (10 x) + 1` or one more, a value from 1 to 10, and the decoded
value rounds up: `x < numerator / 10 ≤ x + 1/10 + 2^-21 / 10`. -/
theorem set_motion_legacy_driver_tenths_round_up (x : ℚ) (t : Int) (ct : Bool)
    (h0 : 0 < x) (h1 : x < 1) (hx : is_binary32 x = true) :
    (set_motion_legacy_driver x true t ct).accelDenom = 10 ∧
    (set_motion_legacy_driver x true t ct).accelNum = ⌊binary32_round (x * 10)⌋ + 1 ∧
    (⌊10 * x⌋ + 1 ≤ (set_motion_legacy_driver x true t ct).accelNum ∧
      (set_motion_legacy_driver x true t ct).accelNum ≤ ⌊10 * x⌋ + 2) ∧
    1 ≤ (set_motion_legacy_driver x true t ct).accelNum ∧
    (set_motion_legacy_driver x true t ct).accelNum ≤ 10 ∧
    x < ((set_motion_legacy_driver x true t ct).accelNum : ℚ) / 10 ∧
    ((set_motion_legacy_driver x true t ct).accelNum : ℚ) / 10 ≤ x + 1 / 10 + 1 / 20971520 ∧
    decoded_acceleration (set_motion_legacy_driver x true t ct)
      = ((set_motion_legacy_driver x true t ct).accelNum : ℚ) / 10 := by
  obtain ⟨-, ⟨hn1, hn2⟩, -, -⟩ := legacy_tenths_decoded x t ct h0 h1 hx
  rw [legacy_tenths_value x t ct h0 h1] at hn1 hn2 ⊢
  obtain ⟨hge, hle⟩ := floor_binary32_product h0 h1
  have hprod := binary32_product_le h0 h1
  have hfl : (⌊binary32_round (x * 10)⌋ : ℚ) ≤ binary32_round (x * 10) := Int.floor_le _
  have hfu : x * 10 < (⌊x * 10⌋ : ℚ) + 1 := Int.lt_floor_add_one _
  have hgeq : (⌊x * 10⌋ : ℚ) ≤ (⌊binary32_round (x * 10)⌋ : ℚ) := by exact_mod_cast hge
  have hcomm : ⌊10 * x⌋ = ⌊x * 10⌋ := by rw [mul_comm]
  refine ⟨rfl, rfl, ⟨?_, ?_⟩, hn1, hn2, ?_, ?_, ?_⟩
  · simp only; omega
  · simp only; omega
  · simp only; push_cast; linarith
  · simp only; push_cast; linarith
  · simp [decoded_acceleration]

/-- Claim C30, instance: the `gfloat` nearest to 0.7 gives 8/10. -/
theorem set_motion_legacy_driver_tenths_round_up_witness :
    ((0 : ℚ) < 11744051 / 16777216 ∧ (11744051 / 16777216 : ℚ) < 1 ∧
      is_binary32 (11744051 / 16777216) = true) ∧
    (11744051 / 16777216 : ℚ)
      < ((set_motion_legacy_driver (11744051 / 16777216) true 0 false).accelNum : ℚ) / 10 ∧
    ((set_motion_legacy_driver (11744051 / 16777216) true 0 false).accelNum : ℚ) / 10
      ≤ 11744051 / 16777216 + 1 / 10 + 1 / 20971520 :=
  ⟨⟨by norm_num, by norm_num, is_binary32_seven_tenths⟩,
    (set_motion_legacy_driver_tenths_round_up (11744051 / 16777216) 0 false (by norm_num)
      (by norm_num) is_binary32_seven_tenths).2.2.2.2.2.1,
    (set_motion_legacy_driver_tenths_round_up (11744051 / 16777216) 0 false (by norm_num)
      (by norm_num) is_binary32_seven_tenths).2.2.2.2.2.2.1⟩

/-! ## The blacklist -/

end CsdMouse
